import Mathlib

/-!
Vulkan pipeline layout, descriptor set writer and shader binding layout of LLGL:
a shallow embedding.

The definitions below follow `sources/Renderer/Vulkan/RenderState/VKPipelineLayout.cpp`,
`sources/Renderer/Vulkan/RenderState/VKDescriptorSetWriter.cpp` and the declarations of
`sources/Renderer/Vulkan/Shader/VKShaderBindingLayout.h`.

Conventions of the embedding:

* a native handle is a natural number and `VK_NULL_HANDLE` is `0`;
* a function that throws (`VKTypes::MapFailed`, `VKThrowIfFailed`) returns `Except.error`;
* the Vulkan device is a record of the objects created so far together with an oracle that
  says which creation calls succeed; a successful creation call returns a fresh non-null handle;
* member functions take the object as `self` and return the updated object;
* a `std::vector` is a `List`, its `size()` is the length of the list; the casts of a
  container size to `std::uint32_t` are the identity on the sizes a layout can have (fewer
  than `2^32` elements) and are left out;
* `VKPoolSizeAccumulator`, `VKDescriptorCache` and `VKSampler::CreateVkSampler` are declared
  outside these sources and are modelled from the design document;
* the numeric values of the `BindFlags`, `StageFlags` and `VK_SHADER_STAGE_*` constants are
  declared in headers outside these sources and are taken as a parameter `K : Constants`;
* a pointer into an array of the descriptor set writer is the index of the entry, `nullptr`
  is `none`; the two counters of the writer are incremented modulo `2^32`;
* the bodies of the methods of `VKShaderBindingLayout` are outside these sources and are
  modelled from the design document.
-/

namespace LLGL

/-! ## Plain data -/

/-- Native handle; `0` is `VK_NULL_HANDLE`. -/
abbrev Handle := Nat

/-- The null handle. -/
def VK_NULL_HANDLE : Handle := 0

/-- Enumeration `ResourceType` of the binding descriptor. -/
inductive ResourceType where
  | Undefined
  | Buffer
  | Texture
  | Sampler
  deriving DecidableEq, Repr, Inhabited

/-- Enumeration `VkDescriptorType` of the native API. -/
inductive VkDescriptorType where
  | VK_DESCRIPTOR_TYPE_SAMPLER
  | VK_DESCRIPTOR_TYPE_COMBINED_IMAGE_SAMPLER
  | VK_DESCRIPTOR_TYPE_SAMPLED_IMAGE
  | VK_DESCRIPTOR_TYPE_STORAGE_IMAGE
  | VK_DESCRIPTOR_TYPE_UNIFORM_TEXEL_BUFFER
  | VK_DESCRIPTOR_TYPE_STORAGE_TEXEL_BUFFER
  | VK_DESCRIPTOR_TYPE_UNIFORM_BUFFER
  | VK_DESCRIPTOR_TYPE_STORAGE_BUFFER
  | VK_DESCRIPTOR_TYPE_UNIFORM_BUFFER_DYNAMIC
  | VK_DESCRIPTOR_TYPE_STORAGE_BUFFER_DYNAMIC
  | VK_DESCRIPTOR_TYPE_INPUT_ATTACHMENT
  deriving DecidableEq, Repr, Inhabited

open VkDescriptorType

/-- Numeric constants the code refers to by name (`BindFlags::…`, `StageFlags::…`,
`VK_SHADER_STAGE_…_BIT`); their values are declared outside these sources. -/
structure Constants where
  BindFlags_ConstantBuffer : Nat
  BindFlags_Sampled : Nat
  BindFlags_Storage : Nat
  StageFlags_VertexStage : Nat
  StageFlags_TessControlStage : Nat
  StageFlags_TessEvaluationStage : Nat
  StageFlags_GeometryStage : Nat
  StageFlags_FragmentStage : Nat
  StageFlags_ComputeStage : Nat
  VK_SHADER_STAGE_VERTEX_BIT : Nat
  VK_SHADER_STAGE_TESSELLATION_CONTROL_BIT : Nat
  VK_SHADER_STAGE_TESSELLATION_EVALUATION_BIT : Nat
  VK_SHADER_STAGE_GEOMETRY_BIT : Nat
  VK_SHADER_STAGE_FRAGMENT_BIT : Nat
  VK_SHADER_STAGE_COMPUTE_BIT : Nat

/-- The constants with the values of the public LLGL and Vulkan headers, used for evaluation. -/
def stdConstants : Constants where
  BindFlags_ConstantBuffer := 1 <<< 2
  BindFlags_Sampled := 1 <<< 5
  BindFlags_Storage := 1 <<< 6
  StageFlags_VertexStage := 1 <<< 0
  StageFlags_TessControlStage := 1 <<< 1
  StageFlags_TessEvaluationStage := 1 <<< 2
  StageFlags_GeometryStage := 1 <<< 3
  StageFlags_FragmentStage := 1 <<< 4
  StageFlags_ComputeStage := 1 <<< 5
  VK_SHADER_STAGE_VERTEX_BIT := 0x01
  VK_SHADER_STAGE_TESSELLATION_CONTROL_BIT := 0x02
  VK_SHADER_STAGE_TESSELLATION_EVALUATION_BIT := 0x04
  VK_SHADER_STAGE_GEOMETRY_BIT := 0x08
  VK_SHADER_STAGE_FRAGMENT_BIT := 0x10
  VK_SHADER_STAGE_COMPUTE_BIT := 0x20

/-- Structure `BindingDescriptor`: the fields read by the pipeline layout. -/
structure BindingDescriptor where
  type : ResourceType
  bindFlags : Nat
  stageFlags : Nat
  slot : Nat
  arraySize : Nat
  deriving DecidableEq, Repr, Inhabited

/-- Structure `StaticSamplerDescriptor`; the sampler description is not inspected here and is
kept as an identifier. -/
structure StaticSamplerDescriptor where
  stageFlags : Nat
  slot : Nat
  sampler : Nat
  deriving DecidableEq, Repr, Inhabited

/-- Structure `UniformDescriptor`; only stored and counted by the pipeline layout. -/
structure UniformDescriptor where
  name : String
  arraySize : Nat
  deriving DecidableEq, Repr, Inhabited

/-- Structure `PipelineLayoutDescriptor`. -/
structure PipelineLayoutDescriptor where
  heapBindings : List BindingDescriptor
  bindings : List BindingDescriptor
  staticSamplers : List StaticSamplerDescriptor
  uniforms : List UniformDescriptor
  deriving DecidableEq, Repr, Inhabited

/-- Native structure `VkDescriptorSetLayoutBinding`; `pImmutableSamplers` is `none` for
`nullptr` and otherwise the sampler handle it points to. -/
structure VkDescriptorSetLayoutBinding where
  binding : Nat
  descriptorType : VkDescriptorType
  descriptorCount : Nat
  stageFlags : Nat
  pImmutableSamplers : Option Handle
  deriving DecidableEq, Repr, Inhabited

/-- Structure `VKLayoutBinding`: binding point, LLGL stage flags and native descriptor type. -/
structure VKLayoutBinding where
  dstBinding : Nat
  stageFlags : Nat
  descriptorType : VkDescriptorType
  deriving DecidableEq, Repr, Inhabited

/-- Native structure `VkDescriptorPoolSize`. -/
structure VkDescriptorPoolSize where
  type : VkDescriptorType
  descriptorCount : Nat
  deriving DecidableEq, Repr, Inhabited

/-- Native structure `VkPushConstantRange`. -/
structure VkPushConstantRange where
  stageFlags : Nat
  offset : Nat
  size : Nat
  deriving DecidableEq, Repr, Inhabited

/-- What went wrong when a function throws. -/
inductive Error where
  | mapFailed (typeName : String) (vknTypeName : String)
  | vkFailed (info : String)
  deriving DecidableEq, Repr, Inhabited

deriving instance DecidableEq for Except

/-! ## Static helpers of `VKPipelineLayout.cpp` -/

/-- Function `GetVkShaderStageFlags`: converts the bitmask of `LLGL::StageFlags` to
`VkShaderStageFlags`, one `if` per stage. -/
def GetVkShaderStageFlags (K : Constants) (flags : Nat) : Nat :=
  let bitmask := 0
  let bitmask := if flags &&& K.StageFlags_VertexStage ≠ 0
    then bitmask ||| K.VK_SHADER_STAGE_VERTEX_BIT else bitmask
  let bitmask := if flags &&& K.StageFlags_TessControlStage ≠ 0
    then bitmask ||| K.VK_SHADER_STAGE_TESSELLATION_CONTROL_BIT else bitmask
  let bitmask := if flags &&& K.StageFlags_TessEvaluationStage ≠ 0
    then bitmask ||| K.VK_SHADER_STAGE_TESSELLATION_EVALUATION_BIT else bitmask
  let bitmask := if flags &&& K.StageFlags_GeometryStage ≠ 0
    then bitmask ||| K.VK_SHADER_STAGE_GEOMETRY_BIT else bitmask
  let bitmask := if flags &&& K.StageFlags_FragmentStage ≠ 0
    then bitmask ||| K.VK_SHADER_STAGE_FRAGMENT_BIT else bitmask
  let bitmask := if flags &&& K.StageFlags_ComputeStage ≠ 0
    then bitmask ||| K.VK_SHADER_STAGE_COMPUTE_BIT else bitmask
  bitmask

/-- Function `VKTypes::MapFailed`: never returns, throws. -/
def MapFailed {α : Type} (typeName vknTypeName : String) : Except Error α :=
  .error (.mapFailed typeName vknTypeName)

/-- Function `GetVkDescriptorType`: the native descriptor type of a binding descriptor, or
`MapFailed` when the `switch` is left without a `return`. -/
def GetVkDescriptorType (K : Constants) (desc : BindingDescriptor) :
    Except Error VkDescriptorType :=
  match desc.type with
  | .Sampler => .ok VK_DESCRIPTOR_TYPE_SAMPLER
  | .Texture => .ok VK_DESCRIPTOR_TYPE_SAMPLED_IMAGE
  | .Buffer =>
    if desc.bindFlags &&& K.BindFlags_ConstantBuffer ≠ 0 then
      .ok VK_DESCRIPTOR_TYPE_UNIFORM_BUFFER
    else if desc.bindFlags &&& (K.BindFlags_Sampled ||| K.BindFlags_Storage) ≠ 0 then
      .ok VK_DESCRIPTOR_TYPE_STORAGE_BUFFER
    else
      MapFailed "ResourceType" "VkDescriptorType"
  | _ => MapFailed "ResourceType" "VkDescriptorType"

/-- Function `Convert(VkDescriptorSetLayoutBinding&, const BindingDescriptor&)`: every field
of `dst` is overwritten. -/
def Convert (K : Constants) (dst : VkDescriptorSetLayoutBinding) (src : BindingDescriptor) :
    Except Error VkDescriptorSetLayoutBinding := do
  let dst := { dst with binding := src.slot }
  let descriptorType ← GetVkDescriptorType K src
  let dst := { dst with descriptorType := descriptorType }
  let dst := { dst with descriptorCount := max 1 src.arraySize }
  let dst := { dst with stageFlags := GetVkShaderStageFlags K src.stageFlags }
  let dst := { dst with pImmutableSamplers := none }
  pure dst

/-- Function `Convert(VkDescriptorSetLayoutBinding&, const StaticSamplerDescriptor&,
const VkSampler*)`. -/
def ConvertStaticSampler (K : Constants) (dst : VkDescriptorSetLayoutBinding)
    (src : StaticSamplerDescriptor) (immutableSamplerVK : Option Handle) :
    VkDescriptorSetLayoutBinding :=
  let dst := { dst with binding := src.slot }
  let dst := { dst with descriptorType := VK_DESCRIPTOR_TYPE_SAMPLER }
  let dst := { dst with descriptorCount := 1 }
  let dst := { dst with stageFlags := GetVkShaderStageFlags K src.stageFlags }
  let dst := { dst with pImmutableSamplers := immutableSamplerVK }
  dst

/-! ## The native device -/

/-- Native structure `VkDescriptorSetLayoutCreateInfo` (`sType`, `pNext` carry no information). -/
structure VkDescriptorSetLayoutCreateInfo where
  flags : Nat
  bindingCount : Nat
  pBindings : List VkDescriptorSetLayoutBinding
  deriving DecidableEq, Repr, Inhabited

/-- Native structure `VkPipelineLayoutCreateInfo`; `pPushConstantRanges` is `none` for
`nullptr`. -/
structure VkPipelineLayoutCreateInfo where
  flags : Nat
  setLayoutCount : Nat
  pSetLayouts : List Handle
  pushConstantRangeCount : Nat
  pPushConstantRanges : Option (List VkPushConstantRange)
  deriving DecidableEq, Repr, Inhabited

/-- Native structure `VkDescriptorPoolCreateInfo`. -/
structure VkDescriptorPoolCreateInfo where
  flags : Nat
  maxSets : Nat
  poolSizeCount : Nat
  pPoolSizes : List VkDescriptorPoolSize
  deriving DecidableEq, Repr, Inhabited

/-- Native structure `VkDescriptorSetAllocateInfo`. -/
structure VkDescriptorSetAllocateInfo where
  descriptorPool : Handle
  descriptorSetCount : Nat
  pSetLayouts : List Handle
  deriving DecidableEq, Repr, Inhabited

/-- An object living on the native device, as described by the call that created it. -/
inductive VkObject where
  | descriptorSetLayout (bindings : List VkDescriptorSetLayoutBinding)
  | sampler (samplerDesc : Nat)
  | pipelineLayout (setLayouts : List Handle) (pushConstantRanges : List VkPushConstantRange)
  | descriptorPool (maxSets : Nat) (poolSizes : List VkDescriptorPoolSize)
  | descriptorSet (descriptorPool : Handle) (setLayout : Handle)
  deriving DecidableEq, Repr, Inhabited

/-- The native device: the objects created so far (the object of handle `h ≠ 0` is
`objects[h - 1]`) and the oracle `succeeds`, which tells for a creation call made when `n`
objects exist whether it returns `VK_SUCCESS`. -/
structure VkDevice where
  objects : List VkObject
  succeeds : Nat → Bool

/-- The object a handle refers to, if any. -/
def VkDevice.lookup (device : VkDevice) (h : Handle) : Option VkObject :=
  if h = VK_NULL_HANDLE then none else device.objects.get? (h - 1)

/-- A native creation call: on success the object is stored and its fresh, non-null handle
is returned with result `true`; otherwise nothing is created. -/
def VkDevice.createObject (device : VkDevice) (obj : VkObject) : Bool × Handle × VkDevice :=
  if device.succeeds device.objects.length then
    (true, device.objects.length + 1, { device with objects := device.objects ++ [obj] })
  else
    (false, VK_NULL_HANDLE, device)

/-- Native call `vkCreateDescriptorSetLayout`: the layout holds the first `bindingCount`
entries of `pBindings`. -/
def vkCreateDescriptorSetLayout (device : VkDevice) (createInfo : VkDescriptorSetLayoutCreateInfo) :
    Bool × Handle × VkDevice :=
  device.createObject (.descriptorSetLayout (createInfo.pBindings.take createInfo.bindingCount))

/-- Native call `vkCreatePipelineLayout`. -/
def vkCreatePipelineLayout (device : VkDevice) (createInfo : VkPipelineLayoutCreateInfo) :
    Bool × Handle × VkDevice :=
  device.createObject (.pipelineLayout (createInfo.pSetLayouts.take createInfo.setLayoutCount)
    ((createInfo.pPushConstantRanges.getD []).take createInfo.pushConstantRangeCount))

/-- Native call `vkCreateDescriptorPool`. -/
def vkCreateDescriptorPool (device : VkDevice) (createInfo : VkDescriptorPoolCreateInfo) :
    Bool × Handle × VkDevice :=
  device.createObject (.descriptorPool createInfo.maxSets
    (createInfo.pPoolSizes.take createInfo.poolSizeCount))

/-- Native call `vkAllocateDescriptorSets`: one descriptor set per requested layout; the
handles are returned in order. -/
def vkAllocateDescriptorSets (device : VkDevice) (allocInfo : VkDescriptorSetAllocateInfo) :
    Bool × List Handle × VkDevice :=
  let layouts := allocInfo.pSetLayouts.take allocInfo.descriptorSetCount
  if device.succeeds device.objects.length then
    (true, (List.range layouts.length).map (fun i => device.objects.length + 1 + i),
      { device with
        objects := device.objects ++ layouts.map (VkObject.descriptorSet allocInfo.descriptorPool) })
  else
    (false, [], device)

/-- Function `VKThrowIfFailed`: throws with the given text unless the call succeeded. -/
def VKThrowIfFailed (result : Bool) (info : String) : Except Error Unit :=
  if result then pure () else .error (.vkFailed info)

/-- Modelled from the spec: function `VKSampler::CreateVkSampler` (its source file is not
part of the sources). "The samplers are created first"; "native object-creation failure is
unrecoverable for that PipelineLayout and must be surfaced as a fatal construction error". -/
def CreateVkSampler (device : VkDevice) (samplerDesc : Nat) : Except Error (Handle × VkDevice) := do
  let (result, sampler, device) := device.createObject (.sampler samplerDesc)
  VKThrowIfFailed result "failed to create Vulkan sampler"
  pure (sampler, device)

/-! ## Pool size accumulator and descriptor cache -/

/-- Modelled from the spec: class `VKPoolSizeAccumulator` (its header is not part of the
sources): it "tallies how many binding-table entries of each resource kind are needed,
producing a finalized capacity request", "finalized into a compact per-kind size table".
`counts_` is the tally per descriptor type, `poolSizes_` the finalized table. -/
structure VKPoolSizeAccumulator where
  counts_ : VkDescriptorType → Nat
  poolSizes_ : List VkDescriptorPoolSize

/-- Every descriptor type, in the order of the enumeration. -/
def allDescriptorTypes : List VkDescriptorType :=
  [VK_DESCRIPTOR_TYPE_SAMPLER, VK_DESCRIPTOR_TYPE_COMBINED_IMAGE_SAMPLER,
   VK_DESCRIPTOR_TYPE_SAMPLED_IMAGE, VK_DESCRIPTOR_TYPE_STORAGE_IMAGE,
   VK_DESCRIPTOR_TYPE_UNIFORM_TEXEL_BUFFER, VK_DESCRIPTOR_TYPE_STORAGE_TEXEL_BUFFER,
   VK_DESCRIPTOR_TYPE_UNIFORM_BUFFER, VK_DESCRIPTOR_TYPE_STORAGE_BUFFER,
   VK_DESCRIPTOR_TYPE_UNIFORM_BUFFER_DYNAMIC, VK_DESCRIPTOR_TYPE_STORAGE_BUFFER_DYNAMIC,
   VK_DESCRIPTOR_TYPE_INPUT_ATTACHMENT]

/-- Modelled from the spec: a default-constructed `VKPoolSizeAccumulator`, nothing tallied. -/
def VKPoolSizeAccumulator.new : VKPoolSizeAccumulator :=
  { counts_ := fun _ => 0, poolSizes_ := [] }

/-- Modelled from the spec: method `VKPoolSizeAccumulator::Accumulate(type, count)` adds
`count` entries of the given type to the tally. The call sites that pass no count use the
declared default, one entry. -/
def VKPoolSizeAccumulator.Accumulate (self : VKPoolSizeAccumulator) (type : VkDescriptorType)
    (count : Nat) : VKPoolSizeAccumulator :=
  { self with counts_ := fun t => if t = type then self.counts_ t + count else self.counts_ t }

/-- Modelled from the spec: method `VKPoolSizeAccumulator::Finalize` produces the "compact
per-kind size table": one entry per descriptor type with a non-zero tally. -/
def VKPoolSizeAccumulator.Finalize (self : VKPoolSizeAccumulator) : VKPoolSizeAccumulator :=
  { self with
    poolSizes_ := (allDescriptorTypes.filter (fun t => self.counts_ t ≠ 0)).map
      (fun t => { type := t, descriptorCount := self.counts_ t }) }

/-- Modelled from the spec: method `VKPoolSizeAccumulator::Size`, the number of table entries. -/
def VKPoolSizeAccumulator.Size (self : VKPoolSizeAccumulator) : Nat :=
  self.poolSizes_.length

/-- Modelled from the spec: method `VKPoolSizeAccumulator::Data`, the table entries. -/
def VKPoolSizeAccumulator.Data (self : VKPoolSizeAccumulator) : List VkDescriptorPoolSize :=
  self.poolSizes_

/-- Modelled from the spec: class `VKDescriptorCache` (not part of the sources), "created over
the pool and the dynamic-tier layout, sized identically but excluding immutable-sampler
counts". Only the constructor arguments are kept. -/
structure VKDescriptorCache where
  descriptorPool : Handle
  setLayout : Handle
  sizes : List VkDescriptorPoolSize
  bindings : List VKLayoutBinding
  deriving DecidableEq, Repr, Inhabited

/-! ## Class `VKPipelineLayout` -/

/-- Loop `for_range(i, n)` with a body that cannot throw: `i` runs over `0, …, n-1`. -/
def forRange {σ : Type} (n : Nat) (body : Nat → σ → σ) (s : σ) : σ :=
  (List.range n).foldl (fun s i => body i s) s

/-- Loop `for_range(i, n)` with a body that may throw: the first exception leaves the loop. -/
def forRangeM {σ : Type} (n : Nat) (body : Nat → σ → Except Error σ) (s : σ) : Except Error σ :=
  (List.range n).foldlM (fun s i => body i s) s

/-- Enumerator `SetLayoutType_HeapBindings`. -/
def SetLayoutType_HeapBindings : Nat := 0

/-- Enumerator `SetLayoutType_DynamicBindings`. -/
def SetLayoutType_DynamicBindings : Nat := 1

/-- Enumerator `SetLayoutType_ImmutableSamplers`. -/
def SetLayoutType_ImmutableSamplers : Nat := 2

/-- Enumerator `SetLayoutType_Num`: the number of descriptor set layouts of a pipeline layout. -/
def SetLayoutType_Num : Nat := 3

/-- The data members of class `VKPipelineLayout`. The two arrays have `SetLayoutType_Num`
entries. -/
structure VKPipelineLayout where
  pipelineLayout_ : Handle
  descriptorSetLayouts_ : List Handle
  descriptorSetBindSlots_ : List Nat
  descriptorPool_ : Handle
  staticDescriptorSet_ : Handle
  descriptorCache_ : Option VKDescriptorCache
  heapBindings_ : List VKLayoutBinding
  bindings_ : List VKLayoutBinding
  immutableSamplers_ : List Handle
  uniformDescs_ : List UniformDescriptor
  deriving DecidableEq, Repr, Inhabited

namespace VKPipelineLayout

/-- Method `VKPipelineLayout::CreateVkDescriptorSetLayout`. -/
def CreateVkDescriptorSetLayout (self : VKPipelineLayout) (device : VkDevice)
    (setLayoutType : Nat) (setLayoutBindings : List VkDescriptorSetLayoutBinding) :
    Except Error (VKPipelineLayout × VkDevice) := do
  let createInfo : VkDescriptorSetLayoutCreateInfo :=
    { flags := 0
      bindingCount := setLayoutBindings.length
      pBindings := setLayoutBindings }
  let (result, layout, device) := vkCreateDescriptorSetLayout device createInfo
  let self := { self with
    descriptorSetLayouts_ := self.descriptorSetLayouts_.set setLayoutType layout }
  VKThrowIfFailed result "failed to create Vulkan descriptor set layout"
  pure (self, device)

/-- Method `VKPipelineLayout::CreateBindingSetLayout`; `outBindings` is passed by reference
and returned. -/
def CreateBindingSetLayout (K : Constants) (self : VKPipelineLayout) (device : VkDevice)
    (inBindings : List BindingDescriptor) (outBindings : List VKLayoutBinding)
    (setLayoutType : Nat) :
    Except Error (VKPipelineLayout × List VKLayoutBinding × VkDevice) := do
  let numBindings := inBindings.length
  let setLayoutBindings : List VkDescriptorSetLayoutBinding := List.replicate numBindings default
  let setLayoutBindings ← forRangeM numBindings
    (fun i setLayoutBindings => do
      let dst ← Convert K (setLayoutBindings.getD i default) (inBindings.getD i default)
      pure (setLayoutBindings.set i dst))
    setLayoutBindings
  let (self, device) ← self.CreateVkDescriptorSetLayout device setLayoutType setLayoutBindings
  let outBindings := forRange numBindings
    (fun i outBindings => outBindings ++
      [{ dstBinding := (inBindings.getD i default).slot
         stageFlags := (inBindings.getD i default).stageFlags
         descriptorType := (setLayoutBindings.getD i default).descriptorType }])
    outBindings
  pure (self, outBindings, device)

/-- Method `VKPipelineLayout::CreateImmutableSamplers`. -/
def CreateImmutableSamplers (K : Constants) (self : VKPipelineLayout) (device : VkDevice)
    (staticSamplers : List StaticSamplerDescriptor) :
    Except Error (VKPipelineLayout × VkDevice) := do
  let (self, device) ← staticSamplers.foldlM
    (fun ((self, device) : VKPipelineLayout × VkDevice) staticSamplerDesc => do
      let (sampler, device) ← CreateVkSampler device staticSamplerDesc.sampler
      pure ({ self with immutableSamplers_ := self.immutableSamplers_ ++ [sampler] }, device))
    (self, device)
  let numBindings := staticSamplers.length
  let setLayoutBindings : List VkDescriptorSetLayoutBinding := List.replicate numBindings default
  let setLayoutBindings := forRange numBindings
    (fun i setLayoutBindings =>
      setLayoutBindings.set i
        (ConvertStaticSampler K (setLayoutBindings.getD i default) (staticSamplers.getD i default)
          (self.immutableSamplers_.get? i)))
    setLayoutBindings
  self.CreateVkDescriptorSetLayout device SetLayoutType_ImmutableSamplers setLayoutBindings

/-- Method `VKPipelineLayout::CreateVkPipelineLayout`: returns the new pipeline layout handle
and records the bind slots of the descriptor set layouts that exist. -/
def CreateVkPipelineLayout (self : VKPipelineLayout) (device : VkDevice)
    (pushConstantRanges : List VkPushConstantRange) :
    Except Error (VKPipelineLayout × Handle × VkDevice) := do
  let setLayoutsVK : List Handle := []
  let (self, setLayoutsVK) := forRange SetLayoutType_Num
    (fun i ((self, setLayoutsVK) : VKPipelineLayout × List Handle) =>
      if self.descriptorSetLayouts_.getD i VK_NULL_HANDLE ≠ VK_NULL_HANDLE then
        ({ self with
            descriptorSetBindSlots_ := self.descriptorSetBindSlots_.set i setLayoutsVK.length },
          setLayoutsVK ++ [self.descriptorSetLayouts_.getD i VK_NULL_HANDLE])
      else
        (self, setLayoutsVK))
    (self, setLayoutsVK)
  let layoutCreateInfo : VkPipelineLayoutCreateInfo :=
    if pushConstantRanges.isEmpty then
      { flags := 0
        setLayoutCount := setLayoutsVK.length
        pSetLayouts := setLayoutsVK
        pushConstantRangeCount := 0
        pPushConstantRanges := none }
    else
      { flags := 0
        setLayoutCount := setLayoutsVK.length
        pSetLayouts := setLayoutsVK
        pushConstantRangeCount := pushConstantRanges.length
        pPushConstantRanges := some pushConstantRanges }
  let (result, pipelineLayout, device) := vkCreatePipelineLayout device layoutCreateInfo
  VKThrowIfFailed result "failed to create Vulkan pipeline layout"
  pure (self, pipelineLayout, device)

/-- Method `VKPipelineLayout::CreateDescriptorPool`. A call `Accumulate(type)` without a
count tallies one entry. -/
def CreateDescriptorPool (self : VKPipelineLayout) (device : VkDevice) :
    Except Error (VKPipelineLayout × VkDevice) := do
  let poolSizeAccum := VKPoolSizeAccumulator.new
  let poolSizeAccum := self.bindings_.foldl
    (fun poolSizeAccum binding => poolSizeAccum.Accumulate binding.descriptorType 1)
    poolSizeAccum
  let poolSizeAccum :=
    if !self.immutableSamplers_.isEmpty then
      poolSizeAccum.Accumulate VK_DESCRIPTOR_TYPE_SAMPLER self.immutableSamplers_.length
    else
      poolSizeAccum
  let poolSizeAccum := poolSizeAccum.Finalize
  let poolCreateInfo : VkDescriptorPoolCreateInfo :=
    { flags := 0
      maxSets := 2
      poolSizeCount := poolSizeAccum.Size
      pPoolSizes := poolSizeAccum.Data }
  let (result, descriptorPool, device) := vkCreateDescriptorPool device poolCreateInfo
  let self := { self with descriptorPool_ := descriptorPool }
  VKThrowIfFailed result "failed to create Vulkan descriptor pool for static samplers"
  pure (self, device)

/-- Method `VKPipelineLayout::CreateDescriptorCache`. -/
def CreateDescriptorCache (self : VKPipelineLayout) (setLayout : Handle) : VKPipelineLayout :=
  let poolSizeAccum := VKPoolSizeAccumulator.new
  let poolSizeAccum := self.bindings_.foldl
    (fun poolSizeAccum binding => poolSizeAccum.Accumulate binding.descriptorType 1)
    poolSizeAccum
  let poolSizeAccum := poolSizeAccum.Finalize
  { self with
    descriptorCache_ := some
      { descriptorPool := self.descriptorPool_
        setLayout := setLayout
        sizes := poolSizeAccum.Data.take poolSizeAccum.Size
        bindings := self.bindings_ } }

/-- Method `VKPipelineLayout::CreateStaticDescriptorSet`. -/
def CreateStaticDescriptorSet (self : VKPipelineLayout) (device : VkDevice) (setLayout : Handle) :
    Except Error (VKPipelineLayout × VkDevice) := do
  let allocInfo : VkDescriptorSetAllocateInfo :=
    { descriptorPool := self.descriptorPool_
      descriptorSetCount := 1
      pSetLayouts := [setLayout] }
  let (result, descriptorSets, device) := vkAllocateDescriptorSets device allocInfo
  let self := { self with
    staticDescriptorSet_ := descriptorSets.getD 0 self.staticDescriptorSet_ }
  VKThrowIfFailed result "failed to allocate Vulkan descriptor sets"
  pure (self, device)

/-- The members as the initializer list of the constructor leaves them: null handles, empty
lists, and the uniforms of the descriptor. -/
def init (desc : PipelineLayoutDescriptor) : VKPipelineLayout :=
  { pipelineLayout_ := VK_NULL_HANDLE
    descriptorSetLayouts_ := [VK_NULL_HANDLE, VK_NULL_HANDLE, VK_NULL_HANDLE]
    descriptorSetBindSlots_ := [0, 0, 0]
    descriptorPool_ := VK_NULL_HANDLE
    staticDescriptorSet_ := VK_NULL_HANDLE
    descriptorCache_ := none
    heapBindings_ := []
    bindings_ := []
    immutableSamplers_ := []
    uniformDescs_ := desc.uniforms }

/-- Constructor `VKPipelineLayout::VKPipelineLayout(device, desc)`. -/
def new (K : Constants) (device : VkDevice) (desc : PipelineLayoutDescriptor) :
    Except Error (VKPipelineLayout × VkDevice) := do
  let self := init desc
  let (self, device) ←
    (if !desc.heapBindings.isEmpty then do
      let (self, heapBindings, device) ←
        self.CreateBindingSetLayout K device desc.heapBindings self.heapBindings_
          SetLayoutType_HeapBindings
      pure ({ self with heapBindings_ := heapBindings }, device)
    else
      pure (self, device))
  let (self, device) ←
    (if !desc.bindings.isEmpty then do
      let (self, bindings, device) ←
        self.CreateBindingSetLayout K device desc.bindings self.bindings_
          SetLayoutType_DynamicBindings
      pure ({ self with bindings_ := bindings }, device)
    else
      pure (self, device))
  let (self, device) ←
    (if !desc.staticSamplers.isEmpty then
      self.CreateImmutableSamplers K device desc.staticSamplers
    else
      pure (self, device))
  let (self, device) ←
    (if !desc.bindings.isEmpty || !desc.staticSamplers.isEmpty then
      self.CreateDescriptorPool device
    else
      pure (self, device))
  let self :=
    if !desc.bindings.isEmpty then
      self.CreateDescriptorCache
        (self.descriptorSetLayouts_.getD SetLayoutType_DynamicBindings VK_NULL_HANDLE)
    else
      self
  let (self, device) ←
    (if !desc.staticSamplers.isEmpty then
      self.CreateStaticDescriptorSet device
        (self.descriptorSetLayouts_.getD SetLayoutType_ImmutableSamplers VK_NULL_HANDLE)
    else
      pure (self, device))
  (if !desc.heapBindings.isEmpty || !desc.bindings.isEmpty || !desc.staticSamplers.isEmpty then do
    let (self, pipelineLayout, device) ← self.CreateVkPipelineLayout device []
    pure ({ self with pipelineLayout_ := pipelineLayout }, device)
  else
    pure (self, device))

/-- Method `VKPipelineLayout::GetNumBindings`: the body returns the constant `0`. -/
def GetNumBindings (_self : VKPipelineLayout) : Nat :=
  0

end VKPipelineLayout

/-- One recorded native call `vkCmdBindDescriptorSets`; `pDynamicOffsets` is `none` for
`nullptr`. -/
structure CmdBindDescriptorSets where
  pipelineBindPoint : Nat
  layout : Handle
  firstSet : Nat
  descriptorSetCount : Nat
  pDescriptorSets : List Handle
  dynamicOffsetCount : Nat
  pDynamicOffsets : Option (List Nat)
  deriving DecidableEq, Repr, Inhabited

/-- A command buffer: the native calls recorded into it, oldest first. -/
abbrev VkCommandBuffer := List CmdBindDescriptorSets

/-- Native call `vkCmdBindDescriptorSets`: recorded at the end of the command buffer. -/
def vkCmdBindDescriptorSets (commandBuffer : VkCommandBuffer) (pipelineBindPoint : Nat)
    (layout : Handle) (firstSet : Nat) (descriptorSetCount : Nat) (pDescriptorSets : List Handle)
    (dynamicOffsetCount : Nat) (pDynamicOffsets : Option (List Nat)) : VkCommandBuffer :=
  commandBuffer ++
    [{ pipelineBindPoint := pipelineBindPoint
       layout := layout
       firstSet := firstSet
       descriptorSetCount := descriptorSetCount
       pDescriptorSets := pDescriptorSets
       dynamicOffsetCount := dynamicOffsetCount
       pDynamicOffsets := pDynamicOffsets }]

namespace VKPipelineLayout

/-- Method `VKPipelineLayout::BindStaticDescriptorSet`. -/
def BindStaticDescriptorSet (self : VKPipelineLayout) (commandBuffer : VkCommandBuffer)
    (bindPoint : Nat) : VkCommandBuffer :=
  if self.staticDescriptorSet_ ≠ VK_NULL_HANDLE then
    vkCmdBindDescriptorSets commandBuffer bindPoint self.pipelineLayout_
      (self.descriptorSetBindSlots_.getD SetLayoutType_ImmutableSamplers 0)
      1 [self.staticDescriptorSet_] 0 none
  else
    commandBuffer

/-- Method `VKPipelineLayout::BindDynamicDescriptorSet`. -/
def BindDynamicDescriptorSet (self : VKPipelineLayout) (commandBuffer : VkCommandBuffer)
    (bindPoint : Nat) (descriptorSet : Handle) : VkCommandBuffer :=
  if descriptorSet ≠ VK_NULL_HANDLE then
    vkCmdBindDescriptorSets commandBuffer bindPoint self.pipelineLayout_
      (self.descriptorSetBindSlots_.getD SetLayoutType_DynamicBindings 0)
      1 [descriptorSet] 0 none
  else
    commandBuffer

end VKPipelineLayout

/-! ## Auxiliary definitions used in the statements and proofs -/

/-- The entry `Convert` writes for `src` once its descriptor type has resolved to `type`. -/
def nativeBinding (K : Constants) (src : BindingDescriptor) (type : VkDescriptorType) :
    VkDescriptorSetLayoutBinding :=
  { binding := src.slot
    descriptorType := type
    descriptorCount := max 1 src.arraySize
    stageFlags := GetVkShaderStageFlags K src.stageFlags
    pImmutableSamplers := none }

/-- The descriptor type of `src` when it resolves, and the first enumerator otherwise. -/
def resolvedType (K : Constants) (src : BindingDescriptor) : VkDescriptorType :=
  match GetVkDescriptorType K src with
  | .ok type => type
  | .error _ => default

/-- Whether the descriptor type of `src` resolves. -/
def resolves (K : Constants) (src : BindingDescriptor) : Bool :=
  match GetVkDescriptorType K src with
  | .ok _ => true
  | .error _ => false

/-- A device on which every creation call succeeds and nothing exists yet. -/
def freshDevice : VkDevice :=
  { objects := [], succeeds := fun _ => true }

/-- The device with further objects appended. -/
def VkDevice.extend (device : VkDevice) (objs : List VkObject) : VkDevice :=
  { device with objects := device.objects ++ objs }

/-- The binding point recorded for a binding descriptor. -/
def layoutBinding (K : Constants) (src : BindingDescriptor) : VKLayoutBinding :=
  { dstBinding := src.slot
    stageFlags := src.stageFlags
    descriptorType := resolvedType K src }

/-- The handles of `m` objects created in a row on a device that holds `n` objects. -/
def freshHandles (n m : Nat) : List Handle :=
  (List.range m).map (fun i => n + 1 + i)

/-- The tally `CreateDescriptorPool` and `CreateDescriptorCache` make of the dynamic bindings. -/
def accumulateBindings (bindings : List VKLayoutBinding) (acc : VKPoolSizeAccumulator) :
    VKPoolSizeAccumulator :=
  bindings.foldl (fun poolSizeAccum binding => poolSizeAccum.Accumulate binding.descriptorType 1)
    acc

/-- The size table `CreateDescriptorPool` hands to the native pool creation. -/
def poolSizeTable (self : VKPipelineLayout) : List VkDescriptorPoolSize :=
  let poolSizeAccum := accumulateBindings self.bindings_ VKPoolSizeAccumulator.new
  let poolSizeAccum :=
    if !self.immutableSamplers_.isEmpty then
      poolSizeAccum.Accumulate VK_DESCRIPTOR_TYPE_SAMPLER self.immutableSamplers_.length
    else
      poolSizeAccum
  let poolSizeAccum := poolSizeAccum.Finalize
  poolSizeAccum.Data.take poolSizeAccum.Size

/-- The number of descriptors a size table holds for one descriptor type. -/
def sizeFor (table : List VkDescriptorPoolSize) (type : VkDescriptorType) : Nat :=
  ((table.filter (fun p => p.type = type)).map (fun p => p.descriptorCount)).sum

/-- The loop of `CreateVkPipelineLayout` over the descriptor set layouts. -/
def bindSlotLoop (self : VKPipelineLayout) : VKPipelineLayout × List Handle :=
  forRange SetLayoutType_Num
    (fun i ((self, setLayoutsVK) : VKPipelineLayout × List Handle) =>
      if self.descriptorSetLayouts_.getD i VK_NULL_HANDLE ≠ VK_NULL_HANDLE then
        ({ self with
            descriptorSetBindSlots_ := self.descriptorSetBindSlots_.set i setLayoutsVK.length },
          setLayoutsVK ++ [self.descriptorSetLayouts_.getD i VK_NULL_HANDLE])
      else
        (self, setLayoutsVK))
    (self, [])

/-- The object and the device after the heap-binding statement of the constructor, when it
does not throw. -/
def stageHeap (K : Constants) (H : List BindingDescriptor) (r : VKPipelineLayout × VkDevice) :
    VKPipelineLayout × VkDevice :=
  ({ r.1 with
      descriptorSetLayouts_ :=
        if H ≠ [] then r.1.descriptorSetLayouts_.set 0 (r.2.objects.length + 1)
        else r.1.descriptorSetLayouts_
      heapBindings_ := r.1.heapBindings_ ++ H.map (layoutBinding K) },
   r.2.extend (if H ≠ [] then
     [.descriptorSetLayout (H.map (fun x => nativeBinding K x (resolvedType K x)))]
     else []))

/-- The object and the device after the dynamic-binding statement, when it does not throw. -/
def stageDynamic (K : Constants) (B : List BindingDescriptor) (r : VKPipelineLayout × VkDevice) :
    VKPipelineLayout × VkDevice :=
  ({ r.1 with
      descriptorSetLayouts_ :=
        if B ≠ [] then r.1.descriptorSetLayouts_.set 1 (r.2.objects.length + 1)
        else r.1.descriptorSetLayouts_
      bindings_ := r.1.bindings_ ++ B.map (layoutBinding K) },
   r.2.extend (if B ≠ [] then
     [.descriptorSetLayout (B.map (fun x => nativeBinding K x (resolvedType K x)))]
     else []))

/-- The object and the device after the static-sampler statement, when it does not throw;
`bs` are the entries of the immutable-sampler layout. -/
def stageSamplers (bs : List VkDescriptorSetLayoutBinding) (S : List StaticSamplerDescriptor)
    (r : VKPipelineLayout × VkDevice) : VKPipelineLayout × VkDevice :=
  ({ r.1 with
      immutableSamplers_ := r.1.immutableSamplers_ ++ freshHandles r.2.objects.length S.length
      descriptorSetLayouts_ :=
        if S ≠ [] then r.1.descriptorSetLayouts_.set 2 (r.2.objects.length + S.length + 1)
        else r.1.descriptorSetLayouts_ },
   r.2.extend (if S ≠ [] then
     S.map (fun x => VkObject.sampler x.sampler) ++ [.descriptorSetLayout bs]
     else []))

/-- The object and the device after the descriptor-pool statement, when it does not throw. -/
def stagePool (c : Bool) (r : VKPipelineLayout × VkDevice) : VKPipelineLayout × VkDevice :=
  ({ r.1 with descriptorPool_ := if c then r.2.objects.length + 1 else r.1.descriptorPool_ },
   r.2.extend (if c then [.descriptorPool 2 (poolSizeTable r.1)] else []))

/-- The object and the device after the descriptor-cache statement. -/
def stageCache (c : Bool) (r : VKPipelineLayout × VkDevice) : VKPipelineLayout × VkDevice :=
  (if c then
     r.1.CreateDescriptorCache
       (r.1.descriptorSetLayouts_.getD SetLayoutType_DynamicBindings VK_NULL_HANDLE)
   else r.1, r.2)

/-- The object and the device after the static-descriptor-set statement, when it does not
throw. -/
def stageStatic (c : Bool) (r : VKPipelineLayout × VkDevice) : VKPipelineLayout × VkDevice :=
  ({ r.1 with
      staticDescriptorSet_ := if c then r.2.objects.length + 1 else r.1.staticDescriptorSet_ },
   r.2.extend (if c then
     [.descriptorSet r.1.descriptorPool_
       (r.1.descriptorSetLayouts_.getD SetLayoutType_ImmutableSamplers VK_NULL_HANDLE)]
     else []))

/-- The object and the device after the pipeline-layout statement, when it does not throw. -/
def stageLayout (c : Bool) (r : VKPipelineLayout × VkDevice) : VKPipelineLayout × VkDevice :=
  (if c then { (bindSlotLoop r.1).1 with pipelineLayout_ := r.2.objects.length + 1 } else r.1,
   r.2.extend (if c then [.pipelineLayout (bindSlotLoop r.1).2 []] else []))

/-- The result of the constructor when no statement throws. -/
def successPath (K : Constants) (bs : List VkDescriptorSetLayoutBinding) (device : VkDevice)
    (desc : PipelineLayoutDescriptor) : VKPipelineLayout × VkDevice :=
  stageLayout (!desc.heapBindings.isEmpty || !desc.bindings.isEmpty || !desc.staticSamplers.isEmpty)
    (stageStatic (!desc.staticSamplers.isEmpty)
      (stageCache (!desc.bindings.isEmpty)
        (stagePool (!desc.bindings.isEmpty || !desc.staticSamplers.isEmpty)
          (stageSamplers bs desc.staticSamplers
            (stageDynamic K desc.bindings
              (stageHeap K desc.heapBindings (VKPipelineLayout.init desc, device)))))))

/-- Whether an object of the device is a descriptor set layout. -/
def VkObject.isDescriptorSetLayout : VkObject → Bool
  | .descriptorSetLayout _ => true
  | _ => false

/-- The number of descriptor set layouts on the device. -/
def VkDevice.numDescriptorSetLayouts (device : VkDevice) : Nat :=
  device.objects.countP VkObject.isDescriptorSetLayout

/-- Whether tier `i` is present: its descriptor set layout handle is not null. -/
def VKPipelineLayout.present (self : VKPipelineLayout) (i : Nat) : Bool :=
  decide (self.descriptorSetLayouts_.getD i VK_NULL_HANDLE ≠ VK_NULL_HANDLE)

/-- A pipeline layout whose heap and immutable-sampler layouts exist and whose dynamic
layout does not. -/
def layoutHeapAndSamplers : VKPipelineLayout :=
  { pipelineLayout_ := VK_NULL_HANDLE
    descriptorSetLayouts_ := [7, VK_NULL_HANDLE, 9]
    descriptorSetBindSlots_ := [0, 0, 0]
    descriptorPool_ := VK_NULL_HANDLE
    staticDescriptorSet_ := VK_NULL_HANDLE
    descriptorCache_ := none
    heapBindings_ := []
    bindings_ := []
    immutableSamplers_ := []
    uniformDescs_ := [] }

/-- Whether an object of the device is a pipeline layout. -/
def VkObject.isPipelineLayout : VkObject → Bool
  | .pipelineLayout _ _ => true
  | _ => false

/-- The number of pipeline layouts on the device. -/
def VkDevice.numPipelineLayouts (device : VkDevice) : Nat :=
  device.objects.countP VkObject.isPipelineLayout

/-- A pipeline layout descriptor with two heap bindings, one dynamic buffer binding (an array
of four storage buffers) and one static sampler. -/
def endToEndDesc : PipelineLayoutDescriptor :=
  { heapBindings :=
      [{ type := .Buffer, bindFlags := 4, stageFlags := 1, slot := 0, arraySize := 0 },
       { type := .Texture, bindFlags := 32, stageFlags := 16, slot := 1, arraySize := 3 }]
    bindings :=
      [{ type := .Buffer, bindFlags := 64, stageFlags := 17, slot := 2, arraySize := 4 }]
    staticSamplers := [{ stageFlags := 16, slot := 3, sampler := 7 }]
    uniforms := [] }

/-! ## Class `VKDescriptorSetWriter` -/

/-- Native structure `VkDescriptorBufferInfo`. -/
structure VkDescriptorBufferInfo where
  buffer : Handle
  offset : Nat
  range : Nat
  deriving DecidableEq, Repr, Inhabited

/-- Native structure `VkDescriptorImageInfo`. -/
structure VkDescriptorImageInfo where
  sampler : Handle
  imageView : Handle
  imageLayout : Nat
  deriving DecidableEq, Repr, Inhabited

/-- Enumeration `VkStructureType` of the native API: the zero value and the two tags the
writer sets. -/
inductive VkStructureType where
  | VK_STRUCTURE_TYPE_APPLICATION_INFO
  | VK_STRUCTURE_TYPE_WRITE_DESCRIPTOR_SET
  | VK_STRUCTURE_TYPE_COPY_DESCRIPTOR_SET
  deriving DecidableEq, Repr, Inhabited

open VkStructureType

/-- Native structure `VkWriteDescriptorSet`; a pointer into the scratch storage of the writer
is the index of the entry, `none` for `nullptr`. -/
structure VkWriteDescriptorSet where
  sType : VkStructureType
  dstSet : Handle
  dstBinding : Nat
  dstArrayElement : Nat
  descriptorCount : Nat
  descriptorType : VkDescriptorType
  pImageInfo : Option Nat
  pBufferInfo : Option Nat
  deriving DecidableEq, Repr, Inhabited

/-- Native structure `VkCopyDescriptorSet`. -/
structure VkCopyDescriptorSet where
  sType : VkStructureType
  srcSet : Handle
  srcBinding : Nat
  srcArrayElement : Nat
  dstSet : Handle
  dstBinding : Nat
  dstArrayElement : Nat
  descriptorCount : Nat
  deriving DecidableEq, Repr, Inhabited

/-- One recorded native call `vkUpdateDescriptorSets`. -/
structure UpdateDescriptorSetsCall where
  descriptorWriteCount : Nat
  pDescriptorWrites : List VkWriteDescriptorSet
  descriptorCopyCount : Nat
  pDescriptorCopies : List VkCopyDescriptorSet
  deriving DecidableEq, Repr, Inhabited

/-- Native call `vkUpdateDescriptorSets`, recorded at the end of the log of the device. -/
def vkUpdateDescriptorSets (log : List UpdateDescriptorSetsCall) (descriptorWriteCount : Nat)
    (pDescriptorWrites : List VkWriteDescriptorSet) (descriptorCopyCount : Nat)
    (pDescriptorCopies : List VkCopyDescriptorSet) : List UpdateDescriptorSetsCall :=
  log ++
    [{ descriptorWriteCount := descriptorWriteCount
       pDescriptorWrites := pDescriptorWrites
       descriptorCopyCount := descriptorCopyCount
       pDescriptorCopies := pDescriptorCopies }]

/-- The data members of class `VKDescriptorSetWriter`. The two counters are `std::uint32_t`. -/
structure VKDescriptorSetWriter where
  bufferInfos_ : List VkDescriptorBufferInfo
  imageInfos_ : List VkDescriptorImageInfo
  numBufferInfos_ : Nat
  numImageInfos_ : Nat
  writes_ : List VkWriteDescriptorSet
  copies_ : List VkCopyDescriptorSet
  deriving DecidableEq, Repr, Inhabited

namespace VKDescriptorSetWriter

/-- Constructor `VKDescriptorSetWriter::VKDescriptorSetWriter`: both scratch arrays get
`numResourceViewsMax` value-initialized entries, the two lists only reserve capacity, and the
counters start at `0` (their initializers are in the class declaration). -/
def new (numResourceViewsMax : Nat) (_numReservedWrites : Nat) (_numReservedCopies : Nat) :
    VKDescriptorSetWriter :=
  { bufferInfos_ := List.replicate numResourceViewsMax default
    imageInfos_ := List.replicate numResourceViewsMax default
    numBufferInfos_ := 0
    numImageInfos_ := 0
    writes_ := []
    copies_ := [] }

/-- Method `VKDescriptorSetWriter::Reset`. -/
def Reset (self : VKDescriptorSetWriter) : VKDescriptorSetWriter :=
  let self := { self with writes_ := [] }
  let self := { self with copies_ := [] }
  let self := { self with numBufferInfos_ := 0 }
  let self := { self with numImageInfos_ := 0 }
  self

/-- Method `VKDescriptorSetWriter::NextBufferInfo`: the pointer returned is the index of the
scratch entry, `none` for `nullptr`; the post-increment is on 32 bits. -/
def NextBufferInfo (self : VKDescriptorSetWriter) : Option Nat × VKDescriptorSetWriter :=
  if self.numBufferInfos_ < self.bufferInfos_.length then
    (some self.numBufferInfos_,
      { self with numBufferInfos_ := (self.numBufferInfos_ + 1) % 2 ^ 32 })
  else
    (none, self)

/-- Method `VKDescriptorSetWriter::NextImageInfo`. -/
def NextImageInfo (self : VKDescriptorSetWriter) : Option Nat × VKDescriptorSetWriter :=
  if self.numImageInfos_ < self.imageInfos_.length then
    (some self.numImageInfos_,
      { self with numImageInfos_ := (self.numImageInfos_ + 1) % 2 ^ 32 })
  else
    (none, self)

/-- Method `VKDescriptorSetWriter::NextWriteDescriptor`: the pointer returned is the index of
the last record of `writes_`. -/
def NextWriteDescriptor (self : VKDescriptorSetWriter) : Nat × VKDescriptorSetWriter :=
  let initialWriteDescriptor : VkWriteDescriptorSet :=
    { sType := VK_STRUCTURE_TYPE_WRITE_DESCRIPTOR_SET
      dstSet := VK_NULL_HANDLE
      dstBinding := 0
      dstArrayElement := 0
      descriptorCount := 0
      descriptorType := default
      pImageInfo := none
      pBufferInfo := none }
  let self := { self with writes_ := self.writes_ ++ [initialWriteDescriptor] }
  (self.writes_.length - 1, self)

/-- Method `VKDescriptorSetWriter::NextCopyDescriptor`: the pointer returned is the index of
the last record of `copies_`. -/
def NextCopyDescriptor (self : VKDescriptorSetWriter) : Nat × VKDescriptorSetWriter :=
  let initialCopyDescriptor : VkCopyDescriptorSet :=
    { sType := VK_STRUCTURE_TYPE_COPY_DESCRIPTOR_SET
      srcSet := VK_NULL_HANDLE
      srcBinding := 0
      srcArrayElement := 0
      dstSet := VK_NULL_HANDLE
      dstBinding := 0
      dstArrayElement := 0
      descriptorCount := 0 }
  let self := { self with copies_ := self.copies_ ++ [initialCopyDescriptor] }
  (self.copies_.length - 1, self)

/-- Method `VKDescriptorSetWriter::UpdateDescriptorSets`: no member is assigned; the native
calls made go to the log of the device. -/
def UpdateDescriptorSets (self : VKDescriptorSetWriter) (device : List UpdateDescriptorSetsCall) :
    VKDescriptorSetWriter × List UpdateDescriptorSetsCall :=
  if !self.writes_.isEmpty || !self.copies_.isEmpty then
    (self, vkUpdateDescriptorSets device self.writes_.length self.writes_
      self.copies_.length self.copies_)
  else
    (self, device)

end VKDescriptorSetWriter

/-- What a user of a `VKDescriptorSetWriter` can do with it: call one of its methods, or
store a value through a pointer that a `Next…` method returned earlier. -/
inductive WriterCall where
  | Reset
  | NextBufferInfo
  | NextImageInfo
  | NextWriteDescriptor
  | NextCopyDescriptor
  | UpdateDescriptorSets
  | StoreBufferInfo (entry : Nat) (value : VkDescriptorBufferInfo)
  | StoreImageInfo (entry : Nat) (value : VkDescriptorImageInfo)
  | StoreWrite (entry : Nat) (value : VkWriteDescriptorSet)
  | StoreCopy (entry : Nat) (value : VkCopyDescriptorSet)
  deriving DecidableEq, Repr, Inhabited

/-- The writer and the log of the device after one call. -/
def WriterCall.step (state : VKDescriptorSetWriter × List UpdateDescriptorSetsCall) :
    WriterCall → VKDescriptorSetWriter × List UpdateDescriptorSetsCall
  | .Reset => (state.1.Reset, state.2)
  | .NextBufferInfo => (state.1.NextBufferInfo.2, state.2)
  | .NextImageInfo => (state.1.NextImageInfo.2, state.2)
  | .NextWriteDescriptor => (state.1.NextWriteDescriptor.2, state.2)
  | .NextCopyDescriptor => (state.1.NextCopyDescriptor.2, state.2)
  | .UpdateDescriptorSets => state.1.UpdateDescriptorSets state.2
  | .StoreBufferInfo entry value =>
    ({ state.1 with bufferInfos_ := state.1.bufferInfos_.set entry value }, state.2)
  | .StoreImageInfo entry value =>
    ({ state.1 with imageInfos_ := state.1.imageInfos_.set entry value }, state.2)
  | .StoreWrite entry value =>
    ({ state.1 with writes_ := state.1.writes_.set entry value }, state.2)
  | .StoreCopy entry value =>
    ({ state.1 with copies_ := state.1.copies_.set entry value }, state.2)

/-- The writer and the log of the device after a sequence of calls, oldest first. -/
def runCalls (calls : List WriterCall)
    (state : VKDescriptorSetWriter × List UpdateDescriptorSetsCall) :
    VKDescriptorSetWriter × List UpdateDescriptorSetsCall :=
  calls.foldl WriterCall.step state

/-- The number of calls of one kind made since the last `Reset` of the sequence, or since its
start when it has none. -/
def callsSinceReset (kind : WriterCall) (calls : List WriterCall) : Nat :=
  calls.foldl
    (fun n call => if call = .Reset then 0 else if call = kind then n + 1 else n)
    0

/-- The writer reached from a freshly constructed one of capacity `M` by a sequence of
calls; the two reserve hints of the constructor do not enter the state. -/
def writerAfter (M : Nat) (calls : List WriterCall) : VKDescriptorSetWriter :=
  (runCalls calls (VKDescriptorSetWriter.new M 0 0, [])).1

/-- The six `StageFlags` masks `GetVkShaderStageFlags` tests, in the order of its `if`s. -/
def Constants.stageFlags (K : Constants) : List Nat :=
  [K.StageFlags_VertexStage, K.StageFlags_TessControlStage, K.StageFlags_TessEvaluationStage,
   K.StageFlags_GeometryStage, K.StageFlags_FragmentStage, K.StageFlags_ComputeStage]

/-- The six native stage bits `GetVkShaderStageFlags` sets, in the order of its `if`s. -/
def Constants.stageBits (K : Constants) : List Nat :=
  [K.VK_SHADER_STAGE_VERTEX_BIT, K.VK_SHADER_STAGE_TESSELLATION_CONTROL_BIT,
   K.VK_SHADER_STAGE_TESSELLATION_EVALUATION_BIT, K.VK_SHADER_STAGE_GEOMETRY_BIT,
   K.VK_SHADER_STAGE_FRAGMENT_BIT, K.VK_SHADER_STAGE_COMPUTE_BIT]

/-- The masks of a list are non-zero and share no bit with one another, as the values of
the headers are. -/
def separateBits (masks : List Nat) : Prop :=
  (∀ x ∈ masks, x ≠ 0) ∧ masks.Pairwise (fun x y => x &&& y = 0)

/-- The native bit one `if` of `GetVkShaderStageFlags` contributes. -/
def stageBit (flags stage bit : Nat) : Nat :=
  if flags &&& stage ≠ 0 then bit else 0

/-! ## Class `VKShaderBindingLayout` -/

/-- Modelled from the spec: structure `BindingSlot` (declared in a header that is not part of
the sources), the "logical (set, binding) address a shader uses to reference a resource". -/
structure BindingSlot where
  index : Nat
  set : Nat
  deriving DecidableEq, Repr, Inhabited

/-- Structure `VKShaderBindingLayout::ModuleBinding`: original and re-assigned descriptor set
and binding index of a binding point, and the word offsets of the two operands. -/
structure ModuleBinding where
  srcDescriptorSet : Nat
  srcBinding : Nat
  dstDescriptorSet : Nat
  dstBinding : Nat
  spirvDescriptorSet : Nat
  spirvBinding : Nat
  deriving DecidableEq, Repr, Inhabited

/-- The data members of class `VKShaderBindingLayout`. -/
structure VKShaderBindingLayout where
  bindings_ : List ModuleBinding
  deriving DecidableEq, Repr, Inhabited

/-- The slot that addresses a module binding: its original set and binding index. -/
def ModuleBinding.srcSlot (binding : ModuleBinding) : BindingSlot :=
  { index := binding.srcBinding, set := binding.srcDescriptorSet }

namespace VKShaderBindingLayout

/-- Modelled from the spec: method `VKShaderBindingLayout::MatchesBindingSlot` (declared in
the header, its body is not part of the sources). A binding addressed by the slot, that is
one whose original set and binding index are the slot's, must "already [have] the requested
destination set (and, if `ascendingOrder`, a binding index equal to its position)";
`dstBinding` is the position, `none` for `nullptr`. A binding the slot does not address
matches. -/
def MatchesBindingSlot (binding : ModuleBinding) (slot : BindingSlot) (dstSet : Nat)
    (dstBinding : Option Nat) : Bool :=
  if binding.srcDescriptorSet = slot.set ∧ binding.srcBinding = slot.index then
    match dstBinding with
    | some position =>
      decide (binding.dstDescriptorSet = dstSet) && decide (binding.dstBinding = position)
    | none => decide (binding.dstDescriptorSet = dstSet)
  else
    true

/-- Modelled from the spec: method `VKShaderBindingLayout::AssignBindingSlot` (declared in
the header, its body is not part of the sources). A binding addressed by the slot gets "its
destination set [updated] to `dstSet` and, only if `ascendingOrder` is requested, […] its
destination binding index [reassigned] to its sequence position […] — otherwise the original
binding index is preserved and only the set changes"; the result tells whether the entry was
"actually changed". -/
def AssignBindingSlot (binding : ModuleBinding) (slot : BindingSlot) (dstSet : Nat)
    (dstBinding : Option Nat) : Bool × ModuleBinding :=
  if binding.srcDescriptorSet = slot.set ∧ binding.srcBinding = slot.index then
    let assigned : ModuleBinding :=
      match dstBinding with
      | some position =>
        { binding with dstDescriptorSet := dstSet, dstBinding := position }
      | none => { binding with dstDescriptorSet := dstSet }
    (decide (assigned ≠ binding), assigned)
  else
    (false, binding)

/-- Modelled from the spec: the walk of `MatchesBindingSlots` over the binding list, from
sequence position `position` on. -/
def matchesFrom (bindings : List ModuleBinding) (dstSet : Nat)
    (dstBindingInAscendingOrder : Bool) : Nat → List BindingSlot → Bool
  | _, [] => true
  | position, slot :: rest =>
    bindings.all (fun binding =>
      MatchesBindingSlot binding slot dstSet
        (if dstBindingInAscendingOrder then some position else none)) &&
    matchesFrom bindings dstSet dstBindingInAscendingOrder (position + 1) rest

/-- Modelled from the spec: method `VKShaderBindingLayout::MatchesBindingSlots` (its body is
not part of the sources) "answers, without mutation, whether every binding addressed by the
iterator already has the requested destination set (and, if `ascendingOrder`, a binding
index equal to its position, 0..N-1, within the set)". The iterator is the list of the slots
it yields. -/
def MatchesBindingSlots (self : VKShaderBindingLayout) (iter : List BindingSlot) (dstSet : Nat)
    (dstBindingInAscendingOrder : Bool) : Bool :=
  matchesFrom self.bindings_ dstSet dstBindingInAscendingOrder 0 iter

/-- Modelled from the spec: the walk of `AssignBindingSlots` over the binding list, from
sequence position `position` on, with the table and the number of entries changed so far. -/
def assignFrom (dstSet : Nat) (dstBindingInAscendingOrder : Bool) :
    Nat → List BindingSlot → Nat × List ModuleBinding → Nat × List ModuleBinding
  | _, [], state => state
  | position, slot :: rest, (numBindings, bindings) =>
    let results := bindings.map (fun binding =>
      AssignBindingSlot binding slot dstSet
        (if dstBindingInAscendingOrder then some position else none))
    assignFrom dstSet dstBindingInAscendingOrder (position + 1) rest
      (numBindings + results.countP (fun result => result.1),
        results.map (fun result => result.2))

/-- Modelled from the spec: method `VKShaderBindingLayout::AssignBindingSlots` (its body is
not part of the sources) "walks the same binding list; for each one found in the module's
binding table, updates its destination set to `dstSet` and, only if `ascendingOrder` is
requested, reassigns its destination binding index to its sequence position (0-based) within
the set […]. Unmatched input bindings are silently skipped […]. Returns the count of entries
actually changed". -/
def AssignBindingSlots (self : VKShaderBindingLayout) (iter : List BindingSlot) (dstSet : Nat)
    (dstBindingInAscendingOrder : Bool) : Nat × VKShaderBindingLayout :=
  let result := assignFrom dstSet dstBindingInAscendingOrder 0 iter (0, self.bindings_)
  (result.1, { self with bindings_ := result.2 })

end VKShaderBindingLayout

/-- What the walk of `AssignBindingSlots` makes of one entry of the binding table. -/
def assignEntry (dstSet : Nat) (dstBindingInAscendingOrder : Bool) :
    Nat → List BindingSlot → ModuleBinding → ModuleBinding
  | _, [], binding => binding
  | position, slot :: rest, binding =>
    assignEntry dstSet dstBindingInAscendingOrder (position + 1) rest
      (VKShaderBindingLayout.AssignBindingSlot binding slot dstSet
        (if dstBindingInAscendingOrder then some position else none)).2

/-! ## General lemmas -/

theorem or_eq_zero_iff (a b : Nat) : a ||| b = 0 ↔ a = 0 ∧ b = 0 := by
  constructor
  · intro h
    have key : ∀ i, (a.testBit i || b.testBit i) = false := by
      intro i
      rw [← Nat.testBit_or, h, Nat.zero_testBit]
    constructor
    · apply Nat.eq_of_testBit_eq
      intro i
      have := key i
      rw [Nat.zero_testBit]
      cases ha : a.testBit i <;> simp_all
    · apply Nat.eq_of_testBit_eq
      intro i
      have := key i
      rw [Nat.zero_testBit]
      cases hb : b.testBit i <;> simp_all
  · rintro ⟨rfl, rfl⟩
    rfl

theorem and_or_ne_zero_iff (x a b : Nat) :
    x &&& (a ||| b) ≠ 0 ↔ (x &&& a ≠ 0 ∨ x &&& b ≠ 0) := by
  rw [Nat.and_or_distrib_left, Ne, or_eq_zero_iff]
  tauto

theorem bind_ok_inv {α β : Type} {x : Except Error α} {f : α → Except Error β} {b : β}
    (h : (x >>= f) = .ok b) : ∃ a, x = .ok a ∧ f a = .ok b := by
  cases x with
  | error e => simp [bind, Except.bind] at h
  | ok a => exact ⟨a, rfl, h⟩

theorem foldlM_error_of_mem {σ ι : Type} (body : σ → ι → Except Error σ) (i : ι)
    (hfail : ∀ s, ∃ e, body s i = .error e) :
    ∀ (l : List ι), i ∈ l → ∀ s, ∃ e, l.foldlM body s = .error e := by
  intro l
  induction l with
  | nil => intro h; simp at h
  | cons a l ih =>
    intro hmem s
    rw [List.foldlM_cons]
    cases hb : body s a with
    | error e => exact ⟨e, rfl⟩
    | ok s1 =>
      rcases List.mem_cons.mp hmem with rfl | hl
      · obtain ⟨e, he⟩ := hfail s
        rw [he] at hb
        cases hb
      · exact ih hl s1

theorem foldl_push (α : Type) (h : Nat → α) (n : Nat) (init : List α) :
    forRange n (fun i out => out ++ [h i]) init = init ++ (List.range n).map h := by
  unfold forRange
  induction n with
  | zero => simp
  | succ n ih => rw [List.range_succ, List.foldl_append, ih]; simp

theorem map_getD_range {α β : Type} (g : α → β) (d : α) (xs : List α) :
    (List.range xs.length).map (fun i => g (xs.getD i d)) = xs.map g := by
  apply List.ext_getElem
  · simp
  · intro n h1 h2
    simp at h1 h2
    simp [List.getD_eq_getElem?_getD, h2]

theorem set_take_replicate {α β : Type} (g : α → β) (d : β) (xs : List α) (k : Nat)
    (hk : k < xs.length) (x : α) (hx : xs[k]? = some x) :
    ((xs.take k).map g ++ List.replicate (xs.length - k) d).set k (g x)
      = (xs.take (k + 1)).map g ++ List.replicate (xs.length - (k + 1)) d := by
  have hlen : ((xs.take k).map g).length = k := by
    simp [List.length_take]; omega
  rw [List.set_append, hlen]
  simp only [lt_irrefl, if_false, Nat.sub_self]
  have h1 : xs.length - k = (xs.length - (k + 1)) + 1 := by omega
  rw [h1, List.replicate_succ, List.set_cons_zero, List.take_succ, hx]
  simp

theorem forRangeM_set_ok {α β : Type} [Inhabited α] [Inhabited β]
    (f : β → α → Except Error β) (g : α → β) (xs : List α)
    (h : ∀ x ∈ xs, ∀ d, f d x = .ok (g x)) :
    forRangeM xs.length
      (fun i v => do
        let y ← f (v.getD i default) (xs.getD i default)
        pure (v.set i y))
      (List.replicate xs.length default) = .ok (xs.map g) := by
  unfold forRangeM
  have inv : ∀ k, k ≤ xs.length →
      (List.range k).foldlM
        (fun v i => do
          let y ← f (v.getD i default) (xs.getD i default)
          pure (v.set i y))
        (List.replicate xs.length default)
      = .ok ((xs.take k).map g ++ List.replicate (xs.length - k) default) := by
    intro k
    induction k with
    | zero => intro _; simp [pure, Except.pure]
    | succ k ih =>
      intro hk
      have hk1 : k < xs.length := by omega
      rw [List.range_succ, List.foldlM_append, ih (by omega)]
      have hx : xs[k]? = some xs[k] := by simp [hk1]
      have hmem : xs[k] ∈ xs := List.getElem_mem _
      have hd : xs.getD k default = xs[k] := by simp [List.getD_eq_getElem?_getD, hk1]
      simp only [bind, Except.bind, List.foldlM_cons, List.foldlM_nil, hd, h _ hmem, pure,
        Except.pure]
      rw [set_take_replicate g default xs k hk1 xs[k] hx]
  have := inv xs.length (le_refl _)
  simpa using this

theorem forRangeM_set_error {α β : Type} [Inhabited α] [Inhabited β]
    (f : β → α → Except Error β) (xs : List α) (x : α) (hx : x ∈ xs)
    (h : ∀ d, ∃ e, f d x = .error e) (init : List β) :
    ∃ e, forRangeM xs.length
      (fun i v => do
        let y ← f (v.getD i default) (xs.getD i default)
        pure (v.set i y))
      init = .error e := by
  unfold forRangeM
  obtain ⟨n, hn, hxn⟩ := List.getElem_of_mem hx
  apply foldlM_error_of_mem _ n _ _ (List.mem_range.mpr hn)
  intro s
  have hd : xs.getD n default = x := by simp [List.getD_eq_getElem?_getD, hn, hxn]
  obtain ⟨e, he⟩ := h (s.getD n default)
  refine ⟨e, ?_⟩
  show (f (s.getD n default) (xs.getD n default) >>= _) = _
  rw [hd, he]
  rfl

/-! ## The device after further creation calls -/

theorem VkDevice.extend_extend (device : VkDevice) (a b : List VkObject) :
    (device.extend a).extend b = device.extend (a ++ b) := by
  simp [VkDevice.extend]

theorem VkDevice.extend_objects (device : VkDevice) (a : List VkObject) :
    (device.extend a).objects = device.objects ++ a := rfl

theorem VkDevice.extend_succeeds (device : VkDevice) (a : List VkObject) :
    (device.extend a).succeeds = device.succeeds := rfl

theorem VkDevice.extend_nil (device : VkDevice) : device.extend [] = device := by
  simp [VkDevice.extend]

/-! ## What each step of the constructor does -/

theorem Convert_ok (K : Constants) (dst : VkDescriptorSetLayoutBinding) (src : BindingDescriptor)
    (h : resolves K src = true) :
    Convert K dst src = .ok (nativeBinding K src (resolvedType K src)) := by
  unfold resolves at h
  unfold Convert resolvedType nativeBinding
  cases hg : GetVkDescriptorType K src with
  | error e => simp [hg] at h
  | ok t => rfl

theorem Convert_error (K : Constants) (dst : VkDescriptorSetLayoutBinding) (src : BindingDescriptor)
    (h : resolves K src = false) :
    ∃ e, Convert K dst src = .error e := by
  unfold resolves at h
  unfold Convert
  cases hg : GetVkDescriptorType K src with
  | error e => exact ⟨e, rfl⟩
  | ok t => simp [hg] at h

theorem CreateVkDescriptorSetLayout_eq (self : VKPipelineLayout) (device : VkDevice)
    (setLayoutType : Nat) (bs : List VkDescriptorSetLayoutBinding) :
    self.CreateVkDescriptorSetLayout device setLayoutType bs =
      if device.succeeds device.objects.length then
        .ok ({ self with
                descriptorSetLayouts_ :=
                  self.descriptorSetLayouts_.set setLayoutType (device.objects.length + 1) },
             device.extend [.descriptorSetLayout bs])
      else .error (.vkFailed "failed to create Vulkan descriptor set layout") := by
  unfold VKPipelineLayout.CreateVkDescriptorSetLayout vkCreateDescriptorSetLayout
    VkDevice.createObject VKThrowIfFailed VkDevice.extend
  split <;> simp_all [bind, Except.bind, pure, Except.pure]

theorem CreateBindingSetLayout_eq (K : Constants) (self : VKPipelineLayout) (device : VkDevice)
    (inBindings : List BindingDescriptor) (outBindings : List VKLayoutBinding)
    (setLayoutType : Nat) (h : ∀ x ∈ inBindings, resolves K x = true) :
    self.CreateBindingSetLayout K device inBindings outBindings setLayoutType =
      if device.succeeds device.objects.length then
        .ok ({ self with
                descriptorSetLayouts_ :=
                  self.descriptorSetLayouts_.set setLayoutType (device.objects.length + 1) },
             outBindings ++ inBindings.map (layoutBinding K),
             device.extend [.descriptorSetLayout
               (inBindings.map (fun x => nativeBinding K x (resolvedType K x)))])
      else .error (.vkFailed "failed to create Vulkan descriptor set layout") := by
  unfold VKPipelineLayout.CreateBindingSetLayout
  have hloop := forRangeM_set_ok (Convert K) (fun x => nativeBinding K x (resolvedType K x))
    inBindings (fun x hx d => Convert_ok K d x (h x hx))
  dsimp only []
  rw [hloop]
  simp only [bind, Except.bind, CreateVkDescriptorSetLayout_eq]
  by_cases hs : device.succeeds device.objects.length = true
  · simp only [hs, if_true, pure, Except.pure, foldl_push]
    have h1 : (List.range inBindings.length).map
        (fun i => ({ dstBinding := (inBindings.getD i default).slot
                     stageFlags := (inBindings.getD i default).stageFlags
                     descriptorType :=
                       ((inBindings.map (fun x => nativeBinding K x (resolvedType K x))).getD i
                         default).descriptorType } : VKLayoutBinding))
        = inBindings.map (layoutBinding K) := by
      apply List.ext_getElem
      · simp
      · intro n hn1 hn2
        simp at hn1 hn2
        simp [List.getD_eq_getElem?_getD, hn2, layoutBinding, nativeBinding]
    rw [h1]
  · simp only [hs]
    rfl

theorem CreateBindingSetLayout_error (K : Constants) (self : VKPipelineLayout) (device : VkDevice)
    (inBindings : List BindingDescriptor) (outBindings : List VKLayoutBinding)
    (setLayoutType : Nat) (x : BindingDescriptor) (hx : x ∈ inBindings)
    (h : resolves K x = false) :
    ∃ e, self.CreateBindingSetLayout K device inBindings outBindings setLayoutType = .error e := by
  unfold VKPipelineLayout.CreateBindingSetLayout
  obtain ⟨e, he⟩ := forRangeM_set_error (Convert K) inBindings x hx
    (fun d => Convert_error K d x h) (List.replicate inBindings.length default)
  dsimp only []
  rw [he]
  exact ⟨e, rfl⟩

theorem CreateBindingSetLayout_inv (K : Constants) (self : VKPipelineLayout) (device : VkDevice)
    (inBindings : List BindingDescriptor) (outBindings : List VKLayoutBinding)
    (setLayoutType : Nat) (r : VKPipelineLayout × List VKLayoutBinding × VkDevice)
    (h : self.CreateBindingSetLayout K device inBindings outBindings setLayoutType = .ok r) :
    (∀ x ∈ inBindings, resolves K x = true) ∧
    device.succeeds device.objects.length = true ∧
    r = ({ self with
            descriptorSetLayouts_ :=
              self.descriptorSetLayouts_.set setLayoutType (device.objects.length + 1) },
         outBindings ++ inBindings.map (layoutBinding K),
         device.extend [.descriptorSetLayout
           (inBindings.map (fun x => nativeBinding K x (resolvedType K x)))]) := by
  have hres : ∀ x ∈ inBindings, resolves K x = true := by
    intro x hx
    by_contra hne
    have hf : resolves K x = false := by simpa using hne
    obtain ⟨e, he⟩ := CreateBindingSetLayout_error K self device inBindings outBindings
      setLayoutType x hx hf
    rw [he] at h
    cases h
  rw [CreateBindingSetLayout_eq K self device inBindings outBindings setLayoutType hres] at h
  by_cases hs : device.succeeds device.objects.length = true
  · simp only [hs, if_true] at h
    cases h
    exact ⟨hres, hs, rfl⟩
  · simp only [hs] at h
    cases h

theorem CreateVkSampler_eq (device : VkDevice) (samplerDesc : Nat) :
    CreateVkSampler device samplerDesc =
      if device.succeeds device.objects.length then
        .ok (device.objects.length + 1, device.extend [.sampler samplerDesc])
      else .error (.vkFailed "failed to create Vulkan sampler") := by
  unfold CreateVkSampler VkDevice.createObject VKThrowIfFailed VkDevice.extend
  by_cases hs : device.succeeds device.objects.length = true
  · simp [hs, bind, Except.bind, pure, Except.pure]
  · simp [hs, bind, Except.bind, pure, Except.pure]

theorem freshHandles_length (n m : Nat) : (freshHandles n m).length = m := by
  simp [freshHandles]

theorem freshHandles_succ (n m : Nat) :
    freshHandles n (m + 1) = (n + 1) :: freshHandles (n + 1) m := by
  unfold freshHandles
  rw [List.range_succ_eq_map, List.map_cons, List.map_map]
  congr 1
  apply List.map_congr_left
  intro a _
  show n + 1 + (a + 1) = n + 1 + 1 + a
  omega

theorem createSamplers_inv (staticSamplers : List StaticSamplerDescriptor) :
    ∀ (self : VKPipelineLayout) (device : VkDevice) (r : VKPipelineLayout × VkDevice),
    staticSamplers.foldlM
      (fun ((self, device) : VKPipelineLayout × VkDevice) staticSamplerDesc => do
        let (sampler, device) ← CreateVkSampler device staticSamplerDesc.sampler
        pure ({ self with immutableSamplers_ := self.immutableSamplers_ ++ [sampler] }, device))
      (self, device) = .ok r →
    r = ({ self with
            immutableSamplers_ := self.immutableSamplers_ ++
              freshHandles device.objects.length staticSamplers.length },
         device.extend (staticSamplers.map (fun s => VkObject.sampler s.sampler))) := by
  induction staticSamplers with
  | nil =>
    intro self device r h
    simp [pure, Except.pure, freshHandles, VkDevice.extend] at h ⊢
    exact h.symm
  | cons a l ih =>
    intro self device r h
    rw [List.foldlM_cons] at h
    obtain ⟨⟨s1, d1⟩, h1, h2⟩ := bind_ok_inv h
    dsimp only [] at h1
    rw [CreateVkSampler_eq] at h1
    by_cases hs : device.succeeds device.objects.length = true
    · simp only [hs, if_true, bind, Except.bind, pure, Except.pure] at h1
      cases h1
      have := ih _ _ r h2
      rw [this]
      simp [VkDevice.extend_extend, VkDevice.extend_objects, freshHandles_succ]
    · simp only [hs, bind, Except.bind] at h1
      cases h1

theorem CreateImmutableSamplers_inv (K : Constants) (self : VKPipelineLayout) (device : VkDevice)
    (staticSamplers : List StaticSamplerDescriptor) (r : VKPipelineLayout × VkDevice)
    (h : self.CreateImmutableSamplers K device staticSamplers = .ok r) :
    ∃ bs,
    r = ({ self with
            immutableSamplers_ := self.immutableSamplers_ ++
              freshHandles device.objects.length staticSamplers.length
            descriptorSetLayouts_ :=
              self.descriptorSetLayouts_.set SetLayoutType_ImmutableSamplers
                (device.objects.length + staticSamplers.length + 1) },
         device.extend (staticSamplers.map (fun s => VkObject.sampler s.sampler) ++
           [.descriptorSetLayout bs])) := by
  unfold VKPipelineLayout.CreateImmutableSamplers at h
  obtain ⟨⟨s1, d1⟩, h1, h2⟩ := bind_ok_inv h
  have := createSamplers_inv staticSamplers self device _ h1
  cases this
  dsimp only [] at h2
  rw [CreateVkDescriptorSetLayout_eq] at h2
  by_cases hs : (device.extend (staticSamplers.map (fun s => VkObject.sampler s.sampler))).succeeds
      (device.extend (staticSamplers.map (fun s => VkObject.sampler s.sampler))).objects.length
      = true
  · simp only [hs, if_true] at h2
    cases h2
    refine ⟨forRange staticSamplers.length
        (fun i setLayoutBindings =>
          setLayoutBindings.set i
            (ConvertStaticSampler K (setLayoutBindings.getD i default)
              (staticSamplers.getD i default)
              ((self.immutableSamplers_ ++
                freshHandles device.objects.length staticSamplers.length).get? i)))
        (List.replicate staticSamplers.length default), ?_⟩
    simp only [VkDevice.extend_extend, VkDevice.extend_objects, List.length_append,
      List.length_map, Nat.add_assoc]
  · simp only [hs] at h2
    cases h2

theorem CreateDescriptorPool_eq (self : VKPipelineLayout) (device : VkDevice) :
    self.CreateDescriptorPool device =
      if device.succeeds device.objects.length then
        .ok ({ self with descriptorPool_ := device.objects.length + 1 },
             device.extend [.descriptorPool 2 (poolSizeTable self)])
      else .error (.vkFailed "failed to create Vulkan descriptor pool for static samplers") := by
  unfold VKPipelineLayout.CreateDescriptorPool vkCreateDescriptorPool
    VkDevice.createObject VKThrowIfFailed VkDevice.extend poolSizeTable accumulateBindings
  by_cases hs : device.succeeds device.objects.length = true
  · simp [hs, bind, Except.bind, pure, Except.pure]
  · simp [hs, bind, Except.bind, pure, Except.pure]

theorem CreateStaticDescriptorSet_eq (self : VKPipelineLayout) (device : VkDevice)
    (setLayout : Handle) :
    self.CreateStaticDescriptorSet device setLayout =
      if device.succeeds device.objects.length then
        .ok ({ self with staticDescriptorSet_ := device.objects.length + 1 },
             device.extend [.descriptorSet self.descriptorPool_ setLayout])
      else .error (.vkFailed "failed to allocate Vulkan descriptor sets") := by
  unfold VKPipelineLayout.CreateStaticDescriptorSet vkAllocateDescriptorSets
    VKThrowIfFailed VkDevice.extend
  by_cases hs : device.succeeds device.objects.length = true
  · simp [hs, bind, Except.bind, pure, Except.pure]
  · simp [hs, bind, Except.bind, pure, Except.pure]

theorem CreateVkPipelineLayout_eq (self : VKPipelineLayout) (device : VkDevice)
    (pushConstantRanges : List VkPushConstantRange) :
    self.CreateVkPipelineLayout device pushConstantRanges =
      if device.succeeds device.objects.length then
        .ok ((bindSlotLoop self).1, device.objects.length + 1,
             device.extend [.pipelineLayout (bindSlotLoop self).2 pushConstantRanges])
      else .error (.vkFailed "failed to create Vulkan pipeline layout") := by
  unfold VKPipelineLayout.CreateVkPipelineLayout vkCreatePipelineLayout
    VkDevice.createObject VKThrowIfFailed VkDevice.extend bindSlotLoop
  by_cases hs : device.succeeds device.objects.length = true
  · cases pushConstantRanges <;> simp [hs, bind, Except.bind, pure, Except.pure]
  · simp [hs, bind, Except.bind, pure, Except.pure]

theorem bindSlotLoop_eq (self : VKPipelineLayout) (a b c : Handle) (x y z : Nat)
    (hl : self.descriptorSetLayouts_ = [a, b, c]) (hs : self.descriptorSetBindSlots_ = [x, y, z]) :
    bindSlotLoop self =
      ({ self with
          descriptorSetBindSlots_ :=
            [ if a ≠ 0 then 0 else x,
              if b ≠ 0 then (if a ≠ 0 then 1 else 0) else y,
              if c ≠ 0 then (if a ≠ 0 then 1 else 0) + (if b ≠ 0 then 1 else 0) else z ] },
        (if a ≠ 0 then [a] else []) ++ (if b ≠ 0 then [b] else []) ++
          (if c ≠ 0 then [c] else [])) := by
  obtain ⟨pl, dsl, slots, pool, sds, cache, hbs, bs, imm, un⟩ := self
  simp only at hl hs
  subst hl hs
  unfold bindSlotLoop forRange SetLayoutType_Num
  have hr : List.range 3 = [0, 1, 2] := by decide
  rw [hr]
  simp only [List.foldl_cons, List.foldl_nil, VK_NULL_HANDLE]
  by_cases ha : a = 0 <;> by_cases hb : b = 0 <;> by_cases hc : c = 0 <;>
    simp [ha, hb, hc]

/-! ## The statements of the constructor, one by one -/

theorem isEmpty_not_eq_true {α : Type} (l : List α) : ((!l.isEmpty) = true) ↔ l ≠ [] := by
  cases l <;> simp

theorem new_heap_inv (K : Constants) (s : VKPipelineLayout) (d : VkDevice)
    (H : List BindingDescriptor) (r : VKPipelineLayout × VkDevice)
    (h : (if !H.isEmpty then do
            let (self, heapBindings, device) ←
              s.CreateBindingSetLayout K d H s.heapBindings_ SetLayoutType_HeapBindings
            pure ({ self with heapBindings_ := heapBindings }, device)
          else pure (s, d)) = .ok r) :
    (∀ x ∈ H, resolves K x = true) ∧
    r = ({ s with
            descriptorSetLayouts_ :=
              if H ≠ [] then s.descriptorSetLayouts_.set 0 (d.objects.length + 1)
              else s.descriptorSetLayouts_
            heapBindings_ := s.heapBindings_ ++ H.map (layoutBinding K) },
         d.extend (if H ≠ [] then
           [.descriptorSetLayout (H.map (fun x => nativeBinding K x (resolvedType K x)))]
           else [])) := by
  by_cases hH : H = []
  · subst hH
    simp [pure, Except.pure] at h
    subst h
    simp [VkDevice.extend_nil]
  · have hc : (!H.isEmpty) = true := (isEmpty_not_eq_true H).mpr hH
    rw [if_pos hc] at h
    obtain ⟨⟨s1, o1, d1⟩, h1, h2⟩ := bind_ok_inv h
    obtain ⟨hres, -, heq⟩ := CreateBindingSetLayout_inv K s d H _ _ _ h1
    cases heq
    simp only [pure, Except.pure] at h2
    cases h2
    exact ⟨hres, by simp [hH, SetLayoutType_HeapBindings]⟩

theorem new_dynamic_inv (K : Constants) (s : VKPipelineLayout) (d : VkDevice)
    (B : List BindingDescriptor) (r : VKPipelineLayout × VkDevice)
    (h : (if !B.isEmpty then do
            let (self, bindings, device) ←
              s.CreateBindingSetLayout K d B s.bindings_ SetLayoutType_DynamicBindings
            pure ({ self with bindings_ := bindings }, device)
          else pure (s, d)) = .ok r) :
    (∀ x ∈ B, resolves K x = true) ∧
    r = ({ s with
            descriptorSetLayouts_ :=
              if B ≠ [] then s.descriptorSetLayouts_.set 1 (d.objects.length + 1)
              else s.descriptorSetLayouts_
            bindings_ := s.bindings_ ++ B.map (layoutBinding K) },
         d.extend (if B ≠ [] then
           [.descriptorSetLayout (B.map (fun x => nativeBinding K x (resolvedType K x)))]
           else [])) := by
  by_cases hB : B = []
  · subst hB
    simp [pure, Except.pure] at h
    subst h
    simp [VkDevice.extend_nil]
  · have hc : (!B.isEmpty) = true := (isEmpty_not_eq_true B).mpr hB
    rw [if_pos hc] at h
    obtain ⟨⟨s1, o1, d1⟩, h1, h2⟩ := bind_ok_inv h
    obtain ⟨hres, -, heq⟩ := CreateBindingSetLayout_inv K s d B _ _ _ h1
    cases heq
    simp only [pure, Except.pure] at h2
    cases h2
    exact ⟨hres, by simp [hB, SetLayoutType_DynamicBindings]⟩

theorem new_samplers_inv (K : Constants) (s : VKPipelineLayout) (d : VkDevice)
    (S : List StaticSamplerDescriptor) (r : VKPipelineLayout × VkDevice)
    (h : (if !S.isEmpty then s.CreateImmutableSamplers K d S else pure (s, d)) = .ok r) :
    ∃ bs,
    r = ({ s with
            immutableSamplers_ := s.immutableSamplers_ ++ freshHandles d.objects.length S.length
            descriptorSetLayouts_ :=
              if S ≠ [] then s.descriptorSetLayouts_.set 2 (d.objects.length + S.length + 1)
              else s.descriptorSetLayouts_ },
         d.extend (if S ≠ [] then
           S.map (fun x => VkObject.sampler x.sampler) ++ [.descriptorSetLayout bs]
           else [])) := by
  by_cases hS : S = []
  · subst hS
    simp [pure, Except.pure] at h
    subst h
    exact ⟨[], by simp [VkDevice.extend_nil, freshHandles]⟩
  · have hc : (!S.isEmpty) = true := (isEmpty_not_eq_true S).mpr hS
    rw [if_pos hc] at h
    obtain ⟨bs, hbs⟩ := CreateImmutableSamplers_inv K s d S r h
    exact ⟨bs, by simp [hbs, hS, SetLayoutType_ImmutableSamplers]⟩

theorem new_pool_inv (s : VKPipelineLayout) (d : VkDevice) (c : Bool)
    (r : VKPipelineLayout × VkDevice)
    (h : (if c then s.CreateDescriptorPool d else pure (s, d)) = .ok r) :
    r = ({ s with descriptorPool_ := if c then d.objects.length + 1 else s.descriptorPool_ },
         d.extend (if c then [.descriptorPool 2 (poolSizeTable s)] else [])) := by
  cases c
  · simp [pure, Except.pure] at h
    subst h
    simp [VkDevice.extend_nil]
  · simp only [if_true] at h
    rw [CreateDescriptorPool_eq] at h
    by_cases hs : d.succeeds d.objects.length = true
    · simp only [hs, if_true] at h
      cases h
      simp
    · simp only [hs] at h
      cases h

theorem new_static_inv (s : VKPipelineLayout) (d : VkDevice) (c : Bool) (setLayout : Handle)
    (r : VKPipelineLayout × VkDevice)
    (h : (if c then s.CreateStaticDescriptorSet d setLayout else pure (s, d)) = .ok r) :
    r = ({ s with staticDescriptorSet_ := if c then d.objects.length + 1 else s.staticDescriptorSet_ },
         d.extend (if c then [.descriptorSet s.descriptorPool_ setLayout] else [])) := by
  cases c
  · simp [pure, Except.pure] at h
    subst h
    simp [VkDevice.extend_nil]
  · simp only [if_true] at h
    rw [CreateStaticDescriptorSet_eq] at h
    by_cases hs : d.succeeds d.objects.length = true
    · simp only [hs, if_true] at h
      cases h
      simp
    · simp only [hs] at h
      cases h

theorem new_layout_inv (s : VKPipelineLayout) (d : VkDevice) (c : Bool)
    (r : VKPipelineLayout × VkDevice)
    (h : (if c then do
            let (self, pipelineLayout, device) ← s.CreateVkPipelineLayout d []
            pure ({ self with pipelineLayout_ := pipelineLayout }, device)
          else pure (s, d)) = .ok r) :
    r = (if c then { (bindSlotLoop s).1 with pipelineLayout_ := d.objects.length + 1 } else s,
         d.extend (if c then [.pipelineLayout (bindSlotLoop s).2 []] else [])) := by
  cases c
  · simp [pure, Except.pure] at h
    subst h
    simp [VkDevice.extend_nil]
  · simp only [if_true] at h
    obtain ⟨⟨s1, p1, d1⟩, h1, h2⟩ := bind_ok_inv h
    rw [CreateVkPipelineLayout_eq] at h1
    by_cases hs : d.succeeds d.objects.length = true
    · simp only [hs, if_true] at h1
      cases h1
      simp only [pure, Except.pure] at h2
      cases h2
      simp
    · simp only [hs] at h1
      cases h1

/-! ## The constructor on its successful path -/

theorem new_inv (K : Constants) (device : VkDevice) (desc : PipelineLayoutDescriptor)
    (r : VKPipelineLayout × VkDevice) (h : VKPipelineLayout.new K device desc = .ok r) :
    (∀ x ∈ desc.heapBindings, resolves K x = true) ∧
    (∀ x ∈ desc.bindings, resolves K x = true) ∧
    ∃ bs, r = successPath K bs device desc := by
  unfold VKPipelineLayout.new at h
  obtain ⟨⟨s1, d1⟩, h1, h⟩ := bind_ok_inv h
  obtain ⟨hresH, e1⟩ := new_heap_inv K _ _ _ _ h1
  obtain ⟨⟨s2, d2⟩, h2, h⟩ := bind_ok_inv h
  obtain ⟨hresB, e2⟩ := new_dynamic_inv K _ _ _ _ h2
  obtain ⟨⟨s3, d3⟩, h3, h⟩ := bind_ok_inv h
  obtain ⟨bs, e3⟩ := new_samplers_inv K _ _ _ _ h3
  obtain ⟨⟨s4, d4⟩, h4, h⟩ := bind_ok_inv h
  have e4 := new_pool_inv _ _ _ _ h4
  obtain ⟨⟨s6, d6⟩, h6, h⟩ := bind_ok_inv h
  have e6 := new_static_inv _ _ _ _ _ h6
  have e7 := new_layout_inv _ _ _ _ h
  cases e1
  cases e2
  cases e3
  cases e4
  cases e6
  exact ⟨hresH, hresB, bs, e7⟩

/-! ## Projections of the stages -/

theorem bindSlotLoop_frame (s : VKPipelineLayout) :
    (bindSlotLoop s).1 =
      { s with descriptorSetBindSlots_ := (bindSlotLoop s).1.descriptorSetBindSlots_ } := by
  unfold bindSlotLoop forRange SetLayoutType_Num
  have hr : List.range 3 = [0, 1, 2] := by decide
  rw [hr]
  simp only [List.foldl_cons, List.foldl_nil]
  split_ifs <;> rfl

@[simp]
theorem stageHeap_pipelineLayout_ (K : Constants) (H : List BindingDescriptor) (r : VKPipelineLayout × VkDevice) :
    (stageHeap K H r).1.pipelineLayout_ =
      r.1.pipelineLayout_ := rfl

@[simp]
theorem stageHeap_descriptorSetLayouts_ (K : Constants) (H : List BindingDescriptor) (r : VKPipelineLayout × VkDevice) :
    (stageHeap K H r).1.descriptorSetLayouts_ =
      if H ≠ [] then r.1.descriptorSetLayouts_.set 0 (r.2.objects.length + 1)
        else r.1.descriptorSetLayouts_ := rfl

@[simp]
theorem stageHeap_descriptorPool_ (K : Constants) (H : List BindingDescriptor) (r : VKPipelineLayout × VkDevice) :
    (stageHeap K H r).1.descriptorPool_ =
      r.1.descriptorPool_ := rfl

@[simp]
theorem stageHeap_staticDescriptorSet_ (K : Constants) (H : List BindingDescriptor) (r : VKPipelineLayout × VkDevice) :
    (stageHeap K H r).1.staticDescriptorSet_ =
      r.1.staticDescriptorSet_ := rfl

@[simp]
theorem stageHeap_heapBindings_ (K : Constants) (H : List BindingDescriptor) (r : VKPipelineLayout × VkDevice) :
    (stageHeap K H r).1.heapBindings_ =
      r.1.heapBindings_ ++ H.map (layoutBinding K) := rfl

@[simp]
theorem stageHeap_bindings_ (K : Constants) (H : List BindingDescriptor) (r : VKPipelineLayout × VkDevice) :
    (stageHeap K H r).1.bindings_ =
      r.1.bindings_ := rfl

@[simp]
theorem stageHeap_immutableSamplers_ (K : Constants) (H : List BindingDescriptor) (r : VKPipelineLayout × VkDevice) :
    (stageHeap K H r).1.immutableSamplers_ =
      r.1.immutableSamplers_ := rfl

@[simp]
theorem stageHeap_uniformDescs_ (K : Constants) (H : List BindingDescriptor) (r : VKPipelineLayout × VkDevice) :
    (stageHeap K H r).1.uniformDescs_ =
      r.1.uniformDescs_ := rfl

@[simp]
theorem stageHeap_objects (K : Constants) (H : List BindingDescriptor) (r : VKPipelineLayout × VkDevice) :
    (stageHeap K H r).2.objects =
      r.2.objects ++ (if H ≠ [] then
        [.descriptorSetLayout (H.map (fun x => nativeBinding K x (resolvedType K x)))]
        else []) := rfl

@[simp]
theorem stageHeap_succeeds (K : Constants) (H : List BindingDescriptor) (r : VKPipelineLayout × VkDevice) :
    (stageHeap K H r).2.succeeds = r.2.succeeds := rfl

@[simp]
theorem stageDynamic_pipelineLayout_ (K : Constants) (B : List BindingDescriptor) (r : VKPipelineLayout × VkDevice) :
    (stageDynamic K B r).1.pipelineLayout_ =
      r.1.pipelineLayout_ := rfl

@[simp]
theorem stageDynamic_descriptorSetLayouts_ (K : Constants) (B : List BindingDescriptor) (r : VKPipelineLayout × VkDevice) :
    (stageDynamic K B r).1.descriptorSetLayouts_ =
      if B ≠ [] then r.1.descriptorSetLayouts_.set 1 (r.2.objects.length + 1)
        else r.1.descriptorSetLayouts_ := rfl

@[simp]
theorem stageDynamic_descriptorPool_ (K : Constants) (B : List BindingDescriptor) (r : VKPipelineLayout × VkDevice) :
    (stageDynamic K B r).1.descriptorPool_ =
      r.1.descriptorPool_ := rfl

@[simp]
theorem stageDynamic_staticDescriptorSet_ (K : Constants) (B : List BindingDescriptor) (r : VKPipelineLayout × VkDevice) :
    (stageDynamic K B r).1.staticDescriptorSet_ =
      r.1.staticDescriptorSet_ := rfl

@[simp]
theorem stageDynamic_heapBindings_ (K : Constants) (B : List BindingDescriptor) (r : VKPipelineLayout × VkDevice) :
    (stageDynamic K B r).1.heapBindings_ =
      r.1.heapBindings_ := rfl

@[simp]
theorem stageDynamic_bindings_ (K : Constants) (B : List BindingDescriptor) (r : VKPipelineLayout × VkDevice) :
    (stageDynamic K B r).1.bindings_ =
      r.1.bindings_ ++ B.map (layoutBinding K) := rfl

@[simp]
theorem stageDynamic_immutableSamplers_ (K : Constants) (B : List BindingDescriptor) (r : VKPipelineLayout × VkDevice) :
    (stageDynamic K B r).1.immutableSamplers_ =
      r.1.immutableSamplers_ := rfl

@[simp]
theorem stageDynamic_uniformDescs_ (K : Constants) (B : List BindingDescriptor) (r : VKPipelineLayout × VkDevice) :
    (stageDynamic K B r).1.uniformDescs_ =
      r.1.uniformDescs_ := rfl

@[simp]
theorem stageDynamic_objects (K : Constants) (B : List BindingDescriptor) (r : VKPipelineLayout × VkDevice) :
    (stageDynamic K B r).2.objects =
      r.2.objects ++ (if B ≠ [] then
        [.descriptorSetLayout (B.map (fun x => nativeBinding K x (resolvedType K x)))]
        else []) := rfl

@[simp]
theorem stageDynamic_succeeds (K : Constants) (B : List BindingDescriptor) (r : VKPipelineLayout × VkDevice) :
    (stageDynamic K B r).2.succeeds = r.2.succeeds := rfl

@[simp]
theorem stageSamplers_pipelineLayout_ (bs : List VkDescriptorSetLayoutBinding) (S : List StaticSamplerDescriptor) (r : VKPipelineLayout × VkDevice) :
    (stageSamplers bs S r).1.pipelineLayout_ =
      r.1.pipelineLayout_ := rfl

@[simp]
theorem stageSamplers_descriptorSetLayouts_ (bs : List VkDescriptorSetLayoutBinding) (S : List StaticSamplerDescriptor) (r : VKPipelineLayout × VkDevice) :
    (stageSamplers bs S r).1.descriptorSetLayouts_ =
      if S ≠ [] then r.1.descriptorSetLayouts_.set 2 (r.2.objects.length + S.length + 1)
        else r.1.descriptorSetLayouts_ := rfl

@[simp]
theorem stageSamplers_descriptorPool_ (bs : List VkDescriptorSetLayoutBinding) (S : List StaticSamplerDescriptor) (r : VKPipelineLayout × VkDevice) :
    (stageSamplers bs S r).1.descriptorPool_ =
      r.1.descriptorPool_ := rfl

@[simp]
theorem stageSamplers_staticDescriptorSet_ (bs : List VkDescriptorSetLayoutBinding) (S : List StaticSamplerDescriptor) (r : VKPipelineLayout × VkDevice) :
    (stageSamplers bs S r).1.staticDescriptorSet_ =
      r.1.staticDescriptorSet_ := rfl

@[simp]
theorem stageSamplers_heapBindings_ (bs : List VkDescriptorSetLayoutBinding) (S : List StaticSamplerDescriptor) (r : VKPipelineLayout × VkDevice) :
    (stageSamplers bs S r).1.heapBindings_ =
      r.1.heapBindings_ := rfl

@[simp]
theorem stageSamplers_bindings_ (bs : List VkDescriptorSetLayoutBinding) (S : List StaticSamplerDescriptor) (r : VKPipelineLayout × VkDevice) :
    (stageSamplers bs S r).1.bindings_ =
      r.1.bindings_ := rfl

@[simp]
theorem stageSamplers_immutableSamplers_ (bs : List VkDescriptorSetLayoutBinding) (S : List StaticSamplerDescriptor) (r : VKPipelineLayout × VkDevice) :
    (stageSamplers bs S r).1.immutableSamplers_ =
      r.1.immutableSamplers_ ++ freshHandles r.2.objects.length S.length := rfl

@[simp]
theorem stageSamplers_uniformDescs_ (bs : List VkDescriptorSetLayoutBinding) (S : List StaticSamplerDescriptor) (r : VKPipelineLayout × VkDevice) :
    (stageSamplers bs S r).1.uniformDescs_ =
      r.1.uniformDescs_ := rfl

@[simp]
theorem stageSamplers_objects (bs : List VkDescriptorSetLayoutBinding) (S : List StaticSamplerDescriptor) (r : VKPipelineLayout × VkDevice) :
    (stageSamplers bs S r).2.objects =
      r.2.objects ++ (if S ≠ [] then
        S.map (fun x => VkObject.sampler x.sampler) ++ [.descriptorSetLayout bs]
        else []) := rfl

@[simp]
theorem stageSamplers_succeeds (bs : List VkDescriptorSetLayoutBinding) (S : List StaticSamplerDescriptor) (r : VKPipelineLayout × VkDevice) :
    (stageSamplers bs S r).2.succeeds = r.2.succeeds := rfl

@[simp]
theorem stagePool_pipelineLayout_ (c : Bool) (r : VKPipelineLayout × VkDevice) :
    (stagePool c r).1.pipelineLayout_ =
      r.1.pipelineLayout_ := rfl

@[simp]
theorem stagePool_descriptorSetLayouts_ (c : Bool) (r : VKPipelineLayout × VkDevice) :
    (stagePool c r).1.descriptorSetLayouts_ =
      r.1.descriptorSetLayouts_ := rfl

@[simp]
theorem stagePool_descriptorPool_ (c : Bool) (r : VKPipelineLayout × VkDevice) :
    (stagePool c r).1.descriptorPool_ =
      if c then r.2.objects.length + 1 else r.1.descriptorPool_ := rfl

@[simp]
theorem stagePool_staticDescriptorSet_ (c : Bool) (r : VKPipelineLayout × VkDevice) :
    (stagePool c r).1.staticDescriptorSet_ =
      r.1.staticDescriptorSet_ := rfl

@[simp]
theorem stagePool_heapBindings_ (c : Bool) (r : VKPipelineLayout × VkDevice) :
    (stagePool c r).1.heapBindings_ =
      r.1.heapBindings_ := rfl

@[simp]
theorem stagePool_bindings_ (c : Bool) (r : VKPipelineLayout × VkDevice) :
    (stagePool c r).1.bindings_ =
      r.1.bindings_ := rfl

@[simp]
theorem stagePool_immutableSamplers_ (c : Bool) (r : VKPipelineLayout × VkDevice) :
    (stagePool c r).1.immutableSamplers_ =
      r.1.immutableSamplers_ := rfl

@[simp]
theorem stagePool_uniformDescs_ (c : Bool) (r : VKPipelineLayout × VkDevice) :
    (stagePool c r).1.uniformDescs_ =
      r.1.uniformDescs_ := rfl

@[simp]
theorem stagePool_objects (c : Bool) (r : VKPipelineLayout × VkDevice) :
    (stagePool c r).2.objects =
      r.2.objects ++ (if c then [.descriptorPool 2 (poolSizeTable r.1)] else []) := rfl

@[simp]
theorem stagePool_succeeds (c : Bool) (r : VKPipelineLayout × VkDevice) :
    (stagePool c r).2.succeeds = r.2.succeeds := rfl

@[simp]
theorem stageCache_pipelineLayout_ (c : Bool) (r : VKPipelineLayout × VkDevice) :
    (stageCache c r).1.pipelineLayout_ =
      r.1.pipelineLayout_ := by cases c <;> rfl

@[simp]
theorem stageCache_descriptorSetLayouts_ (c : Bool) (r : VKPipelineLayout × VkDevice) :
    (stageCache c r).1.descriptorSetLayouts_ =
      r.1.descriptorSetLayouts_ := by cases c <;> rfl

@[simp]
theorem stageCache_descriptorPool_ (c : Bool) (r : VKPipelineLayout × VkDevice) :
    (stageCache c r).1.descriptorPool_ =
      r.1.descriptorPool_ := by cases c <;> rfl

@[simp]
theorem stageCache_staticDescriptorSet_ (c : Bool) (r : VKPipelineLayout × VkDevice) :
    (stageCache c r).1.staticDescriptorSet_ =
      r.1.staticDescriptorSet_ := by cases c <;> rfl

@[simp]
theorem stageCache_heapBindings_ (c : Bool) (r : VKPipelineLayout × VkDevice) :
    (stageCache c r).1.heapBindings_ =
      r.1.heapBindings_ := by cases c <;> rfl

@[simp]
theorem stageCache_bindings_ (c : Bool) (r : VKPipelineLayout × VkDevice) :
    (stageCache c r).1.bindings_ =
      r.1.bindings_ := by cases c <;> rfl

@[simp]
theorem stageCache_immutableSamplers_ (c : Bool) (r : VKPipelineLayout × VkDevice) :
    (stageCache c r).1.immutableSamplers_ =
      r.1.immutableSamplers_ := by cases c <;> rfl

@[simp]
theorem stageCache_uniformDescs_ (c : Bool) (r : VKPipelineLayout × VkDevice) :
    (stageCache c r).1.uniformDescs_ =
      r.1.uniformDescs_ := by cases c <;> rfl

@[simp]
theorem stageCache_objects (c : Bool) (r : VKPipelineLayout × VkDevice) :
    (stageCache c r).2.objects =
      r.2.objects := rfl

@[simp]
theorem stageCache_succeeds (c : Bool) (r : VKPipelineLayout × VkDevice) :
    (stageCache c r).2.succeeds = r.2.succeeds := rfl

@[simp]
theorem stageStatic_pipelineLayout_ (c : Bool) (r : VKPipelineLayout × VkDevice) :
    (stageStatic c r).1.pipelineLayout_ =
      r.1.pipelineLayout_ := rfl

@[simp]
theorem stageStatic_descriptorSetLayouts_ (c : Bool) (r : VKPipelineLayout × VkDevice) :
    (stageStatic c r).1.descriptorSetLayouts_ =
      r.1.descriptorSetLayouts_ := rfl

@[simp]
theorem stageStatic_descriptorPool_ (c : Bool) (r : VKPipelineLayout × VkDevice) :
    (stageStatic c r).1.descriptorPool_ =
      r.1.descriptorPool_ := rfl

@[simp]
theorem stageStatic_staticDescriptorSet_ (c : Bool) (r : VKPipelineLayout × VkDevice) :
    (stageStatic c r).1.staticDescriptorSet_ =
      if c then r.2.objects.length + 1 else r.1.staticDescriptorSet_ := rfl

@[simp]
theorem stageStatic_heapBindings_ (c : Bool) (r : VKPipelineLayout × VkDevice) :
    (stageStatic c r).1.heapBindings_ =
      r.1.heapBindings_ := rfl

@[simp]
theorem stageStatic_bindings_ (c : Bool) (r : VKPipelineLayout × VkDevice) :
    (stageStatic c r).1.bindings_ =
      r.1.bindings_ := rfl

@[simp]
theorem stageStatic_immutableSamplers_ (c : Bool) (r : VKPipelineLayout × VkDevice) :
    (stageStatic c r).1.immutableSamplers_ =
      r.1.immutableSamplers_ := rfl

@[simp]
theorem stageStatic_uniformDescs_ (c : Bool) (r : VKPipelineLayout × VkDevice) :
    (stageStatic c r).1.uniformDescs_ =
      r.1.uniformDescs_ := rfl

@[simp]
theorem stageStatic_objects (c : Bool) (r : VKPipelineLayout × VkDevice) :
    (stageStatic c r).2.objects =
      r.2.objects ++ (if c then
        [.descriptorSet r.1.descriptorPool_
          (r.1.descriptorSetLayouts_.getD SetLayoutType_ImmutableSamplers VK_NULL_HANDLE)]
        else []) := rfl

@[simp]
theorem stageStatic_succeeds (c : Bool) (r : VKPipelineLayout × VkDevice) :
    (stageStatic c r).2.succeeds = r.2.succeeds := rfl

@[simp]
theorem stageLayout_pipelineLayout_ (c : Bool) (r : VKPipelineLayout × VkDevice) :
    (stageLayout c r).1.pipelineLayout_ =
      if c then r.2.objects.length + 1 else r.1.pipelineLayout_ := by cases c <;> rfl

@[simp]
theorem stageLayout_descriptorSetLayouts_ (c : Bool) (r : VKPipelineLayout × VkDevice) :
    (stageLayout c r).1.descriptorSetLayouts_ =
      r.1.descriptorSetLayouts_ := by
  cases c
  · rfl
  · show ({ (bindSlotLoop r.1).1 with pipelineLayout_ := _ } : VKPipelineLayout).descriptorSetLayouts_ = _
    rw [bindSlotLoop_frame]

@[simp]
theorem stageLayout_descriptorPool_ (c : Bool) (r : VKPipelineLayout × VkDevice) :
    (stageLayout c r).1.descriptorPool_ =
      r.1.descriptorPool_ := by
  cases c
  · rfl
  · show ({ (bindSlotLoop r.1).1 with pipelineLayout_ := _ } : VKPipelineLayout).descriptorPool_ = _
    rw [bindSlotLoop_frame]

@[simp]
theorem stageLayout_staticDescriptorSet_ (c : Bool) (r : VKPipelineLayout × VkDevice) :
    (stageLayout c r).1.staticDescriptorSet_ =
      r.1.staticDescriptorSet_ := by
  cases c
  · rfl
  · show ({ (bindSlotLoop r.1).1 with pipelineLayout_ := _ } : VKPipelineLayout).staticDescriptorSet_ = _
    rw [bindSlotLoop_frame]

@[simp]
theorem stageLayout_heapBindings_ (c : Bool) (r : VKPipelineLayout × VkDevice) :
    (stageLayout c r).1.heapBindings_ =
      r.1.heapBindings_ := by
  cases c
  · rfl
  · show ({ (bindSlotLoop r.1).1 with pipelineLayout_ := _ } : VKPipelineLayout).heapBindings_ = _
    rw [bindSlotLoop_frame]

@[simp]
theorem stageLayout_bindings_ (c : Bool) (r : VKPipelineLayout × VkDevice) :
    (stageLayout c r).1.bindings_ =
      r.1.bindings_ := by
  cases c
  · rfl
  · show ({ (bindSlotLoop r.1).1 with pipelineLayout_ := _ } : VKPipelineLayout).bindings_ = _
    rw [bindSlotLoop_frame]

@[simp]
theorem stageLayout_immutableSamplers_ (c : Bool) (r : VKPipelineLayout × VkDevice) :
    (stageLayout c r).1.immutableSamplers_ =
      r.1.immutableSamplers_ := by
  cases c
  · rfl
  · show ({ (bindSlotLoop r.1).1 with pipelineLayout_ := _ } : VKPipelineLayout).immutableSamplers_ = _
    rw [bindSlotLoop_frame]

@[simp]
theorem stageLayout_uniformDescs_ (c : Bool) (r : VKPipelineLayout × VkDevice) :
    (stageLayout c r).1.uniformDescs_ =
      r.1.uniformDescs_ := by
  cases c
  · rfl
  · show ({ (bindSlotLoop r.1).1 with pipelineLayout_ := _ } : VKPipelineLayout).uniformDescs_ = _
    rw [bindSlotLoop_frame]

@[simp]
theorem stageLayout_objects (c : Bool) (r : VKPipelineLayout × VkDevice) :
    (stageLayout c r).2.objects =
      r.2.objects ++ (if c then [.pipelineLayout (bindSlotLoop r.1).2 []] else []) := rfl

@[simp]
theorem stageLayout_succeeds (c : Bool) (r : VKPipelineLayout × VkDevice) :
    (stageLayout c r).2.succeeds = r.2.succeeds := rfl

/-! ## Facts about the successful path -/

theorem init_fields (desc : PipelineLayoutDescriptor) :
    (VKPipelineLayout.init desc).heapBindings_ = [] ∧
    (VKPipelineLayout.init desc).bindings_ = [] ∧
    (VKPipelineLayout.init desc).immutableSamplers_ = [] ∧
    (VKPipelineLayout.init desc).uniformDescs_ = desc.uniforms ∧
    (VKPipelineLayout.init desc).descriptorSetLayouts_ = [0, 0, 0] ∧
    (VKPipelineLayout.init desc).pipelineLayout_ = 0 ∧
    (VKPipelineLayout.init desc).descriptorPool_ = 0 ∧
    (VKPipelineLayout.init desc).staticDescriptorSet_ = 0 :=
  ⟨rfl, rfl, rfl, rfl, rfl, rfl, rfl, rfl⟩

theorem successPath_bindings (K : Constants) (bs : List VkDescriptorSetLayoutBinding)
    (device : VkDevice) (desc : PipelineLayoutDescriptor) :
    (successPath K bs device desc).1.bindings_ = desc.bindings.map (layoutBinding K) := by
  simp [successPath, init_fields]

theorem successPath_pipelineLayout (K : Constants) (bs : List VkDescriptorSetLayoutBinding)
    (device : VkDevice) (desc : PipelineLayoutDescriptor) :
    (successPath K bs device desc).1.pipelineLayout_ ≠ VK_NULL_HANDLE ↔
      (desc.heapBindings ≠ [] ∨ desc.bindings ≠ [] ∨ desc.staticSamplers ≠ []) := by
  simp only [successPath, stageLayout_pipelineLayout_, stageStatic_pipelineLayout_,
    stageCache_pipelineLayout_, stagePool_pipelineLayout_, stageSamplers_pipelineLayout_,
    stageDynamic_pipelineLayout_, stageHeap_pipelineLayout_, init_fields, VK_NULL_HANDLE]
  cases desc.heapBindings <;> cases desc.bindings <;> cases desc.staticSamplers <;> simp

theorem successPath_descriptorSetLayouts (K : Constants) (bs : List VkDescriptorSetLayoutBinding)
    (device : VkDevice) (desc : PipelineLayoutDescriptor) :
    ∃ a b c, (successPath K bs device desc).1.descriptorSetLayouts_ = [a, b, c] ∧
      (a ≠ 0 ↔ desc.heapBindings ≠ []) ∧ (b ≠ 0 ↔ desc.bindings ≠ []) ∧
      (c ≠ 0 ↔ desc.staticSamplers ≠ []) := by
  simp only [successPath, stageLayout_descriptorSetLayouts_, stageStatic_descriptorSetLayouts_,
    stageCache_descriptorSetLayouts_, stagePool_descriptorSetLayouts_,
    stageSamplers_descriptorSetLayouts_, stageDynamic_descriptorSetLayouts_,
    stageHeap_descriptorSetLayouts_, init_fields]
  cases desc.heapBindings <;> cases desc.bindings <;> cases desc.staticSamplers <;> simp <;>
    exact ⟨_, _, _, ⟨rfl, rfl, rfl⟩, by simp⟩

theorem successPath_numDescriptorSetLayouts (K : Constants)
    (bs : List VkDescriptorSetLayoutBinding) (device : VkDevice)
    (desc : PipelineLayoutDescriptor) :
    (successPath K bs device desc).2.numDescriptorSetLayouts =
      device.numDescriptorSetLayouts +
        ((if desc.heapBindings ≠ [] then 1 else 0) + (if desc.bindings ≠ [] then 1 else 0) +
          (if desc.staticSamplers ≠ [] then 1 else 0)) := by
  have hs : ∀ S : List StaticSamplerDescriptor,
      List.countP VkObject.isDescriptorSetLayout (S.map (fun x => VkObject.sampler x.sampler))
        = 0 := by
    intro S
    induction S with
    | nil => rfl
    | cons a l ih => simp [List.countP_cons, ih, VkObject.isDescriptorSetLayout]
  simp only [VkDevice.numDescriptorSetLayouts, successPath, stageLayout_objects,
    stageStatic_objects, stageCache_objects, stagePool_objects, stageSamplers_objects,
    stageDynamic_objects, stageHeap_objects, List.countP_append]
  cases hH : desc.heapBindings <;> cases hB : desc.bindings <;> cases hS : desc.staticSamplers <;>
    simp [List.countP_cons, VkObject.isDescriptorSetLayout, hs]

/-! ## Looking up handles -/

theorem lookup_new (objs : List VkObject) (succeeds : Nat → Bool) (o : VkObject)
    (rest : List VkObject) :
    VkDevice.lookup { objects := objs ++ o :: rest, succeeds := succeeds } (objs.length + 1)
      = some o := by
  unfold VkDevice.lookup
  simp only [VK_NULL_HANDLE, Nat.add_one_ne_zero, if_false, Nat.add_sub_cancel,
    List.get?_eq_getElem?]
  rw [List.getElem?_append_right (le_refl _)]
  simp

theorem lookup_extend {device : VkDevice} {h : Handle} {o : VkObject}
    (hl : device.lookup h = some o) (objs : List VkObject) :
    (device.extend objs).lookup h = some o := by
  unfold VkDevice.lookup at hl ⊢
  by_cases h0 : h = VK_NULL_HANDLE
  · simp [h0] at hl
  · simp only [h0, if_false, List.get?_eq_getElem?, VkDevice.extend_objects] at hl ⊢
    have hlt : h - 1 < device.objects.length := by
      by_contra hge
      rw [List.getElem?_eq_none (Nat.le_of_not_lt hge)] at hl
      cases hl
    rw [List.getElem?_append_left hlt]
    exact hl

theorem lookup_extend_new (device : VkDevice) (o : VkObject) (rest : List VkObject) :
    (device.extend (o :: rest)).lookup (device.objects.length + 1) = some o :=
  lookup_new device.objects device.succeeds o rest

/-! ## Claims about the static helpers -/

/-- C1: for a binding descriptor of kind Buffer, `GetVkDescriptorType` returns
`UNIFORM_BUFFER` when `bindFlags` contains `ConstantBuffer` (whatever else is set), otherwise
`STORAGE_BUFFER` when it contains `Sampled` or `Storage`, and otherwise fails with `MapFailed`,
in which case the constructor of every pipeline layout that lists the descriptor among its
heap or dynamic bindings fails. Sampler and Texture descriptors resolve to `SAMPLER` and
`SAMPLED_IMAGE` for every value of `bindFlags`. -/
theorem C1_GetVkDescriptorType (K : Constants) (desc : BindingDescriptor) :
    (desc.type = .Buffer →
      (desc.bindFlags &&& K.BindFlags_ConstantBuffer ≠ 0 →
        GetVkDescriptorType K desc = .ok VK_DESCRIPTOR_TYPE_UNIFORM_BUFFER) ∧
      (desc.bindFlags &&& K.BindFlags_ConstantBuffer = 0 →
        (desc.bindFlags &&& K.BindFlags_Sampled ≠ 0 ∨
          desc.bindFlags &&& K.BindFlags_Storage ≠ 0) →
        GetVkDescriptorType K desc = .ok VK_DESCRIPTOR_TYPE_STORAGE_BUFFER) ∧
      (desc.bindFlags &&& K.BindFlags_ConstantBuffer = 0 →
        desc.bindFlags &&& K.BindFlags_Sampled = 0 →
        desc.bindFlags &&& K.BindFlags_Storage = 0 →
        GetVkDescriptorType K desc = MapFailed "ResourceType" "VkDescriptorType" ∧
        ∀ (device : VkDevice) (layoutDesc : PipelineLayoutDescriptor),
          desc ∈ layoutDesc.heapBindings ∨ desc ∈ layoutDesc.bindings →
          ∃ e, VKPipelineLayout.new K device layoutDesc = .error e)) ∧
    (desc.type = .Sampler →
      GetVkDescriptorType K desc = .ok VK_DESCRIPTOR_TYPE_SAMPLER) ∧
    (desc.type = .Texture →
      GetVkDescriptorType K desc = .ok VK_DESCRIPTOR_TYPE_SAMPLED_IMAGE) := by
  refine ⟨fun hty => ⟨?_, ?_, ?_⟩, ?_, ?_⟩
  · intro hcb
    simp [GetVkDescriptorType, hty, hcb]
  · intro hcb hss
    have := (and_or_ne_zero_iff desc.bindFlags K.BindFlags_Sampled K.BindFlags_Storage).mpr hss
    simp [GetVkDescriptorType, hty, hcb, this]
  · intro hcb hsa hst
    have hno : ¬ (desc.bindFlags &&& (K.BindFlags_Sampled ||| K.BindFlags_Storage) ≠ 0) := by
      rw [and_or_ne_zero_iff]
      simp [hsa, hst]
    have hfail : GetVkDescriptorType K desc = MapFailed "ResourceType" "VkDescriptorType" := by
      simp only [GetVkDescriptorType, hty, hcb, ne_eq, not_true_eq_false, if_false]
      rw [if_neg hno]
    refine ⟨hfail, ?_⟩
    intro device layoutDesc hmem
    have hres : resolves K desc = false := by
      simp [resolves, hfail, MapFailed]
    cases hnew : VKPipelineLayout.new K device layoutDesc with
    | error e => exact ⟨e, rfl⟩
    | ok r =>
      obtain ⟨hH, hB, -⟩ := new_inv K device layoutDesc r hnew
      rcases hmem with hm | hm
      · rw [hH desc hm] at hres
        cases hres
      · rw [hB desc hm] at hres
        cases hres
  · intro hty
    simp [GetVkDescriptorType, hty]
  · intro hty
    simp [GetVkDescriptorType, hty]

/-- Witness of C1 at a constant buffer that is also sampled, a storage buffer, a vertex-only
buffer (which makes construction fail on a device where every native call succeeds), a
sampler and a texture. -/
theorem C1_GetVkDescriptorType_witness :
    GetVkDescriptorType stdConstants
        { type := .Buffer, bindFlags := 4 ||| 32, stageFlags := 1, slot := 0, arraySize := 0 }
      = .ok VK_DESCRIPTOR_TYPE_UNIFORM_BUFFER ∧
    GetVkDescriptorType stdConstants
        { type := .Buffer, bindFlags := 64, stageFlags := 1, slot := 0, arraySize := 0 }
      = .ok VK_DESCRIPTOR_TYPE_STORAGE_BUFFER ∧
    (∃ e, VKPipelineLayout.new stdConstants freshDevice
        { heapBindings := []
          bindings :=
            [{ type := .Buffer, bindFlags := 1, stageFlags := 1, slot := 0, arraySize := 0 }]
          staticSamplers := []
          uniforms := [] } = .error e) ∧
    GetVkDescriptorType stdConstants
        { type := .Sampler, bindFlags := 0, stageFlags := 1, slot := 0, arraySize := 0 }
      = .ok VK_DESCRIPTOR_TYPE_SAMPLER ∧
    GetVkDescriptorType stdConstants
        { type := .Texture, bindFlags := 0, stageFlags := 1, slot := 0, arraySize := 0 }
      = .ok VK_DESCRIPTOR_TYPE_SAMPLED_IMAGE :=
  ⟨((C1_GetVkDescriptorType stdConstants _).1 rfl).1 (by decide),
   ((C1_GetVkDescriptorType stdConstants _).1 rfl).2.1 (by decide) (Or.inr (by decide)),
   (((C1_GetVkDescriptorType stdConstants
      { type := .Buffer, bindFlags := 1, stageFlags := 1, slot := 0, arraySize := 0 }).1 rfl).2.2
      (by decide) (by decide) (by decide)).2 freshDevice _ (Or.inr (by simp)),
   (C1_GetVkDescriptorType stdConstants _).2.1 rfl,
   (C1_GetVkDescriptorType stdConstants _).2.2 rfl⟩

/-- C4: an entry written by `Convert` for a binding descriptor has
`descriptorCount = max 1 arraySize`, which is `1` for `arraySize` 0 or 1, `arraySize` from 2
on, and never `0`; `Convert` writes an entry whenever the descriptor type resolves; the entry
written for a static sampler has `descriptorCount = 1`. -/
theorem C4_descriptorCount (K : Constants) (dst : VkDescriptorSetLayoutBinding)
    (src : BindingDescriptor) (sampler : StaticSamplerDescriptor)
    (immutableSamplerVK : Option Handle) :
    (∀ entry, Convert K dst src = .ok entry →
      entry.descriptorCount = max 1 src.arraySize ∧
      (src.arraySize = 0 ∨ src.arraySize = 1 → entry.descriptorCount = 1) ∧
      (2 ≤ src.arraySize → entry.descriptorCount = src.arraySize) ∧
      entry.descriptorCount ≠ 0) ∧
    (∀ type, GetVkDescriptorType K src = .ok type → ∃ entry, Convert K dst src = .ok entry) ∧
    (ConvertStaticSampler K dst sampler immutableSamplerVK).descriptorCount = 1 := by
  refine ⟨?_, ?_, rfl⟩
  · intro entry h
    unfold Convert at h
    obtain ⟨t, -, h2⟩ := bind_ok_inv h
    simp only [pure, Except.pure] at h2
    cases h2
    refine ⟨rfl, ?_, ?_, ?_⟩
    · rintro (h0 | h1)
      · simp [h0]
      · simp [h1]
    · intro h2
      exact max_eq_right (by omega)
    · show max 1 src.arraySize ≠ 0
      have : 1 ≤ max 1 src.arraySize := le_max_left _ _
      omega
  · intro type h
    exact ⟨_, Convert_ok K dst src (by simp [resolves, h])⟩

/-- Witness of C4: a storage buffer array of four elements gets `descriptorCount = 4`. -/
theorem C4_descriptorCount_witness :
    ∃ entry,
      Convert stdConstants default
        { type := .Buffer, bindFlags := 64, stageFlags := 1, slot := 3, arraySize := 4 }
        = .ok entry ∧ entry.descriptorCount = 4 :=
  ⟨_, rfl,
    ((C4_descriptorCount stdConstants default
      { type := .Buffer, bindFlags := 64, stageFlags := 1, slot := 3, arraySize := 4 }
      default none).1 _ rfl).2.2.1 (by decide)⟩

/-! ## Claims about the member functions -/

/-- C2: `CreateVkPipelineLayout` records for each present tier the number of present tiers
before it in the order HeapBindings, DynamicBindings, ImmutableSamplers; so the recorded
indices of the present tiers are `0, …, k-1`, and the layout list handed to the native call
has `k` entries, the entry at a tier's recorded index being that tier's layout. The call
succeeds exactly when the native creation does. -/
theorem C2_set_indices (self : VKPipelineLayout) (device : VkDevice)
    (pushConstantRanges : List VkPushConstantRange)
    (hl : self.descriptorSetLayouts_.length = SetLayoutType_Num)
    (hs : self.descriptorSetBindSlots_.length = SetLayoutType_Num)
    (hok : device.succeeds device.objects.length = true) :
    ∃ self1 pipelineLayout device1 setLayouts,
      self.CreateVkPipelineLayout device pushConstantRanges
        = .ok (self1, pipelineLayout, device1) ∧
      device1.lookup pipelineLayout = some (.pipelineLayout setLayouts pushConstantRanges) ∧
      self1.descriptorSetLayouts_ = self.descriptorSetLayouts_ ∧
      (∀ i, i < SetLayoutType_Num → self.present i = true →
        self1.descriptorSetBindSlots_.getD i 0 = (List.range i).countP self.present ∧
        setLayouts.get? (self1.descriptorSetBindSlots_.getD i 0)
          = some (self.descriptorSetLayouts_.getD i VK_NULL_HANDLE)) ∧
      setLayouts.length = (List.range SetLayoutType_Num).countP self.present ∧
      ((List.range SetLayoutType_Num).filter self.present).map
          (fun i => self1.descriptorSetBindSlots_.getD i 0)
        = List.range setLayouts.length := by
  obtain ⟨pl, dsl, slots, pool, sds, cache, hbs, bs, imm, un⟩ := self
  simp only [SetLayoutType_Num] at hl hs
  match dsl, hl with
  | [a, b, c], _ =>
    match slots, hs with
    | [x, y, z], _ =>
      rw [CreateVkPipelineLayout_eq, if_pos hok, bindSlotLoop_eq _ a b c x y z rfl rfl]
      refine ⟨_, _, _, _, rfl, lookup_extend_new _ _ _, rfl, ?_, ?_, ?_⟩
      · intro i hi hp
        simp only [SetLayoutType_Num] at hi
        have hr1 : List.range 1 = [0] := by decide
        have hr2 : List.range 2 = [0, 1] := by decide
        interval_cases i <;>
          by_cases ha : a = 0 <;> by_cases hb : b = 0 <;> by_cases hc : c = 0 <;>
          simp_all [VKPipelineLayout.present, VK_NULL_HANDLE, List.countP_cons]
      · have hr3 : List.range 3 = [0, 1, 2] := by decide
        rw [SetLayoutType_Num, hr3]
        by_cases ha : a = 0 <;> by_cases hb : b = 0 <;> by_cases hc : c = 0 <;>
          simp [VKPipelineLayout.present, VK_NULL_HANDLE, List.countP_cons, ha, hb, hc]
      · have hr3 : List.range 3 = [0, 1, 2] := by decide
        rw [SetLayoutType_Num, hr3]
        by_cases ha : a = 0 <;> by_cases hb : b = 0 <;> by_cases hc : c = 0 <;>
          simp [VKPipelineLayout.present, VK_NULL_HANDLE, List.filter_cons, ha, hb, hc] <;>
          decide

/-- Witness of C2: with the heap and the immutable-sampler layouts present and the dynamic
one absent, the immutable-sampler tier gets set index `1` and two layouts are handed over,
the second being the immutable-sampler layout. -/
theorem C2_set_indices_witness :
    ∃ self1 pipelineLayout device1 setLayouts,
      layoutHeapAndSamplers.CreateVkPipelineLayout freshDevice []
        = .ok (self1, pipelineLayout, device1) ∧
      device1.lookup pipelineLayout = some (.pipelineLayout setLayouts []) ∧
      self1.descriptorSetBindSlots_.getD SetLayoutType_ImmutableSamplers 0 = 1 ∧
      setLayouts.get? 1 = some 9 ∧
      setLayouts.length = 2 := by
  obtain ⟨self1, pl, device1, setLayouts, h1, h2, -, h4, h5, -⟩ :=
    C2_set_indices layoutHeapAndSamplers freshDevice [] rfl rfl rfl
  have h6 := h4 2 (by decide) (by decide)
  have h7 : self1.descriptorSetBindSlots_.getD 2 0 = 1 := h6.1.trans (by decide)
  refine ⟨self1, pl, device1, setLayouts, h1, h2, h7, ?_, h5.trans (by decide)⟩
  have h8 := h6.2
  rw [h7] at h8
  exact h8

/-- C10: `BindStaticDescriptorSet` and `BindDynamicDescriptorSet` record exactly one native
bind call, with `descriptorSetCount = 1`, no dynamic offsets and `firstSet` equal to the set
index recorded for the immutable-sampler tier, respectively the dynamic tier, when the
descriptor set handle is not null, and record nothing when it is null. -/
theorem C10_bind_descriptor_sets (self : VKPipelineLayout) (commandBuffer : VkCommandBuffer)
    (bindPoint : Nat) (descriptorSet : Handle) :
    (self.staticDescriptorSet_ ≠ VK_NULL_HANDLE →
      self.BindStaticDescriptorSet commandBuffer bindPoint = commandBuffer ++
        [{ pipelineBindPoint := bindPoint
           layout := self.pipelineLayout_
           firstSet := self.descriptorSetBindSlots_.getD SetLayoutType_ImmutableSamplers 0
           descriptorSetCount := 1
           pDescriptorSets := [self.staticDescriptorSet_]
           dynamicOffsetCount := 0
           pDynamicOffsets := none }]) ∧
    (self.staticDescriptorSet_ = VK_NULL_HANDLE →
      self.BindStaticDescriptorSet commandBuffer bindPoint = commandBuffer) ∧
    (descriptorSet ≠ VK_NULL_HANDLE →
      self.BindDynamicDescriptorSet commandBuffer bindPoint descriptorSet = commandBuffer ++
        [{ pipelineBindPoint := bindPoint
           layout := self.pipelineLayout_
           firstSet := self.descriptorSetBindSlots_.getD SetLayoutType_DynamicBindings 0
           descriptorSetCount := 1
           pDescriptorSets := [descriptorSet]
           dynamicOffsetCount := 0
           pDynamicOffsets := none }]) ∧
    (descriptorSet = VK_NULL_HANDLE →
      self.BindDynamicDescriptorSet commandBuffer bindPoint descriptorSet = commandBuffer) := by
  refine ⟨?_, ?_, ?_, ?_⟩
  · intro h
    simp [VKPipelineLayout.BindStaticDescriptorSet, vkCmdBindDescriptorSets, h]
  · intro h
    simp [VKPipelineLayout.BindStaticDescriptorSet, h]
  · intro h
    simp [VKPipelineLayout.BindDynamicDescriptorSet, vkCmdBindDescriptorSets, h]
  · intro h
    simp [VKPipelineLayout.BindDynamicDescriptorSet, h]

theorem ok_of_resolves (K : Constants) (x : BindingDescriptor) (h : resolves K x = true) :
    GetVkDescriptorType K x = .ok (resolvedType K x) := by
  unfold resolves at h
  unfold resolvedType
  cases hg : GetVkDescriptorType K x with
  | error e => simp [hg] at h
  | ok t => rfl

/-- Witness of C10: a layout whose static descriptor set exists binds it at the recorded
index of the immutable-sampler tier. -/
theorem C10_bind_descriptor_sets_witness :
    VKPipelineLayout.BindStaticDescriptorSet
        { layoutHeapAndSamplers with
          pipelineLayout_ := 4, staticDescriptorSet_ := 3, descriptorSetBindSlots_ := [0, 0, 1] }
        [] 0
      = [{ pipelineBindPoint := 0
           layout := 4
           firstSet := 1
           descriptorSetCount := 1
           pDescriptorSets := [3]
           dynamicOffsetCount := 0
           pDynamicOffsets := none }] :=
  (C10_bind_descriptor_sets
    { layoutHeapAndSamplers with
      pipelineLayout_ := 4, staticDescriptorSet_ := 3, descriptorSetBindSlots_ := [0, 0, 1] }
    [] 0 0).1 (by decide)

theorem successPath_numPipelineLayouts (K : Constants)
    (bs : List VkDescriptorSetLayoutBinding) (device : VkDevice)
    (desc : PipelineLayoutDescriptor) :
    (successPath K bs device desc).2.numPipelineLayouts =
      device.numPipelineLayouts +
        (if desc.heapBindings ≠ [] ∨ desc.bindings ≠ [] ∨ desc.staticSamplers ≠ [] then 1
          else 0) := by
  have hs : ∀ S : List StaticSamplerDescriptor,
      List.countP VkObject.isPipelineLayout (S.map (fun x => VkObject.sampler x.sampler))
        = 0 := by
    intro S
    induction S with
    | nil => rfl
    | cons a l ih => simp [List.countP_cons, ih, VkObject.isPipelineLayout]
  simp only [VkDevice.numPipelineLayouts, successPath, stageLayout_objects,
    stageStatic_objects, stageCache_objects, stagePool_objects, stageSamplers_objects,
    stageDynamic_objects, stageHeap_objects, List.countP_append]
  cases hH : desc.heapBindings <;> cases hB : desc.bindings <;> cases hS : desc.staticSamplers <;>
    simp [List.countP_cons, VkObject.isPipelineLayout, hs]

theorem stageLayout_lookup_new (r : VKPipelineLayout × VkDevice) :
    (stageLayout true r).2.lookup (stageLayout true r).1.pipelineLayout_
      = some (.pipelineLayout (bindSlotLoop r.1).2 []) := by
  rw [stageLayout_pipelineLayout_]
  exact lookup_extend_new _ _ _

theorem successPath_lookup_pipelineLayout (K : Constants)
    (bs : List VkDescriptorSetLayoutBinding) (device : VkDevice)
    (desc : PipelineLayoutDescriptor)
    (h : desc.heapBindings ≠ [] ∨ desc.bindings ≠ [] ∨ desc.staticSamplers ≠ []) :
    ∃ setLayouts,
      (successPath K bs device desc).2.lookup (successPath K bs device desc).1.pipelineLayout_
        = some (.pipelineLayout setLayouts []) := by
  have hc : (!desc.heapBindings.isEmpty || !desc.bindings.isEmpty ||
      !desc.staticSamplers.isEmpty) = true := by
    rcases h with h | h | h
    · simp [(isEmpty_not_eq_true _).mpr h]
    · simp [(isEmpty_not_eq_true _).mpr h]
    · simp [(isEmpty_not_eq_true _).mpr h]
  unfold successPath
  rw [hc]
  exact ⟨_, stageLayout_lookup_new _⟩

/-- C5: when construction succeeds, the pipeline layout handle is non-null exactly when one
of the heap-binding, dynamic-binding and static-sampler lists is non-empty; in that case the
handle refers to a native pipeline layout object, and the constructor creates one native
pipeline layout object in that case and none otherwise. A descriptor with uniforms only, or
with nothing at all, leaves the handle null. -/
theorem C5_pipeline_layout_created (K : Constants) (device : VkDevice)
    (desc : PipelineLayoutDescriptor) (self : VKPipelineLayout) (device1 : VkDevice)
    (h : VKPipelineLayout.new K device desc = .ok (self, device1)) :
    (self.pipelineLayout_ ≠ VK_NULL_HANDLE ↔
      (desc.heapBindings ≠ [] ∨ desc.bindings ≠ [] ∨ desc.staticSamplers ≠ [])) ∧
    (self.pipelineLayout_ ≠ VK_NULL_HANDLE →
      ∃ setLayouts, device1.lookup self.pipelineLayout_ = some (.pipelineLayout setLayouts [])) ∧
    device1.numPipelineLayouts = device.numPipelineLayouts +
      (if desc.heapBindings ≠ [] ∨ desc.bindings ≠ [] ∨ desc.staticSamplers ≠ [] then 1
        else 0) ∧
    (desc.heapBindings = [] → desc.bindings = [] → desc.staticSamplers = [] →
      self.pipelineLayout_ = VK_NULL_HANDLE) := by
  obtain ⟨-, -, bs, hr⟩ := new_inv K device desc _ h
  have h1 : self = (successPath K bs device desc).1 := congrArg Prod.fst hr
  have h2 : device1 = (successPath K bs device desc).2 := congrArg Prod.snd hr
  have hiff := successPath_pipelineLayout K bs device desc
  subst h1 h2
  refine ⟨hiff, ?_, successPath_numPipelineLayouts K bs device desc, ?_⟩
  · intro hne
    exact successPath_lookup_pipelineLayout K bs device desc (hiff.mp hne)
  · intro hH hB hS
    by_contra hne
    rcases hiff.mp hne with h | h | h
    · exact h hH
    · exact h hB
    · exact h hS

/-- Witness of C5: a descriptor that has a single uniform and no binding is constructed with
a null pipeline layout handle. -/
theorem C5_pipeline_layout_created_witness :
    ∃ self device1,
      VKPipelineLayout.new stdConstants freshDevice
        { heapBindings := [], bindings := [], staticSamplers := []
          uniforms := [{ name := "color", arraySize := 0 }] } = .ok (self, device1) ∧
      self.pipelineLayout_ = VK_NULL_HANDLE :=
  ⟨_, _, rfl,
    (C5_pipeline_layout_created stdConstants freshDevice
      { heapBindings := [], bindings := [], staticSamplers := []
        uniforms := [{ name := "color", arraySize := 0 }] } _ _ rfl).2.2.2 rfl rfl rfl⟩

theorem stageHeap_lookup (K : Constants) (H : List BindingDescriptor)
    (r : VKPipelineLayout × VkDevice) {h : Handle} {o : VkObject}
    (hl : r.2.lookup h = some o) : (stageHeap K H r).2.lookup h = some o :=
  lookup_extend hl _

theorem stageDynamic_lookup (K : Constants) (B : List BindingDescriptor)
    (r : VKPipelineLayout × VkDevice) {h : Handle} {o : VkObject}
    (hl : r.2.lookup h = some o) : (stageDynamic K B r).2.lookup h = some o :=
  lookup_extend hl _

theorem stageSamplers_lookup (bs : List VkDescriptorSetLayoutBinding)
    (S : List StaticSamplerDescriptor)
    (r : VKPipelineLayout × VkDevice) {h : Handle} {o : VkObject}
    (hl : r.2.lookup h = some o) : (stageSamplers bs S r).2.lookup h = some o :=
  lookup_extend hl _

theorem stagePool_lookup (c : Bool)
    (r : VKPipelineLayout × VkDevice) {h : Handle} {o : VkObject}
    (hl : r.2.lookup h = some o) : (stagePool c r).2.lookup h = some o :=
  lookup_extend hl _

theorem stageCache_lookup (c : Bool)
    (r : VKPipelineLayout × VkDevice) {h : Handle} {o : VkObject}
    (hl : r.2.lookup h = some o) : (stageCache c r).2.lookup h = some o :=
  hl

theorem stageStatic_lookup (c : Bool)
    (r : VKPipelineLayout × VkDevice) {h : Handle} {o : VkObject}
    (hl : r.2.lookup h = some o) : (stageStatic c r).2.lookup h = some o :=
  lookup_extend hl _

theorem stageLayout_lookup (c : Bool)
    (r : VKPipelineLayout × VkDevice) {h : Handle} {o : VkObject}
    (hl : r.2.lookup h = some o) : (stageLayout c r).2.lookup h = some o :=
  lookup_extend hl _

theorem stageHeap_lookup_new (K : Constants) (H : List BindingDescriptor)
    (r : VKPipelineLayout × VkDevice) (hH : H ≠ []) :
    (stageHeap K H r).2.lookup (r.2.objects.length + 1)
      = some (.descriptorSetLayout (H.map (fun x => nativeBinding K x (resolvedType K x)))) := by
  unfold stageHeap
  simp only [if_pos hH]
  exact lookup_extend_new _ _ _

theorem stageDynamic_lookup_new (K : Constants) (B : List BindingDescriptor)
    (r : VKPipelineLayout × VkDevice) (hB : B ≠ []) :
    (stageDynamic K B r).2.lookup (r.2.objects.length + 1)
      = some (.descriptorSetLayout (B.map (fun x => nativeBinding K x (resolvedType K x)))) := by
  unfold stageDynamic
  simp only [if_pos hB]
  exact lookup_extend_new _ _ _

theorem stageSamplers_lookup_new (bs : List VkDescriptorSetLayoutBinding)
    (S : List StaticSamplerDescriptor) (r : VKPipelineLayout × VkDevice) (hS : S ≠ []) :
    (stageSamplers bs S r).2.lookup (r.2.objects.length + S.length + 1)
      = some (.descriptorSetLayout bs) := by
  unfold stageSamplers
  simp only [if_pos hS]
  have := lookup_new (r.2.objects ++ S.map (fun x => VkObject.sampler x.sampler)) r.2.succeeds
    (.descriptorSetLayout bs) []
  simp only [List.length_append, List.length_map, List.append_assoc] at this
  exact this

theorem stagePool_lookup_new (r : VKPipelineLayout × VkDevice) :
    (stagePool true r).2.lookup (r.2.objects.length + 1)
      = some (.descriptorPool 2 (poolSizeTable r.1)) :=
  lookup_extend_new _ _ _

theorem successPath_lookup_layouts (K : Constants) (bs : List VkDescriptorSetLayoutBinding)
    (device : VkDevice) (desc : PipelineLayoutDescriptor) :
    (desc.heapBindings ≠ [] →
      (successPath K bs device desc).2.lookup
        ((successPath K bs device desc).1.descriptorSetLayouts_.getD 0 0)
        = some (.descriptorSetLayout
            (desc.heapBindings.map (fun x => nativeBinding K x (resolvedType K x))))) ∧
    (desc.bindings ≠ [] →
      (successPath K bs device desc).2.lookup
        ((successPath K bs device desc).1.descriptorSetLayouts_.getD 1 0)
        = some (.descriptorSetLayout
            (desc.bindings.map (fun x => nativeBinding K x (resolvedType K x))))) ∧
    (desc.staticSamplers ≠ [] →
      (successPath K bs device desc).2.lookup
        ((successPath K bs device desc).1.descriptorSetLayouts_.getD 2 0)
        = some (.descriptorSetLayout bs)) := by
  refine ⟨fun hH => ?_, fun hB => ?_, fun hS => ?_⟩
  · have hv : (successPath K bs device desc).1.descriptorSetLayouts_.getD 0 0
        = device.objects.length + 1 := by
      simp only [successPath, stageLayout_descriptorSetLayouts_,
        stageStatic_descriptorSetLayouts_, stageCache_descriptorSetLayouts_,
        stagePool_descriptorSetLayouts_, stageSamplers_descriptorSetLayouts_,
        stageDynamic_descriptorSetLayouts_, stageHeap_descriptorSetLayouts_, init_fields]
      cases hd : desc.bindings <;> cases hs : desc.staticSamplers <;> simp [hH]
    rw [hv]
    unfold successPath
    exact stageLayout_lookup _ _ (stageStatic_lookup _ _ (stageCache_lookup _ _
      (stagePool_lookup _ _ (stageSamplers_lookup _ _ _ (stageDynamic_lookup _ _ _
        (stageHeap_lookup_new K _ (VKPipelineLayout.init desc, device) hH))))))
  · have hv : (successPath K bs device desc).1.descriptorSetLayouts_.getD 1 0
        = (stageHeap K desc.heapBindings (VKPipelineLayout.init desc, device)).2.objects.length
          + 1 := by
      simp only [successPath, stageLayout_descriptorSetLayouts_,
        stageStatic_descriptorSetLayouts_, stageCache_descriptorSetLayouts_,
        stagePool_descriptorSetLayouts_, stageSamplers_descriptorSetLayouts_,
        stageDynamic_descriptorSetLayouts_, stageHeap_descriptorSetLayouts_, init_fields]
      cases hd : desc.heapBindings <;> cases hs : desc.staticSamplers <;> simp [hB]
    rw [hv]
    unfold successPath
    exact stageLayout_lookup _ _ (stageStatic_lookup _ _ (stageCache_lookup _ _
      (stagePool_lookup _ _ (stageSamplers_lookup _ _ _
        (stageDynamic_lookup_new K _ _ hB)))))
  · have hv : (successPath K bs device desc).1.descriptorSetLayouts_.getD 2 0
        = (stageDynamic K desc.bindings
            (stageHeap K desc.heapBindings (VKPipelineLayout.init desc, device))).2.objects.length
          + desc.staticSamplers.length + 1 := by
      simp only [successPath, stageLayout_descriptorSetLayouts_,
        stageStatic_descriptorSetLayouts_, stageCache_descriptorSetLayouts_,
        stagePool_descriptorSetLayouts_, stageSamplers_descriptorSetLayouts_,
        stageDynamic_descriptorSetLayouts_, stageHeap_descriptorSetLayouts_, init_fields]
      cases hd : desc.heapBindings <;> cases hs : desc.bindings <;> simp [hS]
    rw [hv]
    unfold successPath
    exact stageLayout_lookup _ _ (stageStatic_lookup _ _ (stageCache_lookup _ _
      (stagePool_lookup _ _ (stageSamplers_lookup_new bs _ _ hS))))

/-- C6: when construction succeeds, the descriptor set layout handle of a tier is non-null
exactly when the tier's input list is non-empty, every non-null handle refers to a native
descriptor set layout object, and the constructor creates as many native descriptor set
layout objects as there are non-empty lists among `heapBindings`, `bindings` and
`staticSamplers`; with 2 heap bindings, 1 dynamic binding and 1 static sampler these are 3. -/
theorem C6_descriptor_set_layouts (K : Constants) (device : VkDevice)
    (desc : PipelineLayoutDescriptor) (self : VKPipelineLayout) (device1 : VkDevice)
    (h : VKPipelineLayout.new K device desc = .ok (self, device1)) :
    (self.descriptorSetLayouts_.getD SetLayoutType_HeapBindings VK_NULL_HANDLE ≠ VK_NULL_HANDLE
      ↔ desc.heapBindings ≠ []) ∧
    (self.descriptorSetLayouts_.getD SetLayoutType_DynamicBindings VK_NULL_HANDLE
      ≠ VK_NULL_HANDLE ↔ desc.bindings ≠ []) ∧
    (self.descriptorSetLayouts_.getD SetLayoutType_ImmutableSamplers VK_NULL_HANDLE
      ≠ VK_NULL_HANDLE ↔ desc.staticSamplers ≠ []) ∧
    (∀ i, i < SetLayoutType_Num →
      self.descriptorSetLayouts_.getD i VK_NULL_HANDLE ≠ VK_NULL_HANDLE →
      ∃ entries, device1.lookup (self.descriptorSetLayouts_.getD i VK_NULL_HANDLE)
        = some (.descriptorSetLayout entries)) ∧
    device1.numDescriptorSetLayouts = device.numDescriptorSetLayouts +
      ((if desc.heapBindings ≠ [] then 1 else 0) + (if desc.bindings ≠ [] then 1 else 0) +
        (if desc.staticSamplers ≠ [] then 1 else 0)) ∧
    (desc.heapBindings.length = 2 → desc.bindings.length = 1 → desc.staticSamplers.length = 1 →
      device1.numDescriptorSetLayouts = device.numDescriptorSetLayouts + 3) := by
  obtain ⟨-, -, bs, hr⟩ := new_inv K device desc _ h
  have h1 : self = (successPath K bs device desc).1 := congrArg Prod.fst hr
  have h2 : device1 = (successPath K bs device desc).2 := congrArg Prod.snd hr
  obtain ⟨a, b, c, habc, ha, hb, hc⟩ := successPath_descriptorSetLayouts K bs device desc
  obtain ⟨la, lb, lc⟩ := successPath_lookup_layouts K bs device desc
  have hnum := successPath_numDescriptorSetLayouts K bs device desc
  subst h1 h2
  rw [habc] at la lb lc ⊢
  simp only [SetLayoutType_HeapBindings, SetLayoutType_DynamicBindings,
    SetLayoutType_ImmutableSamplers, SetLayoutType_Num, VK_NULL_HANDLE]
  refine ⟨by simpa using ha, by simpa using hb, by simpa using hc, ?_, hnum, ?_⟩
  · intro i hi hne
    interval_cases i
    · exact ⟨_, la (ha.mp (by simpa using hne))⟩
    · exact ⟨_, lb (hb.mp (by simpa using hne))⟩
    · exact ⟨_, lc (hc.mp (by simpa using hne))⟩
  · intro hH hB hS
    rw [hnum]
    have e1 : desc.heapBindings ≠ [] := by
      intro e; rw [e] at hH; cases hH
    have e2 : desc.bindings ≠ [] := by
      intro e; rw [e] at hB; cases hB
    have e3 : desc.staticSamplers ≠ [] := by
      intro e; rw [e] at hS; cases hS
    simp [e1, e2, e3]

/-- Witness of C6: the end-to-end layout is constructed on a device where every call
succeeds, and three descriptor set layouts are created. -/
theorem C6_descriptor_set_layouts_witness :
    ∃ self device1,
      VKPipelineLayout.new stdConstants freshDevice endToEndDesc = .ok (self, device1) ∧
      device1.numDescriptorSetLayouts = freshDevice.numDescriptorSetLayouts + 3 :=
  ⟨_, _, rfl,
    (C6_descriptor_set_layouts stdConstants freshDevice endToEndDesc _ _ rfl).2.2.2.2.2
      rfl rfl rfl⟩

/-- C7 (what the code does): `GetNumBindings` returns `0` for every pipeline layout; the
end-to-end layout, which has one dynamic binding, is constructed and reports `0`. -/
theorem C7_GetNumBindings_is_zero :
    (∀ self : VKPipelineLayout, self.GetNumBindings = 0) ∧
    ∃ self device1,
      VKPipelineLayout.new stdConstants freshDevice endToEndDesc = .ok (self, device1) ∧
      endToEndDesc.bindings.length = 1 ∧
      self.GetNumBindings = 0 :=
  ⟨fun _ => rfl, _, _, rfl, rfl, rfl⟩

theorem accumulateBindings_counts (bindings : List VKLayoutBinding) :
    ∀ (acc : VKPoolSizeAccumulator) (t : VkDescriptorType),
      (accumulateBindings bindings acc).counts_ t
        = acc.counts_ t + bindings.countP (fun b => decide (b.descriptorType = t)) := by
  induction bindings with
  | nil => intro acc t; simp [accumulateBindings]
  | cons b l ih =>
    intro acc t
    have hstep : accumulateBindings (b :: l) acc
        = accumulateBindings l (acc.Accumulate b.descriptorType 1) := rfl
    rw [hstep, ih]
    by_cases hb : b.descriptorType = t
    · simp [VKPoolSizeAccumulator.Accumulate, hb, List.countP_cons]
      omega
    · have hb2 : ¬ t = b.descriptorType := fun e => hb e.symm
      simp [VKPoolSizeAccumulator.Accumulate, hb, hb2, List.countP_cons]

theorem sizeFor_filter_map (counts : VkDescriptorType → Nat) (t : VkDescriptorType) :
    ∀ (l : List VkDescriptorType), l.Nodup →
      sizeFor ((l.filter (fun t => counts t ≠ 0)).map
          (fun t => ({ type := t, descriptorCount := counts t } : VkDescriptorPoolSize))) t
        = if t ∈ l then counts t else 0 := by
  intro l
  induction l with
  | nil => intro _; simp [sizeFor]
  | cons a l ih =>
    intro hnd
    have hnd2 := (List.nodup_cons.mp hnd)
    have ih2 := ih hnd2.2
    unfold sizeFor at ih2 ⊢
    by_cases hc : counts a = 0
    · have hf : (a :: l).filter (fun t => counts t ≠ 0) = l.filter (fun t => counts t ≠ 0) := by
        simp [List.filter_cons, hc]
      rw [hf, ih2]
      by_cases hta : t = a
      · subst hta
        simp [hc, hnd2.1]
      · simp [hta]
    · have hf : (a :: l).filter (fun t => counts t ≠ 0)
          = a :: l.filter (fun t => counts t ≠ 0) := by
        simp [List.filter_cons, hc]
      rw [hf, List.map_cons]
      by_cases hta : t = a
      · subst hta
        have hnot : t ∉ l := hnd2.1
        rw [List.filter_cons]
        simp only [decide_True, if_true, List.map_cons, List.sum_cons, ih2, hnot, if_false,
          List.mem_cons, true_or]
        simp
      · have hat : ¬ a = t := fun e => hta e.symm
        rw [List.filter_cons]
        simp only [hat, decide_False, Bool.false_eq_true, if_false]
        rw [ih2]
        simp [hta]

theorem allDescriptorTypes_nodup : allDescriptorTypes.Nodup := by
  decide

theorem mem_allDescriptorTypes (t : VkDescriptorType) : t ∈ allDescriptorTypes := by
  cases t <;> decide

theorem sizeFor_Finalize (acc : VKPoolSizeAccumulator) (t : VkDescriptorType) :
    sizeFor (acc.Finalize.Data.take acc.Finalize.Size) t = acc.counts_ t := by
  unfold VKPoolSizeAccumulator.Size VKPoolSizeAccumulator.Data
  rw [List.take_length]
  unfold VKPoolSizeAccumulator.Finalize
  simp only []
  rw [sizeFor_filter_map acc.counts_ t allDescriptorTypes allDescriptorTypes_nodup,
    if_pos (mem_allDescriptorTypes t)]

theorem sizeFor_poolSizeTable (s : VKPipelineLayout) (t : VkDescriptorType) :
    sizeFor (poolSizeTable s) t
      = s.bindings_.countP (fun b => decide (b.descriptorType = t))
        + (if t = VK_DESCRIPTOR_TYPE_SAMPLER then s.immutableSamplers_.length else 0) := by
  unfold poolSizeTable
  simp only []
  rw [sizeFor_Finalize]
  cases himm : s.immutableSamplers_ with
  | nil =>
    simp [accumulateBindings_counts, VKPoolSizeAccumulator.new]
  | cons a l =>
    by_cases ht : t = VK_DESCRIPTOR_TYPE_SAMPLER
    · simp [accumulateBindings_counts, VKPoolSizeAccumulator.new,
        VKPoolSizeAccumulator.Accumulate, ht]
    · simp [accumulateBindings_counts, VKPoolSizeAccumulator.new,
        VKPoolSizeAccumulator.Accumulate, ht]

theorem successPath_pool (K : Constants) (bs : List VkDescriptorSetLayoutBinding)
    (device : VkDevice) (desc : PipelineLayoutDescriptor)
    (hne : desc.bindings ≠ [] ∨ desc.staticSamplers ≠ []) :
    ∃ table,
      (successPath K bs device desc).2.lookup (successPath K bs device desc).1.descriptorPool_
        = some (.descriptorPool 2 table) ∧
      ∀ t, sizeFor table t
        = desc.bindings.countP (fun b => decide (resolvedType K b = t))
          + (if t = VK_DESCRIPTOR_TYPE_SAMPLER then desc.staticSamplers.length else 0) := by
  have hc : (!desc.bindings.isEmpty || !desc.staticSamplers.isEmpty) = true := by
    rcases hne with h | h
    · simp [(isEmpty_not_eq_true _).mpr h]
    · simp [(isEmpty_not_eq_true _).mpr h]
  refine ⟨poolSizeTable (stageSamplers bs desc.staticSamplers
      (stageDynamic K desc.bindings
        (stageHeap K desc.heapBindings (VKPipelineLayout.init desc, device)))).1, ?_, ?_⟩
  · have hv : (successPath K bs device desc).1.descriptorPool_
        = (stageSamplers bs desc.staticSamplers
            (stageDynamic K desc.bindings
              (stageHeap K desc.heapBindings
                (VKPipelineLayout.init desc, device)))).2.objects.length + 1 := by
      unfold successPath
      rw [hc]
      simp only [stageLayout_descriptorPool_, stageStatic_descriptorPool_,
        stageCache_descriptorPool_, stagePool_descriptorPool_, if_true]
    rw [hv]
    unfold successPath
    rw [hc]
    exact stageLayout_lookup _ _ (stageStatic_lookup _ _ (stageCache_lookup _ _
      (stagePool_lookup_new _)))
  · intro t
    rw [sizeFor_poolSizeTable]
    simp only [stageSamplers_bindings_, stageDynamic_bindings_, stageHeap_bindings_,
      stageSamplers_immutableSamplers_, stageDynamic_immutableSamplers_,
      stageHeap_immutableSamplers_, init_fields, List.nil_append, List.length_append,
      List.length_nil, freshHandles_length, Nat.zero_add, List.countP_map]
    rfl

theorem resolvedType_eq_iff (K : Constants) (b : BindingDescriptor) (t : VkDescriptorType)
    (h : resolves K b = true) :
    resolvedType K b = t ↔ GetVkDescriptorType K b = .ok t := by
  rw [ok_of_resolves K b h]
  constructor
  · intro e; rw [e]
  · intro e; cases e; rfl

theorem buffer_type_cases (K : Constants) (b : BindingDescriptor) (hb : b.type = .Buffer)
    (h : resolves K b = true) :
    resolvedType K b = VK_DESCRIPTOR_TYPE_UNIFORM_BUFFER ∨
    resolvedType K b = VK_DESCRIPTOR_TYPE_STORAGE_BUFFER := by
  unfold resolves at h
  unfold resolvedType
  unfold GetVkDescriptorType at h ⊢
  rw [hb] at h ⊢
  simp only at h ⊢
  split_ifs at h ⊢
  · left; rfl
  · right; rfl
  · simp [MapFailed] at h

/-- What `CreateDescriptorPool` requests: when construction succeeds and there is a dynamic
binding or a static sampler, the size table of the descriptor pool holds, for each
descriptor type, one entry per dynamic binding of that type, whatever its array size, plus,
for the sampler type, one entry per static sampler. -/
theorem pool_table_counts_bindings_once (K : Constants) (device : VkDevice)
    (desc : PipelineLayoutDescriptor) (self : VKPipelineLayout) (device1 : VkDevice)
    (h : VKPipelineLayout.new K device desc = .ok (self, device1))
    (hne : desc.bindings ≠ [] ∨ desc.staticSamplers ≠ []) :
    ∃ table,
      device1.lookup self.descriptorPool_ = some (.descriptorPool 2 table) ∧
      (∀ t, sizeFor table t
        = desc.bindings.countP (fun b => decide (GetVkDescriptorType K b = .ok t))
          + (if t = VK_DESCRIPTOR_TYPE_SAMPLER then desc.staticSamplers.length else 0)) ∧
      (∀ b, desc.bindings = [b] → b.type = .Buffer → desc.staticSamplers.length = 1 →
        1 ≤ sizeFor table VK_DESCRIPTOR_TYPE_UNIFORM_BUFFER
              + sizeFor table VK_DESCRIPTOR_TYPE_STORAGE_BUFFER ∧
        1 ≤ sizeFor table VK_DESCRIPTOR_TYPE_SAMPLER) := by
  obtain ⟨-, hB, bs, hr⟩ := new_inv K device desc _ h
  have h1 : self = (successPath K bs device desc).1 := congrArg Prod.fst hr
  have h2 : device1 = (successPath K bs device desc).2 := congrArg Prod.snd hr
  subst h1 h2
  obtain ⟨table, hl, hsz⟩ := successPath_pool K bs device desc hne
  have hsz2 : ∀ t, sizeFor table t
      = desc.bindings.countP (fun b => decide (GetVkDescriptorType K b = .ok t))
        + (if t = VK_DESCRIPTOR_TYPE_SAMPLER then desc.staticSamplers.length else 0) := by
    intro t
    rw [hsz t]
    congr 1
    apply List.countP_congr
    intro b hb
    simp only [decide_eq_true_eq]
    exact resolvedType_eq_iff K b t (hB b hb)
  refine ⟨table, hl, hsz2, ?_⟩
  intro b hb hty hS
  have hres : resolves K b = true := hB b (by rw [hb]; simp)
  have hcases := buffer_type_cases K b hty hres
  refine ⟨?_, ?_⟩
  · rw [hsz VK_DESCRIPTOR_TYPE_UNIFORM_BUFFER, hsz VK_DESCRIPTOR_TYPE_STORAGE_BUFFER, hb]
    rcases hcases with e | e
    · simp [List.countP_cons, e]
    · simp [List.countP_cons, e]
  · rw [hsz VK_DESCRIPTOR_TYPE_SAMPLER, hS]
    simp

/-- C9 (what the code does at the failing input): the end-to-end layout has one dynamic
binding, an array of four storage buffers. Its construction succeeds and the dynamic
descriptor set layout reserves 4 descriptors of type `STORAGE_BUFFER`, the sum of the entry
counts `max 1 arraySize` that the claim gives for the pool, but the size table of the pool
holds 1 for that type; it is the same table as for the layout whose dynamic binding is a
single buffer. -/
theorem C9_pool_undersized_for_arrays :
    ∃ self device1 table entries self1 device2,
      VKPipelineLayout.new stdConstants freshDevice endToEndDesc = .ok (self, device1) ∧
      device1.lookup self.descriptorPool_ = some (.descriptorPool 2 table) ∧
      device1.lookup
          (self.descriptorSetLayouts_.getD SetLayoutType_DynamicBindings VK_NULL_HANDLE)
        = some (.descriptorSetLayout entries) ∧
      ((entries.filter
          (fun entry => decide (entry.descriptorType = VK_DESCRIPTOR_TYPE_STORAGE_BUFFER))).map
        (fun entry => entry.descriptorCount)).sum = 4 ∧
      ((endToEndDesc.bindings.filter
          (fun b => decide (GetVkDescriptorType stdConstants b
            = .ok VK_DESCRIPTOR_TYPE_STORAGE_BUFFER))).map
        (fun b => max 1 b.arraySize)).sum = 4 ∧
      sizeFor table VK_DESCRIPTOR_TYPE_STORAGE_BUFFER = 1 ∧
      VKPipelineLayout.new stdConstants freshDevice
          { endToEndDesc with
            bindings :=
              [{ type := .Buffer, bindFlags := 64, stageFlags := 17, slot := 2,
                 arraySize := 1 }] }
        = .ok (self1, device2) ∧
      device2.lookup self1.descriptorPool_ = some (.descriptorPool 2 table) :=
  ⟨_, _, _, _, _, _, rfl, rfl, rfl, by decide, by decide, by decide, rfl, rfl⟩

/-! ## The descriptor set writer -/

theorem runCalls_append (t : List WriterCall) (c : WriterCall)
    (s : VKDescriptorSetWriter × List UpdateDescriptorSetsCall) :
    runCalls (t ++ [c]) s = WriterCall.step (runCalls t s) c := by
  simp [runCalls, List.foldl_append]

theorem callsSinceReset_append (kind : WriterCall) (t : List WriterCall) (c : WriterCall) :
    callsSinceReset kind (t ++ [c]) =
      if c = .Reset then 0
      else if c = kind then callsSinceReset kind t + 1 else callsSinceReset kind t := by
  simp [callsSinceReset, List.foldl_append]

theorem writerAfter_append (M : Nat) (t : List WriterCall) (c : WriterCall) :
    writerAfter M (t ++ [c]) =
      (WriterCall.step (runCalls t (VKDescriptorSetWriter.new M 0 0, [])) c).1 := by
  simp [writerAfter, runCalls_append]

theorem UpdateDescriptorSets_fst (w : VKDescriptorSetWriter)
    (log : List UpdateDescriptorSetsCall) : (w.UpdateDescriptorSets log).1 = w := by
  unfold VKDescriptorSetWriter.UpdateDescriptorSets
  split <;> rfl

theorem writerAfter_inv (M : Nat) (hM : M < 2 ^ 32) (calls : List WriterCall) :
    (writerAfter M calls).bufferInfos_.length = M ∧
    (writerAfter M calls).imageInfos_.length = M ∧
    (writerAfter M calls).numBufferInfos_ = min (callsSinceReset .NextBufferInfo calls) M ∧
    (writerAfter M calls).numImageInfos_ = min (callsSinceReset .NextImageInfo calls) M ∧
    (writerAfter M calls).writes_.length = callsSinceReset .NextWriteDescriptor calls ∧
    (writerAfter M calls).copies_.length = callsSinceReset .NextCopyDescriptor calls := by
  induction calls using List.reverseRecOn with
  | nil => simp [writerAfter, runCalls, callsSinceReset, VKDescriptorSetWriter.new]
  | append_singleton t c ih =>
    obtain ⟨h1, h2, h3, h4, h5, h6⟩ := ih
    unfold writerAfter at h1 h2 h3 h4 h5 h6
    rw [writerAfter_append]
    simp only [callsSinceReset_append]
    cases c with
    | Reset =>
      simp [WriterCall.step, VKDescriptorSetWriter.Reset, h1, h2]
    | NextBufferInfo =>
      simp only [WriterCall.step, VKDescriptorSetWriter.NextBufferInfo, h1]
      split
      · rename_i hlt
        rw [h3] at hlt
        have hk : callsSinceReset .NextBufferInfo t < M := by
          by_contra hge
          rw [min_eq_right (by omega)] at hlt
          omega
        have e3 : (runCalls t (VKDescriptorSetWriter.new M 0 0, [])).1.numBufferInfos_
            = callsSinceReset .NextBufferInfo t := by rw [h3]; exact min_eq_left (by omega)
        simp [h1, h2, h4, h5, h6, e3]
        rw [Nat.mod_eq_of_lt (by omega)]
        omega
      · rename_i hge
        rw [h3] at hge
        have hk : M ≤ callsSinceReset .NextBufferInfo t := by
          by_contra hlt
          rw [min_eq_left (by omega)] at hge
          omega
        simp [h1, h2, h3, h4, h5, h6]
        omega
    | NextImageInfo =>
      simp only [WriterCall.step, VKDescriptorSetWriter.NextImageInfo, h2]
      split
      · rename_i hlt
        rw [h4] at hlt
        have hk : callsSinceReset .NextImageInfo t < M := by
          by_contra hge
          rw [min_eq_right (by omega)] at hlt
          omega
        have e4 : (runCalls t (VKDescriptorSetWriter.new M 0 0, [])).1.numImageInfos_
            = callsSinceReset .NextImageInfo t := by rw [h4]; exact min_eq_left (by omega)
        simp [h1, h2, h3, h5, h6, e4]
        rw [Nat.mod_eq_of_lt (by omega)]
        omega
      · rename_i hge
        rw [h4] at hge
        have hk : M ≤ callsSinceReset .NextImageInfo t := by
          by_contra hlt
          rw [min_eq_left (by omega)] at hge
          omega
        simp [h1, h2, h3, h4, h5, h6]
        omega
    | NextWriteDescriptor =>
      simp [WriterCall.step, VKDescriptorSetWriter.NextWriteDescriptor, h1, h2, h3, h4, h5, h6]
    | NextCopyDescriptor =>
      simp [WriterCall.step, VKDescriptorSetWriter.NextCopyDescriptor, h1, h2, h3, h4, h5, h6]
    | UpdateDescriptorSets =>
      simp [WriterCall.step, UpdateDescriptorSets_fst, h1, h2, h3, h4, h5, h6]
    | StoreBufferInfo e v =>
      simp [WriterCall.step, h1, h2, h3, h4, h5, h6]
    | StoreImageInfo e v =>
      simp [WriterCall.step, h1, h2, h3, h4, h5, h6]
    | StoreWrite e v =>
      simp [WriterCall.step, h1, h2, h3, h4, h5, h6]
    | StoreCopy e v =>
      simp [WriterCall.step, h1, h2, h3, h4, h5, h6]

theorem NextBufferInfo_after (M : Nat) (hM : M < 2 ^ 32) (calls : List WriterCall) :
    (callsSinceReset .NextBufferInfo calls < M →
      (writerAfter M calls).NextBufferInfo.1 = some (callsSinceReset .NextBufferInfo calls)) ∧
    (M ≤ callsSinceReset .NextBufferInfo calls →
      (writerAfter M calls).NextBufferInfo = (none, writerAfter M calls)) := by
  obtain ⟨h1, -, h3, -, -, -⟩ := writerAfter_inv M hM calls
  unfold VKDescriptorSetWriter.NextBufferInfo
  rw [h1, h3]
  constructor
  · intro hlt
    rw [min_eq_left (by omega), if_pos hlt]
  · intro hge
    rw [min_eq_right hge, if_neg (by omega)]

theorem NextImageInfo_after (M : Nat) (hM : M < 2 ^ 32) (calls : List WriterCall) :
    (callsSinceReset .NextImageInfo calls < M →
      (writerAfter M calls).NextImageInfo.1 = some (callsSinceReset .NextImageInfo calls)) ∧
    (M ≤ callsSinceReset .NextImageInfo calls →
      (writerAfter M calls).NextImageInfo = (none, writerAfter M calls)) := by
  obtain ⟨-, h2, -, h4, -, -⟩ := writerAfter_inv M hM calls
  unfold VKDescriptorSetWriter.NextImageInfo
  rw [h2, h4]
  constructor
  · intro hlt
    rw [min_eq_left (by omega), if_pos hlt]
  · intro hge
    rw [min_eq_right hge, if_neg (by omega)]

/-- C11: on a writer constructed with maximum resource-view count `M` (a 32-bit value,
`M = 0` included), a call to `NextBufferInfo` made when fewer than `M` such calls were made
since construction or the last `Reset` returns a scratch entry, and a call made after `M` or
more returns null and leaves the writer unchanged; whatever other calls were made in
between. The same holds for `NextImageInfo`. -/
theorem C11_scratch_exhaustion (M : Nat) (hM : M < 2 ^ 32) (calls : List WriterCall) :
    (callsSinceReset .NextBufferInfo calls < M →
      ∃ entry, (writerAfter M calls).NextBufferInfo.1 = some entry) ∧
    (M ≤ callsSinceReset .NextBufferInfo calls →
      (writerAfter M calls).NextBufferInfo = (none, writerAfter M calls)) ∧
    (callsSinceReset .NextImageInfo calls < M →
      ∃ entry, (writerAfter M calls).NextImageInfo.1 = some entry) ∧
    (M ≤ callsSinceReset .NextImageInfo calls →
      (writerAfter M calls).NextImageInfo = (none, writerAfter M calls)) :=
  ⟨fun h => ⟨_, (NextBufferInfo_after M hM calls).1 h⟩, (NextBufferInfo_after M hM calls).2,
   fun h => ⟨_, (NextImageInfo_after M hM calls).1 h⟩, (NextImageInfo_after M hM calls).2⟩

/-- Witness of C11: with `M = 2`, the third `NextBufferInfo` in a row returns null and
changes nothing, and with `M = 0` the first one already does. -/
theorem C11_scratch_exhaustion_witness :
    (writerAfter 2 [.NextBufferInfo, .NextImageInfo, .NextBufferInfo]).NextBufferInfo
      = (none, writerAfter 2 [.NextBufferInfo, .NextImageInfo, .NextBufferInfo]) ∧
    (writerAfter 0 []).NextBufferInfo = (none, writerAfter 0 []) ∧
    (∃ entry, (writerAfter 2 [.NextBufferInfo]).NextBufferInfo.1 = some entry) :=
  ⟨(C11_scratch_exhaustion 2 (by decide)
      [.NextBufferInfo, .NextImageInfo, .NextBufferInfo]).2.1 (by decide),
   (C11_scratch_exhaustion 0 (by decide) []).2.1 (by decide),
   (C11_scratch_exhaustion 2 (by decide) [.NextBufferInfo]).1 (by decide)⟩

theorem callsSinceReset_append_noReset (kind : WriterCall) (hk : kind ≠ .Reset)
    (a : List WriterCall) :
    ∀ b : List WriterCall, WriterCall.Reset ∉ b →
      callsSinceReset kind (a ++ b) = callsSinceReset kind a + b.count kind := by
  intro b
  induction b using List.reverseRecOn with
  | nil => intro _; simp
  | append_singleton t c ih =>
    intro hno
    have hno1 : WriterCall.Reset ∉ t := fun h => hno (List.mem_append_left _ h)
    have hc : c ≠ WriterCall.Reset := fun h => hno (by simp [h])
    rw [← List.append_assoc, callsSinceReset_append, ih hno1, if_neg hc, List.count_append]
    by_cases hck : c = kind
    · subst hck
      simp
      omega
    · have hkc : ¬ kind = c := fun h => hck h.symm
      simp [hck, List.count_cons, hkc]

theorem callsSinceReset_after_Reset (kind : WriterCall) (hk : kind ≠ .Reset)
    (a b : List WriterCall) (hb : WriterCall.Reset ∉ b) :
    callsSinceReset kind (a ++ WriterCall.Reset :: b) = b.count kind := by
  have h1 : a ++ WriterCall.Reset :: b = (a ++ [WriterCall.Reset]) ++ b := by simp
  rw [h1, callsSinceReset_append_noReset kind hk _ b hb, callsSinceReset_append]
  simp

theorem NextBufferInfo_some (M : Nat) (hM : M < 2 ^ 32) (calls : List WriterCall) (e : Nat)
    (h : (writerAfter M calls).NextBufferInfo.1 = some e) :
    e = callsSinceReset .NextBufferInfo calls ∧ e < M := by
  by_cases hlt : callsSinceReset .NextBufferInfo calls < M
  · rw [(NextBufferInfo_after M hM calls).1 hlt] at h
    cases h
    exact ⟨rfl, hlt⟩
  · rw [(NextBufferInfo_after M hM calls).2 (by omega)] at h
    cases h

theorem NextImageInfo_some (M : Nat) (hM : M < 2 ^ 32) (calls : List WriterCall) (e : Nat)
    (h : (writerAfter M calls).NextImageInfo.1 = some e) :
    e = callsSinceReset .NextImageInfo calls ∧ e < M := by
  by_cases hlt : callsSinceReset .NextImageInfo calls < M
  · rw [(NextImageInfo_after M hM calls).1 hlt] at h
    cases h
    exact ⟨rfl, hlt⟩
  · rw [(NextImageInfo_after M hM calls).2 (by omega)] at h
    cases h

theorem callsSinceReset_replicate (kind : WriterCall) (hk : kind ≠ .Reset)
    (a : List WriterCall) (k : Nat) :
    callsSinceReset kind (a ++ WriterCall.Reset :: List.replicate k kind) = k ∧
    callsSinceReset kind (List.replicate k kind) = k := by
  have hno : WriterCall.Reset ∉ List.replicate k kind := by
    intro h
    exact hk (List.eq_of_mem_replicate h).symm
  constructor
  · rw [callsSinceReset_after_Reset kind hk a _ hno]
    simp
  · have := callsSinceReset_append_noReset kind hk [] (List.replicate k kind) hno
    simp only [List.nil_append] at this
    rw [this]
    simp [callsSinceReset]

/-- C13: `Reset`, from every state a writer of capacity `M` can reach, empties the write and
the copy list and sets both counters to 0; the scratch arrays keep their `M` entries. After
it `UpdateDescriptorSets` makes no native call, and `NextBufferInfo` and `NextImageInfo`
return an entry for the next `M` calls and null from then on, as they do on a freshly
constructed writer. -/
theorem C13_reset (M : Nat) (hM : M < 2 ^ 32) (calls : List WriterCall)
    (device : List UpdateDescriptorSetsCall) :
    (writerAfter M calls).Reset.writes_ = [] ∧
    (writerAfter M calls).Reset.copies_ = [] ∧
    (writerAfter M calls).Reset.numBufferInfos_ = 0 ∧
    (writerAfter M calls).Reset.numImageInfos_ = 0 ∧
    (writerAfter M calls).Reset.bufferInfos_ = (writerAfter M calls).bufferInfos_ ∧
    (writerAfter M calls).Reset.imageInfos_ = (writerAfter M calls).imageInfos_ ∧
    (writerAfter M calls).Reset.bufferInfos_.length = M ∧
    (writerAfter M calls).Reset.imageInfos_.length = M ∧
    (writerAfter M calls).Reset.UpdateDescriptorSets device
      = ((writerAfter M calls).Reset, device) ∧
    writerAfter M (calls ++ [.Reset]) = (writerAfter M calls).Reset ∧
    (∀ k,
      (k < M →
        (writerAfter M (calls ++ .Reset :: List.replicate k .NextBufferInfo)).NextBufferInfo.1
          = some k ∧
        (writerAfter M (List.replicate k .NextBufferInfo)).NextBufferInfo.1 = some k ∧
        (writerAfter M (calls ++ .Reset :: List.replicate k .NextImageInfo)).NextImageInfo.1
          = some k ∧
        (writerAfter M (List.replicate k .NextImageInfo)).NextImageInfo.1 = some k) ∧
      (M ≤ k →
        (writerAfter M (calls ++ .Reset :: List.replicate k .NextBufferInfo)).NextBufferInfo.1
          = none ∧
        (writerAfter M (List.replicate k .NextBufferInfo)).NextBufferInfo.1 = none ∧
        (writerAfter M (calls ++ .Reset :: List.replicate k .NextImageInfo)).NextImageInfo.1
          = none ∧
        (writerAfter M (List.replicate k .NextImageInfo)).NextImageInfo.1 = none)) := by
  obtain ⟨h1, h2, -, -, -, -⟩ := writerAfter_inv M hM calls
  refine ⟨rfl, rfl, rfl, rfl, rfl, rfl, h1, h2, rfl, ?_, ?_⟩
  · rw [writerAfter_append]
    rfl
  · intro k
    obtain ⟨b1, b2⟩ := callsSinceReset_replicate .NextBufferInfo (by decide) calls k
    obtain ⟨i1, i2⟩ := callsSinceReset_replicate .NextImageInfo (by decide) calls k
    have hb1 := NextBufferInfo_after M hM (calls ++ .Reset :: List.replicate k .NextBufferInfo)
    have hb2 := NextBufferInfo_after M hM (List.replicate k .NextBufferInfo)
    have hi1 := NextImageInfo_after M hM (calls ++ .Reset :: List.replicate k .NextImageInfo)
    have hi2 := NextImageInfo_after M hM (List.replicate k .NextImageInfo)
    rw [b1] at hb1
    rw [b2] at hb2
    rw [i1] at hi1
    rw [i2] at hi2
    refine ⟨fun hlt => ⟨hb1.1 hlt, hb2.1 hlt, hi1.1 hlt, hi2.1 hlt⟩, fun hge => ?_⟩
    refine ⟨?_, ?_, ?_, ?_⟩
    · rw [hb1.2 hge]
    · rw [hb2.2 hge]
    · rw [hi1.2 hge]
    · rw [hi2.2 hge]

/-- Witness of C13: a writer of capacity 1 that is exhausted hands out entry 0 again after
`Reset`, and null on the call after that. -/
theorem C13_reset_witness :
    (writerAfter 1 ([.NextBufferInfo, .NextBufferInfo, .NextWriteDescriptor] ++
        .Reset :: List.replicate 0 .NextBufferInfo)).NextBufferInfo.1 = some 0 ∧
    (writerAfter 1 ([.NextBufferInfo, .NextBufferInfo, .NextWriteDescriptor] ++
        .Reset :: List.replicate 1 .NextBufferInfo)).NextBufferInfo.1 = none :=
  ⟨((C13_reset 1 (by decide) [.NextBufferInfo, .NextBufferInfo, .NextWriteDescriptor]
      []).2.2.2.2.2.2.2.2.2.2 0).1 (by decide) |>.1,
   ((C13_reset 1 (by decide) [.NextBufferInfo, .NextBufferInfo, .NextWriteDescriptor]
      []).2.2.2.2.2.2.2.2.2.2 1).2 (by decide) |>.1⟩

/-- C15: the call to `NextBufferInfo` that follows `k < M` such calls since construction or
the last `Reset` returns scratch entry `k` of the buffer array, whatever other calls were
made in between, none of which changes the buffer counter; so two entries returned without a
`Reset` in between differ. The same holds for `NextImageInfo`, and a writer of capacity `M`
hands out `M` buffer entries and `M` image entries together. -/
theorem C15_independent_counters (M : Nat) (hM : M < 2 ^ 32) (calls : List WriterCall) :
    (callsSinceReset .NextBufferInfo calls < M →
      (writerAfter M calls).NextBufferInfo.1 = some (callsSinceReset .NextBufferInfo calls)) ∧
    (callsSinceReset .NextImageInfo calls < M →
      (writerAfter M calls).NextImageInfo.1 = some (callsSinceReset .NextImageInfo calls)) ∧
    (∀ c : WriterCall, c ≠ .Reset → c ≠ .NextBufferInfo →
      (writerAfter M (calls ++ [c])).numBufferInfos_ = (writerAfter M calls).numBufferInfos_) ∧
    (∀ c : WriterCall, c ≠ .Reset → c ≠ .NextImageInfo →
      (writerAfter M (calls ++ [c])).numImageInfos_ = (writerAfter M calls).numImageInfos_) ∧
    (∀ more e1 e2, WriterCall.Reset ∉ more →
      (writerAfter M calls).NextBufferInfo.1 = some e1 →
      (writerAfter M (calls ++ .NextBufferInfo :: more)).NextBufferInfo.1 = some e2 →
      e1 < e2) ∧
    (∀ more e1 e2, WriterCall.Reset ∉ more →
      (writerAfter M calls).NextImageInfo.1 = some e1 →
      (writerAfter M (calls ++ .NextImageInfo :: more)).NextImageInfo.1 = some e2 →
      e1 < e2) ∧
    (∀ i j, i < M → j < M →
      (writerAfter M (List.replicate i .NextBufferInfo ++ List.replicate j .NextImageInfo)
        ).NextBufferInfo.1 = some i ∧
      (writerAfter M (List.replicate i .NextBufferInfo ++ List.replicate j .NextImageInfo)
        ).NextImageInfo.1 = some j) := by
  refine ⟨(NextBufferInfo_after M hM calls).1, (NextImageInfo_after M hM calls).1,
    ?_, ?_, ?_, ?_, ?_⟩
  · intro c hr hc
    obtain ⟨-, -, h3, -, -, -⟩ := writerAfter_inv M hM (calls ++ [c])
    obtain ⟨-, -, g3, -, -, -⟩ := writerAfter_inv M hM calls
    rw [h3, g3, callsSinceReset_append, if_neg hr, if_neg hc]
  · intro c hr hc
    obtain ⟨-, -, -, h4, -, -⟩ := writerAfter_inv M hM (calls ++ [c])
    obtain ⟨-, -, -, g4, -, -⟩ := writerAfter_inv M hM calls
    rw [h4, g4, callsSinceReset_append, if_neg hr, if_neg hc]
  · intro more e1 e2 hno h1 h2
    obtain ⟨a1, -⟩ := NextBufferInfo_some M hM _ _ h1
    obtain ⟨a2, -⟩ := NextBufferInfo_some M hM _ _ h2
    have hno2 : WriterCall.Reset ∉ WriterCall.NextBufferInfo :: more := by
      simp [hno]
    rw [callsSinceReset_append_noReset _ (by decide) _ _ hno2] at a2
    rw [a1, a2, List.count_cons_self]
    omega
  · intro more e1 e2 hno h1 h2
    obtain ⟨a1, -⟩ := NextImageInfo_some M hM _ _ h1
    obtain ⟨a2, -⟩ := NextImageInfo_some M hM _ _ h2
    have hno2 : WriterCall.Reset ∉ WriterCall.NextImageInfo :: more := by
      simp [hno]
    rw [callsSinceReset_append_noReset _ (by decide) _ _ hno2] at a2
    rw [a1, a2, List.count_cons_self]
    omega
  · intro i j hi hj
    have hnoB : WriterCall.Reset ∉ List.replicate i WriterCall.NextBufferInfo := by
      intro h; have := List.eq_of_mem_replicate h; cases this
    have hnoI : WriterCall.Reset ∉ List.replicate j WriterCall.NextImageInfo := by
      intro h; have := List.eq_of_mem_replicate h; cases this
    have hno : WriterCall.Reset ∉
        List.replicate i WriterCall.NextBufferInfo ++ List.replicate j WriterCall.NextImageInfo := by
      intro h
      rcases List.mem_append.mp h with h | h
      · exact hnoB h
      · exact hnoI h
    have cB : callsSinceReset .NextBufferInfo
        (List.replicate i .NextBufferInfo ++ List.replicate j .NextImageInfo) = i := by
      have := callsSinceReset_append_noReset .NextBufferInfo (by decide) [] _ hno
      simp only [List.nil_append] at this
      rw [this]
      simp [callsSinceReset, List.count_replicate]
    have cI : callsSinceReset .NextImageInfo
        (List.replicate i .NextBufferInfo ++ List.replicate j .NextImageInfo) = j := by
      have := callsSinceReset_append_noReset .NextImageInfo (by decide) [] _ hno
      simp only [List.nil_append] at this
      rw [this]
      simp [callsSinceReset, List.count_replicate]
    have hB := (NextBufferInfo_after M hM
      (List.replicate i .NextBufferInfo ++ List.replicate j .NextImageInfo)).1
    have hI := (NextImageInfo_after M hM
      (List.replicate i .NextBufferInfo ++ List.replicate j .NextImageInfo)).1
    rw [cB] at hB
    rw [cI] at hI
    exact ⟨hB hi, hI hj⟩

/-- Witness of C15: on a writer of capacity 2, after one buffer entry and two image entries
(and a write record and a flush in between) the next buffer entry is entry 1. -/
theorem C15_independent_counters_witness :
    (writerAfter 2
      [.NextBufferInfo, .NextImageInfo, .NextWriteDescriptor, .UpdateDescriptorSets,
        .NextImageInfo]).NextBufferInfo.1 = some 1 :=
  (C15_independent_counters 2 (by decide)
    [.NextBufferInfo, .NextImageInfo, .NextWriteDescriptor, .UpdateDescriptorSets,
      .NextImageInfo]).1 (by decide)

/-! ## The stage flag conversion -/

theorem GetVkShaderStageFlags_eq (K : Constants) (flags : Nat) :
    GetVkShaderStageFlags K flags =
      stageBit flags K.StageFlags_VertexStage K.VK_SHADER_STAGE_VERTEX_BIT |||
      stageBit flags K.StageFlags_TessControlStage K.VK_SHADER_STAGE_TESSELLATION_CONTROL_BIT |||
      stageBit flags K.StageFlags_TessEvaluationStage
        K.VK_SHADER_STAGE_TESSELLATION_EVALUATION_BIT |||
      stageBit flags K.StageFlags_GeometryStage K.VK_SHADER_STAGE_GEOMETRY_BIT |||
      stageBit flags K.StageFlags_FragmentStage K.VK_SHADER_STAGE_FRAGMENT_BIT |||
      stageBit flags K.StageFlags_ComputeStage K.VK_SHADER_STAGE_COMPUTE_BIT := by
  unfold GetVkShaderStageFlags stageBit
  simp only []
  split_ifs <;> simp

theorem stageBit_or (a b stage bit : Nat) :
    stageBit (a ||| b) stage bit = stageBit a stage bit ||| stageBit b stage bit := by
  unfold stageBit
  have h : (a ||| b) &&& stage = (a &&& stage) ||| (b &&& stage) := by
    rw [Nat.and_comm, Nat.and_or_distrib_left, Nat.and_comm stage a, Nat.and_comm stage b]
  rw [h]
  by_cases ha : a &&& stage = 0 <;> by_cases hb : b &&& stage = 0 <;>
    simp [ha, hb, or_eq_zero_iff]

theorem or_shuffle (a1 a2 a3 a4 a5 a6 b1 b2 b3 b4 b5 b6 : Nat) :
    (a1 ||| b1) ||| (a2 ||| b2) ||| (a3 ||| b3) ||| (a4 ||| b4) ||| (a5 ||| b5) ||| (a6 ||| b6)
      = (a1 ||| a2 ||| a3 ||| a4 ||| a5 ||| a6) ||| (b1 ||| b2 ||| b3 ||| b4 ||| b5 ||| b6) := by
  apply Nat.eq_of_testBit_eq
  intro i
  simp only [Nat.testBit_or]
  cases a1.testBit i <;> cases a2.testBit i <;> cases a3.testBit i <;> cases a4.testBit i <;>
    cases a5.testBit i <;> cases a6.testBit i <;> simp

theorem GetVkShaderStageFlags_or (K : Constants) (a b : Nat) :
    GetVkShaderStageFlags K (a ||| b)
      = GetVkShaderStageFlags K a ||| GetVkShaderStageFlags K b := by
  simp only [GetVkShaderStageFlags_eq, stageBit_or]
  exact or_shuffle _ _ _ _ _ _ _ _ _ _ _ _

theorem or_and_right (x y z : Nat) : (x ||| y) &&& z = (x &&& z) ||| (y &&& z) := by
  rw [Nat.and_comm, Nat.and_or_distrib_left, Nat.and_comm z x, Nat.and_comm z y]

theorem stageBit_and (flags stage bit other : Nat) :
    stageBit flags stage bit &&& other = if flags &&& stage ≠ 0 then bit &&& other else 0 := by
  unfold stageBit
  split <;> simp

theorem separateBits_six (a b c d e f : Nat) (h : separateBits [a, b, c, d, e, f]) :
    (a ≠ 0 ∧ b ≠ 0 ∧ c ≠ 0 ∧ d ≠ 0 ∧ e ≠ 0 ∧ f ≠ 0) ∧
    (a &&& b = 0 ∧ a &&& c = 0 ∧ a &&& d = 0 ∧ a &&& e = 0 ∧ a &&& f = 0) ∧
    (b &&& a = 0 ∧ b &&& c = 0 ∧ b &&& d = 0 ∧ b &&& e = 0 ∧ b &&& f = 0) ∧
    (c &&& a = 0 ∧ c &&& b = 0 ∧ c &&& d = 0 ∧ c &&& e = 0 ∧ c &&& f = 0) ∧
    (d &&& a = 0 ∧ d &&& b = 0 ∧ d &&& c = 0 ∧ d &&& e = 0 ∧ d &&& f = 0) ∧
    (e &&& a = 0 ∧ e &&& b = 0 ∧ e &&& c = 0 ∧ e &&& d = 0 ∧ e &&& f = 0) ∧
    (f &&& a = 0 ∧ f &&& b = 0 ∧ f &&& c = 0 ∧ f &&& d = 0 ∧ f &&& e = 0) := by
  obtain ⟨hne, hp⟩ := h
  simp only [List.mem_cons, List.mem_singleton, List.not_mem_nil, or_false, forall_eq_or_imp,
    forall_eq] at hne
  simp only [List.pairwise_cons, List.mem_cons, List.mem_singleton, List.not_mem_nil, or_false,
    forall_eq_or_imp, forall_eq, List.Pairwise.nil, and_true, false_implies, implies_true] at hp
  obtain ⟨⟨ab, ac, ad, ae, af⟩, ⟨bc, bd, be, bf⟩, ⟨cd, ce, cf⟩, ⟨de, df⟩, ef⟩ := hp
  refine ⟨hne, ⟨ab, ac, ad, ae, af⟩, ⟨?_, bc, bd, be, bf⟩, ⟨?_, ?_, cd, ce, cf⟩,
    ⟨?_, ?_, ?_, de, df⟩, ⟨?_, ?_, ?_, ?_, ef⟩, ⟨?_, ?_, ?_, ?_, ?_⟩⟩ <;>
    (rw [Nat.and_comm]; assumption)

theorem separateBits_nodup (l : List Nat) (h : separateBits l) : l.Nodup := by
  obtain ⟨hne, hp⟩ := h
  unfold List.Nodup
  refine List.Pairwise.imp_of_mem ?_ hp
  intro a b ha _ hab heq
  subst heq
  rw [Nat.and_self] at hab
  exact hne a ha hab

/-- C16: `GetVkShaderStageFlags` maps the bitwise or of two masks to the bitwise or of their
conversions and `0` to `0`, and ignores every bit that belongs to none of the six stage
masks. When the six stage masks are non-zero and share no bit, each of them is converted to
its own native bit; when the six native bits are non-zero and share no bit, they are
pairwise distinct and the native bit of a stage is set in the result exactly when the stage
is set in the input. -/
theorem C16_stage_flags_homomorphism (K : Constants) :
    (∀ a b, GetVkShaderStageFlags K (a ||| b)
      = GetVkShaderStageFlags K a ||| GetVkShaderStageFlags K b) ∧
    GetVkShaderStageFlags K 0 = 0 ∧
    (∀ a x, (∀ stage ∈ K.stageFlags, x &&& stage = 0) →
      GetVkShaderStageFlags K (a ||| x) = GetVkShaderStageFlags K a) ∧
    (separateBits K.stageFlags →
      ∀ p ∈ K.stageFlags.zip K.stageBits, GetVkShaderStageFlags K p.1 = p.2) ∧
    (separateBits K.stageBits →
      K.stageBits.Nodup ∧
      ∀ a, ∀ p ∈ K.stageFlags.zip K.stageBits,
        (GetVkShaderStageFlags K a &&& p.2 ≠ 0 ↔ a &&& p.1 ≠ 0)) := by
  refine ⟨GetVkShaderStageFlags_or K, ?_, ?_, ?_, ?_⟩
  · simp [GetVkShaderStageFlags_eq, stageBit]
  · intro a x hx
    have hx0 : GetVkShaderStageFlags K x = 0 := by
      simp only [Constants.stageFlags, List.mem_cons, List.mem_singleton, List.not_mem_nil,
        or_false, forall_eq_or_imp, forall_eq] at hx
      obtain ⟨h1, h2, h3, h4, h5, h6⟩ := hx
      simp [GetVkShaderStageFlags_eq, stageBit, h1, h2, h3, h4, h5, h6]
    rw [GetVkShaderStageFlags_or, hx0, Nat.or_zero]
  · intro hsep p hp
    obtain ⟨⟨n1, n2, n3, n4, n5, n6⟩, ⟨a2, a3, a4, a5, a6⟩, ⟨b1, b3, b4, b5, b6⟩,
      ⟨c1, c2, c4, c5, c6⟩, ⟨d1, d2, d3, d5, d6⟩, ⟨e1, e2, e3, e4, e6⟩,
      ⟨f1, f2, f3, f4, f5⟩⟩ := separateBits_six _ _ _ _ _ _ hsep
    simp only [Constants.stageFlags, Constants.stageBits, List.zip_cons_cons, List.zip_nil_right,
      List.mem_cons, List.mem_singleton, List.not_mem_nil, or_false] at hp
    rcases hp with rfl | rfl | rfl | rfl | rfl | rfl <;>
      simp [GetVkShaderStageFlags_eq, stageBit, *]
  · intro hsep
    refine ⟨separateBits_nodup _ hsep, ?_⟩
    intro a p hp
    obtain ⟨⟨n1, n2, n3, n4, n5, n6⟩, ⟨a2, a3, a4, a5, a6⟩, ⟨b1, b3, b4, b5, b6⟩,
      ⟨c1, c2, c4, c5, c6⟩, ⟨d1, d2, d3, d5, d6⟩, ⟨e1, e2, e3, e4, e6⟩,
      ⟨f1, f2, f3, f4, f5⟩⟩ := separateBits_six _ _ _ _ _ _ hsep
    simp only [Constants.stageFlags, Constants.stageBits, List.zip_cons_cons, List.zip_nil_right,
      List.mem_cons, List.mem_singleton, List.not_mem_nil, or_false] at hp
    rcases hp with rfl | rfl | rfl | rfl | rfl | rfl <;>
      simp [GetVkShaderStageFlags_eq, or_and_right, stageBit_and, *]

/-- Witness of C16 at the values of the headers: fragment and compute together convert to
`0x30`, and the native vertex bit is set for a mask exactly when its vertex stage is. -/
theorem C16_stage_flags_homomorphism_witness :
    GetVkShaderStageFlags stdConstants (1 <<< 4) = 0x10 ∧
    (∀ a, (GetVkShaderStageFlags stdConstants a &&& 0x01 ≠ 0 ↔ a &&& (1 <<< 0) ≠ 0)) ∧
    GetVkShaderStageFlags stdConstants (5 ||| 64) = GetVkShaderStageFlags stdConstants 5 :=
  ⟨(C16_stage_flags_homomorphism stdConstants).2.2.2.1
      (by unfold separateBits; decide) (1 <<< 4, 0x10) (by decide),
   fun a => ((C16_stage_flags_homomorphism stdConstants).2.2.2.2
      (by unfold separateBits; decide)).2 a (1 <<< 0, 0x01) (by decide),
   (C16_stage_flags_homomorphism stdConstants).2.2.1 5 64 (by decide)⟩

/-! ## The shader binding layout -/

theorem addressed_iff (b : ModuleBinding) (s : BindingSlot) :
    (b.srcDescriptorSet = s.set ∧ b.srcBinding = s.index) ↔ b.srcSlot = s := by
  cases s
  simp [ModuleBinding.srcSlot]
  tauto

theorem AssignBindingSlot_srcSlot (b : ModuleBinding) (s : BindingSlot) (d : Nat)
    (ptr : Option Nat) :
    (VKShaderBindingLayout.AssignBindingSlot b s d ptr).2.srcSlot = b.srcSlot := by
  unfold VKShaderBindingLayout.AssignBindingSlot
  split
  · cases ptr <;> rfl
  · rfl

theorem AssignBindingSlot_not_addressed (b : ModuleBinding) (s : BindingSlot) (d : Nat)
    (ptr : Option Nat) (h : b.srcSlot ≠ s) :
    VKShaderBindingLayout.AssignBindingSlot b s d ptr = (false, b) := by
  unfold VKShaderBindingLayout.AssignBindingSlot
  rw [if_neg (fun hc => h ((addressed_iff b s).mp hc))]

theorem MatchesBindingSlot_not_addressed (b : ModuleBinding) (s : BindingSlot) (d : Nat)
    (ptr : Option Nat) (h : b.srcSlot ≠ s) :
    VKShaderBindingLayout.MatchesBindingSlot b s d ptr = true := by
  unfold VKShaderBindingLayout.MatchesBindingSlot
  rw [if_neg (fun hc => h ((addressed_iff b s).mp hc))]

theorem AssignBindingSlot_of_matches (b : ModuleBinding) (s : BindingSlot) (d : Nat)
    (ptr : Option Nat) (h : VKShaderBindingLayout.MatchesBindingSlot b s d ptr = true) :
    VKShaderBindingLayout.AssignBindingSlot b s d ptr = (false, b) := by
  unfold VKShaderBindingLayout.MatchesBindingSlot at h
  unfold VKShaderBindingLayout.AssignBindingSlot
  split
  · rename_i hc
    rw [if_pos hc] at h
    cases ptr with
    | none =>
      simp only [decide_eq_true_eq] at h
      cases b
      simp_all
    | some p =>
      simp only [Bool.and_eq_true, decide_eq_true_eq] at h
      cases b
      simp_all
  · rfl

theorem MatchesBindingSlot_after_assign (b : ModuleBinding) (s : BindingSlot) (d : Nat)
    (ptr : Option Nat) :
    VKShaderBindingLayout.MatchesBindingSlot
      (VKShaderBindingLayout.AssignBindingSlot b s d ptr).2 s d ptr = true := by
  by_cases h : b.srcSlot = s
  · have hc := (addressed_iff b s).mpr h
    unfold VKShaderBindingLayout.AssignBindingSlot VKShaderBindingLayout.MatchesBindingSlot
    rw [if_pos hc]
    cases ptr <;> simp [hc]
  · rw [AssignBindingSlot_not_addressed b s d ptr h]
    exact MatchesBindingSlot_not_addressed b s d ptr h

theorem assignEntry_srcSlot (d : Nat) (asc : Bool) (iter : List BindingSlot) :
    ∀ (p : Nat) (b : ModuleBinding), (assignEntry d asc p iter b).srcSlot = b.srcSlot := by
  induction iter with
  | nil => intro p b; rfl
  | cons s rest ih =>
    intro p b
    unfold assignEntry
    rw [ih, AssignBindingSlot_srcSlot]

theorem assignEntry_not_mem (d : Nat) (asc : Bool) (iter : List BindingSlot) :
    ∀ (p : Nat) (b : ModuleBinding), b.srcSlot ∉ iter → assignEntry d asc p iter b = b := by
  induction iter with
  | nil => intro p b _; rfl
  | cons s rest ih =>
    intro p b hb
    have hs : b.srcSlot ≠ s := fun h => hb (by simp [h])
    have hr : b.srcSlot ∉ rest := fun h => hb (List.mem_cons_of_mem _ h)
    unfold assignEntry
    rw [AssignBindingSlot_not_addressed b s d _ hs]
    exact ih (p + 1) b hr

theorem assignEntry_same_set (d : Nat) (iter : List BindingSlot) :
    ∀ (p : Nat) (b : ModuleBinding), b.dstDescriptorSet = d →
      assignEntry d false p iter b = b := by
  induction iter with
  | nil => intro p b _; rfl
  | cons s rest ih =>
    intro p b hb
    unfold assignEntry
    have h1 : (VKShaderBindingLayout.AssignBindingSlot b s d
        (if false = true then some p else none)).2 = b := by
      have hm : VKShaderBindingLayout.MatchesBindingSlot b s d
          (if false = true then some p else none) = true := by
        unfold VKShaderBindingLayout.MatchesBindingSlot
        split <;> simp [hb]
      rw [AssignBindingSlot_of_matches b s d _ hm]
    rw [h1]
    exact ih (p + 1) b hb

theorem assignFrom_table (d : Nat) (asc : Bool) (iter : List BindingSlot) :
    ∀ (p n : Nat) (T : List ModuleBinding),
      (VKShaderBindingLayout.assignFrom d asc p iter (n, T)).2
        = T.map (assignEntry d asc p iter) := by
  induction iter with
  | nil => intro p n T; simp [VKShaderBindingLayout.assignFrom, assignEntry]
  | cons s rest ih =>
    intro p n T
    unfold VKShaderBindingLayout.assignFrom
    simp only []
    rw [ih]
    simp only [List.map_map]
    apply List.map_congr_left
    intro b _
    simp [assignEntry]

theorem assignFrom_of_matches (d : Nat) (asc : Bool) (iter : List BindingSlot) :
    ∀ (p n : Nat) (T : List ModuleBinding),
      VKShaderBindingLayout.matchesFrom T d asc p iter = true →
      VKShaderBindingLayout.assignFrom d asc p iter (n, T) = (n, T) := by
  induction iter with
  | nil => intro p n T _; rfl
  | cons s rest ih =>
    intro p n T h
    unfold VKShaderBindingLayout.matchesFrom at h
    rw [Bool.and_eq_true, List.all_eq_true] at h
    obtain ⟨h1, h2⟩ := h
    unfold VKShaderBindingLayout.assignFrom
    simp only []
    have hmap : T.map (fun binding =>
        VKShaderBindingLayout.AssignBindingSlot binding s d (if asc then some p else none))
        = T.map (fun binding => (false, binding)) := by
      apply List.map_congr_left
      intro b hb
      exact AssignBindingSlot_of_matches b s d _ (h1 b hb)
    rw [hmap]
    have hcount : List.countP (fun result : Bool × ModuleBinding => result.1)
        (T.map (fun binding => (false, binding))) = 0 := by
      rw [List.countP_eq_zero]
      intro x hx
      obtain ⟨b, -, rfl⟩ := List.mem_map.mp hx
      simp
    have hsnd : (T.map (fun binding => ((false, binding) : Bool × ModuleBinding))).map
        (fun result => result.2) = T := by
      simp [List.map_map, Function.comp_def]
    rw [hcount, hsnd, Nat.add_zero]
    exact ih (p + 1) n T h2

theorem matchesFrom_after_assign (d : Nat) (asc : Bool) (iter : List BindingSlot) :
    ∀ (p : Nat) (T : List ModuleBinding),
      (asc = true → ∀ b ∈ T, iter.count b.srcSlot ≤ 1) →
      VKShaderBindingLayout.matchesFrom (T.map (assignEntry d asc p iter)) d asc p iter
        = true := by
  induction iter with
  | nil => intro p T _; rfl
  | cons s rest ih =>
    intro p T hT
    unfold VKShaderBindingLayout.matchesFrom
    rw [Bool.and_eq_true, List.all_eq_true]
    constructor
    · intro x hx
      obtain ⟨b, hb, rfl⟩ := List.mem_map.mp hx
      by_cases hs : b.srcSlot = s
      · have hkeep : assignEntry d asc p (s :: rest) b
            = (VKShaderBindingLayout.AssignBindingSlot b s d
                (if asc then some p else none)).2 := by
          unfold assignEntry
          cases hasc : asc with
          | true =>
            have hc := hT hasc b hb
            rw [hs, List.count_cons_self] at hc
            have hnot : s ∉ rest := by
              intro hmem
              have := List.count_pos_iff.mpr hmem
              omega
            apply assignEntry_not_mem
            rw [AssignBindingSlot_srcSlot, hs]
            exact hnot
          | false =>
            apply assignEntry_same_set
            have hc := (addressed_iff b s).mpr hs
            unfold VKShaderBindingLayout.AssignBindingSlot
            rw [if_pos hc]
            rfl
        rw [hkeep]
        exact MatchesBindingSlot_after_assign b s d _
      · apply MatchesBindingSlot_not_addressed
        rw [assignEntry_srcSlot]
        exact hs
    · have hstep : T.map (assignEntry d asc p (s :: rest))
          = (T.map (fun b => (VKShaderBindingLayout.AssignBindingSlot b s d
              (if asc then some p else none)).2)).map (assignEntry d asc (p + 1) rest) := by
        rw [List.map_map]
        apply List.map_congr_left
        intro b _
        simp [assignEntry]
      rw [hstep]
      apply ih
      intro hasc x hx
      obtain ⟨b, hb, rfl⟩ := List.mem_map.mp hx
      rw [AssignBindingSlot_srcSlot]
      have hc := hT hasc b hb
      have hle : rest.count b.srcSlot ≤ (s :: rest).count b.srcSlot := by
        rw [List.count_cons]
        omega
      omega

theorem assignEntry_dstBinding_ge (d : Nat) (iter : List BindingSlot) :
    ∀ (p : Nat) (b : ModuleBinding), b.srcSlot ∈ iter →
      p ≤ (assignEntry d true p iter b).dstBinding := by
  induction iter with
  | nil => intro p b h; simp at h
  | cons s rest ih =>
    intro p b hb
    unfold assignEntry
    by_cases hr : b.srcSlot ∈ rest
    · have := ih (p + 1)
        (VKShaderBindingLayout.AssignBindingSlot b s d (if true = true then some p else none)).2
        (by rw [AssignBindingSlot_srcSlot]; exact hr)
      omega
    · have hs : b.srcSlot = s := by
        rcases List.mem_cons.mp hb with h | h
        · exact h
        · exact absurd h hr
      rw [assignEntry_not_mem d true rest (p + 1) _
        (by rw [AssignBindingSlot_srcSlot]; exact hr)]
      have hc := (addressed_iff b s).mpr hs
      unfold VKShaderBindingLayout.AssignBindingSlot
      rw [if_pos hc]
      simp

theorem matchesFrom_false_of_repeated (d : Nat) (iter : List BindingSlot) :
    ∀ (p : Nat) (T : List ModuleBinding) (b : ModuleBinding), b ∈ T →
      2 ≤ iter.count b.srcSlot →
      VKShaderBindingLayout.matchesFrom (T.map (assignEntry d true p iter)) d true p iter
        = false := by
  induction iter with
  | nil => intro p T b _ h; simp at h
  | cons s rest ih =>
    intro p T b hb hcount
    unfold VKShaderBindingLayout.matchesFrom
    rw [Bool.and_eq_false_iff]
    by_cases hs : b.srcSlot = s
    · left
      rw [List.all_eq_false]
      refine ⟨assignEntry d true p (s :: rest) b, List.mem_map_of_mem _ hb, ?_⟩
      have hmem : s ∈ rest := by
        rw [hs, List.count_cons_self] at hcount
        exact List.count_pos_iff.mp (by omega)
      have hge : p + 1 ≤ (assignEntry d true p (s :: rest) b).dstBinding := by
        unfold assignEntry
        apply assignEntry_dstBinding_ge
        rw [AssignBindingSlot_srcSlot, hs]
        exact hmem
      have hsrc := assignEntry_srcSlot d true (s :: rest) p b
      have hc := (addressed_iff _ s).mpr (hsrc.trans hs)
      unfold VKShaderBindingLayout.MatchesBindingSlot
      rw [if_pos hc]
      simp only [if_true, Bool.and_eq_true, decide_eq_true_eq, not_and]
      intro _
      omega
    · right
      have hstep : T.map (assignEntry d true p (s :: rest))
          = (T.map (fun b => (VKShaderBindingLayout.AssignBindingSlot b s d
              (if true = true then some p else none)).2)).map
              (assignEntry d true (p + 1) rest) := by
        rw [List.map_map]
        apply List.map_congr_left
        intro b _
        simp [assignEntry]
      rw [hstep]
      apply ih (p + 1) _
        (VKShaderBindingLayout.AssignBindingSlot b s d (if true = true then some p else none)).2
      · exact List.mem_map_of_mem _ hb
      · rw [AssignBindingSlot_srcSlot]
        have hne : ¬ s = b.srcSlot := fun h => hs h.symm
        rw [List.count_cons] at hcount
        simp only [beq_iff_eq, hne, if_false, Nat.add_zero] at hcount
        exact hcount

/-- On the model of the two methods: when, with the ascending-order flag set, no slot that
addresses a binding of the module occurs more than once in the binding list, then right
after `AssignBindingSlots(list, dstSet, order)` the call
`MatchesBindingSlots(list, dstSet, order)` returns true and a second
`AssignBindingSlots(list, dstSet, order)` returns 0 and leaves the binding table unchanged;
without the flag this holds for every binding list. With the flag set, a slot that addresses
a binding of the module and occurs twice makes `MatchesBindingSlots` return false. -/
theorem idempotent_unless_slot_repeated (self : VKShaderBindingLayout) (iter : List BindingSlot)
    (dstSet : Nat) (dstBindingInAscendingOrder : Bool) :
    ((dstBindingInAscendingOrder = true →
        ∀ binding ∈ self.bindings_, iter.count binding.srcSlot ≤ 1) →
      (self.AssignBindingSlots iter dstSet dstBindingInAscendingOrder).2.MatchesBindingSlots
          iter dstSet dstBindingInAscendingOrder = true ∧
      (self.AssignBindingSlots iter dstSet dstBindingInAscendingOrder).2.AssignBindingSlots
          iter dstSet dstBindingInAscendingOrder
        = (0, (self.AssignBindingSlots iter dstSet dstBindingInAscendingOrder).2)) ∧
    (dstBindingInAscendingOrder = true →
      (∃ binding ∈ self.bindings_, 2 ≤ iter.count binding.srcSlot) →
      (self.AssignBindingSlots iter dstSet dstBindingInAscendingOrder).2.MatchesBindingSlots
          iter dstSet dstBindingInAscendingOrder = false) := by
  have htable : (self.AssignBindingSlots iter dstSet dstBindingInAscendingOrder).2.bindings_
      = self.bindings_.map (assignEntry dstSet dstBindingInAscendingOrder 0 iter) := by
    unfold VKShaderBindingLayout.AssignBindingSlots
    exact assignFrom_table dstSet dstBindingInAscendingOrder iter 0 0 self.bindings_
  constructor
  · intro h
    have hm : (self.AssignBindingSlots iter dstSet dstBindingInAscendingOrder
        ).2.MatchesBindingSlots iter dstSet dstBindingInAscendingOrder = true := by
      unfold VKShaderBindingLayout.MatchesBindingSlots
      rw [htable]
      exact matchesFrom_after_assign dstSet dstBindingInAscendingOrder iter 0 self.bindings_ h
    refine ⟨hm, ?_⟩
    unfold VKShaderBindingLayout.MatchesBindingSlots at hm
    have := assignFrom_of_matches dstSet dstBindingInAscendingOrder iter 0 0 _ hm
    show (_, _) = (_, _)
    simp only [VKShaderBindingLayout.AssignBindingSlots] at this ⊢
    rw [this]
  · intro hasc hrep
    subst hasc
    obtain ⟨b, hb, hcount⟩ := hrep
    unfold VKShaderBindingLayout.MatchesBindingSlots
    rw [htable]
    exact matchesFrom_false_of_repeated dstSet iter 0 self.bindings_ b hb hcount

end LLGL
